import Mathlib

/-!
# Ephemeral token store of the movie-catalog backend

A shallow embedding of the three Redis-backed repositories

* `authorization/repository/session/session_repo.go` (`SessionRepo`),
* `authorization/repository/csrf/csrf_repo.go` (`CsrfRepo`),
* `films/repository/film/repo_redis_film.go` (`FilmRedisRepo`),

together with the part of the key-value backend they talk to.  The backend is
an explicit state (`redis.Client`) threaded through every operation; the
repositories are translated statement by statement.  Logging has no effect on
results or on the backend and is left out.

On top of them come the probe loops with their `sync.RWMutex`, the use cases
of `authorization/usecase/core.go`, `films/usecase/core.go` and
`comments/usecase/core.go`, and the HTTP handlers the statements are about.
A repository or core behind an interface is given by the answers it returns;
a use case or handler returns, next to its result, the calls it made.
-/

namespace Vkladyshi

/-! ## Go values -/

/-- Go `error` values: a `proto.RedisError` (a reply of the server, compared by
its text), any other error of a collaborator (network, SQL, ...), a
package-level `errors.New` value (compared by identity, here by the name of
its variable), or the result of `fmt.Errorf` with a `%w` verb, which wraps the
error it formats.  A nil error is `none : Option Error`. -/
inductive Error where
  | redisError (msg : String)
  | other (msg : String)
  | sentinel (name : String)
  | wrapped (format : String) (inner : Error)
  deriving DecidableEq, Repr

namespace errors

/-- `errors.Is(err, target)` for the errors above: `err` or an error down its
chain of wrapped errors is `target`. -/
def Is : Error → Error → Bool
  | .wrapped format inner, target =>
    decide (Error.wrapped format inner = target) || Is inner target
  | err, target => decide (err = target)

end errors

/-- Nanoseconds, as in Go's `time.Duration`. -/
abbrev Duration := Nat

/-- The constant `time.Hour`. -/
def Hour : Duration := 3600 * 1000000000

/-! ## The key-value backend (`github.com/go-redis/redis/v8`) -/

namespace redis

/-- The sentinel `redis.Nil`: the reply of `GET` on an absent key. -/
def Nil : Error := .redisError "redis: nil"

/-- The reply of a command applied to a key of the other kind. -/
def WrongType : Error :=
  .redisError "WRONGTYPE Operation against a key holding the wrong kind of value"

/-- A hash: finitely many fields, each field at most once. -/
abbrev Hash := AList (fun _ : String => String)

/-- What a key holds: a string with the expiry it was written with, or a hash
(hashes are written without expiry). -/
inductive Value where
  | str (v : String) (expiration : Duration)
  | hash (h : Hash)
  deriving DecidableEq

/-- The commands the repositories send. -/
inductive Cmd where
  | ping
  | set (key value : String) (expiration : Duration)
  | get (key : String)
  | del (key : String)
  | hset (key field value : String)
  | hexists (key field : String)
  | hgetall (key : String)
  | hdel (key field : String)
  deriving DecidableEq, Repr

/-- How a round trip can go wrong: the command never reaches the server
(`refused`), or the server executes it and the reply does not come back
(`lost`).  Either way the caller gets the error. -/
inductive Fault where
  | refused (e : Error)
  | lost (e : Error)
  deriving DecidableEq, Repr

/-- The client together with the server behind it: the keyspace, the behaviour
of the backend at the coming round trips (`none`: the command is executed and
answered; an exhausted list means no fault), and the commands sent so far,
oldest first. -/
structure Client where
  db : String → Option Value
  faults : List (Option Fault)
  log : List Cmd

/-- An empty keyspace behind a backend that answers every command. -/
def Client.empty : Client := ⟨fun _ => none, [], []⟩

/-- The keyspace with `key` rebound. -/
def bind (db : String → Option Value) (key : String) (v : Option Value) :
    String → Option Value :=
  fun k => if k = key then v else db k

/-- The behaviour of the backend at the next round trip. -/
def Client.behaviour (c : Client) : Option Fault :=
  c.faults.headD none

/-- The client after one round trip that leaves the keyspace as `db`: the
command is logged and the behaviour consumed. -/
def Client.sent (c : Client) (cmd : Cmd) (db : String → Option Value) : Client :=
  { db := db, faults := c.faults.tail, log := c.log ++ [cmd] }

/-- Effect of `SET key value EX expiration` on the keyspace: the key is
overwritten whatever it held. -/
def applySet (db : String → Option Value) (key value : String) (expiration : Duration) :
    String → Option Value :=
  bind db key (some (.str value expiration))

/-- Reply of `GET key`. -/
def replyGet (db : String → Option Value) (key : String) : String × Option Error :=
  match db key with
  | none => ("", some Nil)
  | some (.str v _) => (v, none)
  | some (.hash _) => ("", some WrongType)

/-- Reply of `DEL key`: the number of keys removed. -/
def replyDel (db : String → Option Value) (key : String) : Int :=
  match db key with
  | none => 0
  | some _ => 1

/-- Effect and reply of `HSET key field value`: the number of fields added. -/
def applyHSet (db : String → Option Value) (key field value : String) :
    (Int × Option Error) × (String → Option Value) :=
  match db key with
  | none => ((1, none), bind db key (some (.hash (AList.insert field value ∅))))
  | some (.hash h) =>
    ((if field ∈ h.keys then 0 else 1, none), bind db key (some (.hash (h.insert field value))))
  | some (.str _ _) => ((0, some WrongType), db)

/-- Reply of `HEXISTS key field`. -/
def replyHExists (db : String → Option Value) (key field : String) : Bool × Option Error :=
  match db key with
  | none => (false, none)
  | some (.hash h) => (decide (field ∈ h.keys), none)
  | some (.str _ _) => (false, some WrongType)

/-- Reply of `HGETALL key`, as the Go map the client builds from it: the
fields with their values, every field once, in no meaningful order. -/
def replyHGetAll (db : String → Option Value) (key : String) :
    List (String × String) × Option Error :=
  match db key with
  | none => ([], none)
  | some (.hash h) => (h.entries.map (fun e => (e.1, e.2)), none)
  | some (.str _ _) => ([], some WrongType)

/-- Effect and reply of `HDEL key field`: the number of fields removed; a hash
that loses its last field is removed with its key. -/
def applyHDel (db : String → Option Value) (key field : String) :
    (Int × Option Error) × (String → Option Value) :=
  match db key with
  | none => ((0, none), db)
  | some (.hash h) =>
    if field ∈ h.keys then
      ((1, none),
        bind db key (if (h.erase field).entries.isEmpty then none
          else some (.hash (h.erase field))))
    else ((0, none), db)
  | some (.str _ _) => ((0, some WrongType), db)

/-- `client.Set(ctx, key, value, expiration)`; the error of the status reply. -/
def Client.Set (c : Client) (key value : String) (expiration : Duration) :
    Option Error × Client :=
  match c.behaviour with
  | some (.refused e) => (some e, c.sent (.set key value expiration) c.db)
  | some (.lost e) =>
    (some e, c.sent (.set key value expiration) (applySet c.db key value expiration))
  | none => (none, c.sent (.set key value expiration) (applySet c.db key value expiration))

/-- `client.Get(ctx, key).Result()`. -/
def Client.Get (c : Client) (key : String) : (String × Option Error) × Client :=
  match c.behaviour with
  | some (.refused e) => (("", some e), c.sent (.get key) c.db)
  | some (.lost e) => (("", some e), c.sent (.get key) c.db)
  | none => (replyGet c.db key, c.sent (.get key) c.db)

/-- `client.Del(ctx, key).Result()`. -/
def Client.Del (c : Client) (key : String) : (Int × Option Error) × Client :=
  match c.behaviour with
  | some (.refused e) => ((0, some e), c.sent (.del key) c.db)
  | some (.lost e) => ((0, some e), c.sent (.del key) (bind c.db key none))
  | none => ((replyDel c.db key, none), c.sent (.del key) (bind c.db key none))

/-- `client.HSet(ctx, key, field, value).Result()`. -/
def Client.HSet (c : Client) (key field value : String) : (Int × Option Error) × Client :=
  match c.behaviour with
  | some (.refused e) => ((0, some e), c.sent (.hset key field value) c.db)
  | some (.lost e) =>
    ((0, some e), c.sent (.hset key field value) (applyHSet c.db key field value).2)
  | none =>
    ((applyHSet c.db key field value).1,
      c.sent (.hset key field value) (applyHSet c.db key field value).2)

/-- `client.HExists(ctx, key, field).Result()`. -/
def Client.HExists (c : Client) (key field : String) : (Bool × Option Error) × Client :=
  match c.behaviour with
  | some (.refused e) => ((false, some e), c.sent (.hexists key field) c.db)
  | some (.lost e) => ((false, some e), c.sent (.hexists key field) c.db)
  | none => (replyHExists c.db key field, c.sent (.hexists key field) c.db)

/-- `client.HGetAll(ctx, key).Result()`. -/
def Client.HGetAll (c : Client) (key : String) :
    (List (String × String) × Option Error) × Client :=
  match c.behaviour with
  | some (.refused e) => (([], some e), c.sent (.hgetall key) c.db)
  | some (.lost e) => (([], some e), c.sent (.hgetall key) c.db)
  | none => (replyHGetAll c.db key, c.sent (.hgetall key) c.db)

/-- `client.HDel(ctx, key, field).Result()`. -/
def Client.HDel (c : Client) (key field : String) : (Int × Option Error) × Client :=
  match c.behaviour with
  | some (.refused e) => ((0, some e), c.sent (.hdel key field) c.db)
  | some (.lost e) => ((0, some e), c.sent (.hdel key field) (applyHDel c.db key field).2)
  | none => ((applyHDel c.db key field).1, c.sent (.hdel key field) (applyHDel c.db key field).2)

/-- `client.Ping(ctx).Result()`. -/
def Client.Ping (c : Client) : (String × Option Error) × Client :=
  match c.behaviour with
  | some (.refused e) => (("", some e), c.sent .ping c.db)
  | some (.lost e) => (("", some e), c.sent .ping c.db)
  | none => (("PONG", none), c.sent .ping c.db)

/-- The hash held by `key`; empty when the key is absent. -/
def hashAt (db : String → Option Value) (key : String) : Hash :=
  match db key with
  | some (.hash h) => h
  | _ => ∅

/-- A backend that executes and answers every coming command. -/
def Client.Healthy (c : Client) : Prop :=
  ∀ f ∈ c.faults, f = none

/-- The backend executes and answers the next command. -/
def Client.Answers (c : Client) : Prop :=
  c.behaviour = none

instance (c : Client) : Decidable c.Healthy := by
  unfold Client.Healthy
  infer_instance

instance (c : Client) : Decidable c.Answers := by
  unfold Client.Answers
  infer_instance

end redis

/-! ## `session_repo.go` -/

/-- The struct `session.Session`; `ExpiresAt` is a `time.Time`, here an instant
in nanoseconds. -/
structure Session where
  Login : String
  SID : String
  ExpiresAt : Nat
  deriving DecidableEq, Repr

/-- The struct `SessionRepo`.  The client pointer is modelled by the state of the
client and of the server behind it. -/
structure SessionRepo where
  sessionRedisClient : redis.Client
  Connection : Bool

/-- The method `(*SessionRepo).CheckActiveSession`. -/
def SessionRepo.CheckActiveSession (redisRepo : SessionRepo) (sid : String) :
    (Bool × Option Error) × SessionRepo :=
  if !redisRepo.Connection then
    ((false, none), redisRepo)
  else
    let r := redisRepo.sessionRedisClient.Get sid
    let err := r.1.2
    let redisRepo1 := { redisRepo with sessionRedisClient := r.2 }
    if err = some redis.Nil then
      ((false, none), redisRepo1)
    else if err ≠ none then
      ((false, err), redisRepo1)
    else
      ((true, none), redisRepo1)

/-- The method `(*SessionRepo).AddSession`: the result of `Set` is dropped and
the answer comes from the confirming `CheckActiveSession`. -/
def SessionRepo.AddSession (redisRepo : SessionRepo) (active : Session) :
    (Bool × Option Error) × SessionRepo :=
  if !redisRepo.Connection then
    ((false, none), redisRepo)
  else
    let w := redisRepo.sessionRedisClient.Set active.SID active.Login (24 * Hour)
    let chk := SessionRepo.CheckActiveSession { redisRepo with sessionRedisClient := w.2 } active.SID
    let sessionAdded := chk.1.1
    let err_check := chk.1.2
    if err_check ≠ none then
      ((false, err_check), chk.2)
    else
      ((sessionAdded, none), chk.2)

/-- The method `(*SessionRepo).GetUserLogin`. -/
def SessionRepo.GetUserLogin (redisRepo : SessionRepo) (sid : String) :
    (String × Option Error) × SessionRepo :=
  if !redisRepo.Connection then
    (("", none), redisRepo)
  else
    let r := redisRepo.sessionRedisClient.Get sid
    let value := r.1.1
    let err := r.1.2
    let redisRepo1 := { redisRepo with sessionRedisClient := r.2 }
    if err ≠ none then
      (("", err), redisRepo1)
    else
      ((value, none), redisRepo1)

/-- The method `(*SessionRepo).DeleteSession`: no test of `Connection`. -/
def SessionRepo.DeleteSession (redisRepo : SessionRepo) (sid : String) :
    (Bool × Option Error) × SessionRepo :=
  let r := redisRepo.sessionRedisClient.Del sid
  let err := r.1.2
  let redisRepo1 := { redisRepo with sessionRedisClient := r.2 }
  if err ≠ none then
    ((false, err), redisRepo1)
  else
    ((true, none), redisRepo1)

/-! ## `csrf_repo.go` -/

/-- The struct `models.Csrf`.  Its declaration is not among the source files; the
fields are those its only constructor call, in `Core.CreateCsrfToken`, sets. -/
structure Csrf where
  SID : String
  ExpiresAt : Nat
  deriving DecidableEq, Repr

/-- The struct `CsrfRepo`. -/
structure CsrfRepo where
  csrfRedisClient : redis.Client
  Connection : Bool

/-- The method `(*CsrfRepo).CheckActiveCsrf`. -/
def CsrfRepo.CheckActiveCsrf (redisRepo : CsrfRepo) (sid : String) :
    (Bool × Option Error) × CsrfRepo :=
  if !redisRepo.Connection then
    ((false, none), redisRepo)
  else
    let r := redisRepo.csrfRedisClient.Get sid
    let err := r.1.2
    let redisRepo1 := { redisRepo with csrfRedisClient := r.2 }
    if err = some redis.Nil then
      ((false, none), redisRepo1)
    else if err ≠ none then
      ((false, err), redisRepo1)
    else
      ((true, none), redisRepo1)

/-- The method `(*CsrfRepo).AddCsrf`: the token is stored as its own value. -/
def CsrfRepo.AddCsrf (redisRepo : CsrfRepo) (active : Csrf) :
    (Bool × Option Error) × CsrfRepo :=
  if !redisRepo.Connection then
    ((false, none), redisRepo)
  else
    let w := redisRepo.csrfRedisClient.Set active.SID active.SID (3 * Hour)
    let chk := CsrfRepo.CheckActiveCsrf { redisRepo with csrfRedisClient := w.2 } active.SID
    let csrfAdded := chk.1.1
    let err_check := chk.1.2
    if err_check ≠ none then
      ((false, err_check), chk.2)
    else
      ((csrfAdded, none), chk.2)

/-- The method `(*CsrfRepo).DeleteSession`: no test of `Connection`. -/
def CsrfRepo.DeleteSession (redisRepo : CsrfRepo) (sid : String) :
    (Bool × Option Error) × CsrfRepo :=
  let r := redisRepo.csrfRedisClient.Del sid
  let err := r.1.2
  let redisRepo1 := { redisRepo with csrfRedisClient := r.2 }
  if err ≠ none then
    ((false, err), redisRepo1)
  else
    ((true, none), redisRepo1)

/-! ## `strconv` -/

namespace strconv

/-- The largest `uint64`. -/
def maxVal : Nat := 2 ^ 64 - 1

/-- The digit table `digits[d]` for `d < 10`. -/
def digit (d : Nat) : Char :=
  match d with
  | 0 => '0' | 1 => '1' | 2 => '2' | 3 => '3' | 4 => '4'
  | 5 => '5' | 6 => '6' | 7 => '7' | 8 => '8' | _ => '9'

/-- The digit loop of `formatBits` in base 10: the digits of `u` are put in
front of `acc`, least significant last.  `fuel` bounds the number of digits. -/
def formatBits : Nat → Nat → List Char → List Char
  | 0, _, acc => acc
  | fuel + 1, u, acc =>
    if u < 10 then digit u :: acc
    else formatBits fuel (u / 10) (digit (u % 10) :: acc)

/-- `strconv.FormatUint(i, 10)`: the decimal numeral of `i`. -/
def FormatUint (i : Nat) : String :=
  String.mk (formatBits (i + 1) i [])

/-- The loop of `ParseUint` in base 10 with bit size 64 over the remaining
bytes, `n` being the value read so far; `none` is a syntax or range error. -/
def parseLoop : List Char → Nat → Option Nat
  | [], n => some n
  | c :: cs, n =>
    if '0' ≤ c ∧ c ≤ '9' then
      let d := c.toNat - '0'.toNat
      if n ≥ maxVal / 10 + 1 then none
      else
        let n10 := (n * 10) % 2 ^ 64
        let n1 := (n10 + d) % 2 ^ 64
        if n1 < n10 ∨ n1 > maxVal then none
        else parseLoop cs n1
    else none

/-- What the loop of `ParseUint` does with one byte. -/
def parseStep (c : Char) (n : Nat) : Option Nat :=
  parseLoop [c] n

/-- `strconv.ParseUint(s, 10, 64)`: `some n` for `(n, nil)`, `none` when the
error is not nil. -/
def ParseUint (s : String) : Option Nat :=
  if s = "" then none else parseLoop s.data 0

end strconv

/-! ## `repo_redis_film.go` -/

/-- The struct `models.NearFilm`; both fields are `uint64`. -/
structure NearFilm where
  IdFilm : Nat
  IdUser : Nat
  deriving DecidableEq, Repr

/-- The struct `FilmRedisRepo`. -/
structure FilmRedisRepo where
  filmRedisClient : redis.Client
  Connection : Bool

/-- The method `(*FilmRedisRepo).CheckActiveNearFilm`. -/
def FilmRedisRepo.CheckActiveNearFilm (redisRepo : FilmRedisRepo) (uid fid : String) :
    (Bool × Option Error) × FilmRedisRepo :=
  if !redisRepo.Connection then
    ((false, none), redisRepo)
  else
    let r := redisRepo.filmRedisClient.HExists ("nearfilms:" ++ uid) fid
    let exists_ := r.1.1
    let err := r.1.2
    let redisRepo1 := { redisRepo with filmRedisClient := r.2 }
    if err ≠ none then
      ((false, err), redisRepo1)
    else
      ((exists_, none), redisRepo1)

/-- The method `(*FilmRedisRepo).AddNearFilm`. -/
def FilmRedisRepo.AddNearFilm (redisRepo : FilmRedisRepo) (active : NearFilm) :
    (Bool × Option Error) × FilmRedisRepo :=
  if !redisRepo.Connection then
    ((false, none), redisRepo)
  else
    let w := redisRepo.filmRedisClient.HSet ("nearfilms:" ++ strconv.FormatUint active.IdUser)
      (strconv.FormatUint active.IdFilm) "1"
    let redisRepo1 := { redisRepo with filmRedisClient := w.2 }
    if w.1.2 ≠ none then
      ((false, w.1.2), redisRepo1)
    else
      let chk := FilmRedisRepo.CheckActiveNearFilm redisRepo1
        (strconv.FormatUint active.IdUser) (strconv.FormatUint active.IdFilm)
      if chk.1.2 ≠ none then
        ((false, chk.1.2), chk.2)
      else
        ((chk.1.1, none), chk.2)

/-- One turn of the loop of `GetNearFilms` over the fields of the hash: a field
or a user id that does not parse is skipped. -/
def nearFilmsStep (uid : String) (nearFilms : List NearFilm) (idFilmStr : String) :
    List NearFilm :=
  match strconv.ParseUint idFilmStr with
  | none => nearFilms
  | some idFilm =>
    match strconv.ParseUint uid with
    | none => nearFilms
    | some idUser => nearFilms ++ [{ IdUser := idUser, IdFilm := idFilm }]

/-- The method `(*FilmRedisRepo).GetNearFilms`; a nil slice is the empty list. -/
def FilmRedisRepo.GetNearFilms (redisRepo : FilmRedisRepo) (uid : String) :
    (List NearFilm × Option Error) × FilmRedisRepo :=
  if !redisRepo.Connection then
    (([], none), redisRepo)
  else
    let r := redisRepo.filmRedisClient.HGetAll ("nearfilms:" ++ uid)
    let result := r.1.1
    let err := r.1.2
    let redisRepo1 := { redisRepo with filmRedisClient := r.2 }
    if err ≠ none then
      (([], err), redisRepo1)
    else
      (((result.map Prod.fst).foldl (nearFilmsStep uid) [], none), redisRepo1)

/-- The method `(*FilmRedisRepo).DeleteNearFilm`: no test of `Connection`; a
count of zero is logged and is not an error. -/
def FilmRedisRepo.DeleteNearFilm (redisRepo : FilmRedisRepo) (uid fid : String) :
    (Bool × Option Error) × FilmRedisRepo :=
  let r := redisRepo.filmRedisClient.HDel ("nearfilms:" ++ uid) fid
  let err := r.1.2
  let redisRepo1 := { redisRepo with filmRedisClient := r.2 }
  if err ≠ none then
    ((false, err), redisRepo1)
  else
    ((true, none), redisRepo1)

/-! ## `sync.RWMutex` and the probe loops

Each repository package has one package-level `sync.RWMutex`, taken by the
probe goroutine of that package and by nothing else.  The lock is an explicit
state; `Lock` and `RLock` that cannot be granted leave the caller waiting. -/

namespace sync

/-- The state of a `sync.RWMutex`: held for writing or not, and the number of
holds for reading. -/
structure RWMutex where
  writer : Bool
  readers : Nat
  deriving DecidableEq, Repr

/-- `rw.Lock()`: granted when nobody holds the lock, for writing or reading;
`none` when the caller has to wait. -/
def RWMutex.Lock (rw : RWMutex) : Option RWMutex :=
  if rw.writer = false ∧ rw.readers = 0 then some { rw with writer := true } else none

/-- `rw.RLock()`: granted when the lock is not held for writing; `none` when
the caller has to wait. -/
def RWMutex.RLock (rw : RWMutex) : Option RWMutex :=
  if rw.writer = false then some { rw with readers := rw.readers + 1 } else none

/-- `rw.Unlock()`; `none` is the fatal error of unlocking a lock not held for
writing. -/
def RWMutex.Unlock (rw : RWMutex) : Option RWMutex :=
  if rw.writer = true then some { rw with writer := false } else none

/-- `rw.RUnlock()`; `none` is the fatal error of unlocking a lock not held for
reading. -/
def RWMutex.RUnlock (rw : RWMutex) : Option RWMutex :=
  if 0 < rw.readers then some { rw with readers := rw.readers - 1 } else none

end sync

/-- The calls on the lock in a probe loop. -/
inductive LockCall where
  | Lock
  | RLock
  | Unlock
  | RUnlock
  deriving DecidableEq, Repr

/-- Where one turn of a probe loop ends: at `time.Sleep`, or waiting in a call
on the lock that is not granted (with no other goroutine to release the lock,
for ever), or in the fatal error of an unlock. -/
inductive Probe (Repo : Type) where
  | sleeping (redisRepo : Repo) (mutex : sync.RWMutex)
  | waiting (call : LockCall) (redisRepo : Repo) (mutex : sync.RWMutex)
  | fatal (call : LockCall)

/-- The assignment `redisRepo.Connection = err == nil` of the session probe. -/
def SessionRepo.writeConnection (redisRepo : SessionRepo) (err : Option Error) : SessionRepo :=
  { redisRepo with Connection := decide (err = none) }

/-- One turn of the loop of `(*SessionRepo).CheckRedisSessionConnection`, from
the ping to the sleep: `Lock`, `RLock`, the assignment, `Unlock`, `RUnlock`. -/
def SessionRepo.CheckRedisSessionConnection (redisRepo : SessionRepo) (mutex : sync.RWMutex) :
    Probe SessionRepo :=
  let p := redisRepo.sessionRedisClient.Ping
  let err := p.1.2
  let redisRepo1 := { redisRepo with sessionRedisClient := p.2 }
  match mutex.Lock with
  | none => .waiting .Lock redisRepo1 mutex
  | some m1 =>
    match m1.RLock with
    | none => .waiting .RLock redisRepo1 m1
    | some m2 =>
      let redisRepo2 := redisRepo1.writeConnection err
      match m2.Unlock with
      | none => .fatal .Unlock
      | some m3 =>
        match m3.RUnlock with
        | none => .fatal .RUnlock
        | some m4 => .sleeping redisRepo2 m4

/-- The assignment `redisRepo.Connection = err == nil` of the CSRF probe. -/
def CsrfRepo.writeConnection (redisRepo : CsrfRepo) (err : Option Error) : CsrfRepo :=
  { redisRepo with Connection := decide (err = none) }

/-- One turn of the loop of `(*CsrfRepo).CheckRedisCsrfConnection`: `RLock`,
`Lock`, the assignment, `Unlock`, `RUnlock`. -/
def CsrfRepo.CheckRedisCsrfConnection (redisRepo : CsrfRepo) (mutex : sync.RWMutex) :
    Probe CsrfRepo :=
  let p := redisRepo.csrfRedisClient.Ping
  let err := p.1.2
  let redisRepo1 := { redisRepo with csrfRedisClient := p.2 }
  match mutex.RLock with
  | none => .waiting .RLock redisRepo1 mutex
  | some m1 =>
    match m1.Lock with
    | none => .waiting .Lock redisRepo1 m1
    | some m2 =>
      let redisRepo2 := redisRepo1.writeConnection err
      match m2.Unlock with
      | none => .fatal .Unlock
      | some m3 =>
        match m3.RUnlock with
        | none => .fatal .RUnlock
        | some m4 => .sleeping redisRepo2 m4

/-- The assignment `redisRepo.Connection = err == nil` of the film probe. -/
def FilmRedisRepo.writeConnection (redisRepo : FilmRedisRepo) (err : Option Error) :
    FilmRedisRepo :=
  { redisRepo with Connection := decide (err = none) }

/-- One turn of the loop of `(*FilmRedisRepo).CheckRedisNearFilmConnection`:
`Lock`, `RLock`, the assignment, `Unlock`, `RUnlock`. -/
def FilmRedisRepo.CheckRedisNearFilmConnection (redisRepo : FilmRedisRepo)
    (mutex : sync.RWMutex) : Probe FilmRedisRepo :=
  let p := redisRepo.filmRedisClient.Ping
  let err := p.1.2
  let redisRepo1 := { redisRepo with filmRedisClient := p.2 }
  match mutex.Lock with
  | none => .waiting .Lock redisRepo1 mutex
  | some m1 =>
    match m1.RLock with
    | none => .waiting .RLock redisRepo1 m1
    | some m2 =>
      let redisRepo2 := redisRepo1.writeConnection err
      match m2.Unlock with
      | none => .fatal .Unlock
      | some m3 =>
        match m3.RUnlock with
        | none => .fatal .RUnlock
        | some m4 => .sleeping redisRepo2 m4

/-- Whether a turn of a probe loop got to its sleep. -/
def Probe.reachedSleep {Repo : Type} : Probe Repo → Bool
  | .sleeping _ _ => true
  | _ => false

/-- The flag of the repository where the turn ended; `none` after a fatal
error. -/
def Probe.flag {Repo : Type} (conn : Repo → Bool) : Probe Repo → Option Bool
  | .sleeping r _ => some (conn r)
  | .waiting _ r _ => some (conn r)
  | .fatal _ => none

/-! ## `authorization/usecase/core.go` -/

/-- The struct `models.UserItem`. -/
structure UserItem where
  Id : Nat
  Name : String
  Birthdate : String
  Photo : String
  Login : String
  Password : String
  RegistrationDate : String
  Email : String
  Role : String
  deriving DecidableEq, Repr

namespace rand

/-- `rand.Intn(n)` at the `i`-th draw from a source whose raw draws are
`src 0`, `src 1`, ...: a number below `n`. -/
def Intn (src : Nat → Nat) (i n : Nat) : Nat :=
  src i % n

end rand

namespace authorization

/-- The methods of `profile.IUserRepo` the use cases below call, as the answers
the repository gives. -/
structure IUserRepo where
  ChangeUsersRole : String → String → Option Error

/-- A call on the user repository. -/
inductive UserCall where
  | ChangeUsersRole (login role : String)
  deriving DecidableEq, Repr

/-- The package-level `ErrNotFound`. -/
def ErrNotFound : Error := .sentinel "authorization/usecase.ErrNotFound"

/-- The package-level `ErrNotAllowed`. -/
def ErrNotAllowed : Error := .sentinel "authorization/usecase.ErrNotAllowed"

/-- The package-level `InvalideEmail`. -/
def InvalideEmail : Error := .sentinel "authorization/usecase.InvalideEmail"

/-- The package-level `letterRunes`. -/
def letterRunes : List Char :=
  "abcdefghijklmnopqrstuvwxyzABCDEFGHIJKLMNOPQRSTUVWXYZ".data

/-- The function `RandStringRunes`: `seed` runes, the `i`-th one being
`letterRunes[rand.Intn(len(letterRunes))]` at the `i`-th draw. -/
def RandStringRunes (src : Nat → Nat) (seed : Nat) : String :=
  String.mk ((List.range seed).map (fun i =>
    letterRunes.get ⟨rand.Intn src i letterRunes.length, Nat.mod_lt _ (by decide)⟩))

/-- The struct `Core`.  Its fields `sessions` and `csrfTokens` are structs, not
pointers.  (Its own `mutex` is taken and released around every call below,
which a single caller is always granted; `lg` only logs.) -/
structure Core where
  sessions : SessionRepo
  users : IUserRepo
  csrfTokens : CsrfRepo

/-- The method `(*Core).GetUserName`. -/
def Core.GetUserName (core : Core) (sid : String) : (String × Option Error) × Core :=
  let r := core.sessions.GetUserLogin sid
  let login := r.1.1
  let err := r.1.2
  let core1 := { core with sessions := r.2 }
  if err ≠ none then
    (("", err), core1)
  else
    ((login, none), core1)

/-- The method `(*Core).CreateSession`; `src` is the random source and `now`
the value of `time.Now()`.  The zero `session.Session{}` is returned when
nothing was added. -/
def Core.CreateSession (core : Core) (src : Nat → Nat) (now : Nat) (login : String) :
    (String × Session × Option Error) × Core :=
  let sid := RandStringRunes src 32
  let newSession : Session := { Login := login, SID := sid, ExpiresAt := now + 24 * Hour }
  let r := core.sessions.AddSession newSession
  let sessionAdded := r.1.1
  let err := r.1.2
  let core1 := { core with sessions := r.2 }
  if !sessionAdded ∧ err ≠ none then
    (("", { Login := "", SID := "", ExpiresAt := 0 }, err), core1)
  else if !sessionAdded then
    (("", { Login := "", SID := "", ExpiresAt := 0 }, none), core1)
  else
    ((sid, newSession, none), core1)

/-- The method `(*Core).CheckCsrfToken`. -/
def Core.CheckCsrfToken (core : Core) (token : String) : (Bool × Option Error) × Core :=
  let r := core.csrfTokens.CheckActiveCsrf token
  let found := r.1.1
  let err := r.1.2
  let core1 := { core with csrfTokens := r.2 }
  if err ≠ none then
    ((false, err), core1)
  else
    ((found, err), core1)

/-- The method `(*Core).CreateCsrfToken`. -/
def Core.CreateCsrfToken (core : Core) (src : Nat → Nat) (now : Nat) :
    (String × Option Error) × Core :=
  let sid := RandStringRunes src 32
  let r := core.csrfTokens.AddCsrf { SID := sid, ExpiresAt := now + 3 * Hour }
  let csrfAdded := r.1.1
  let err := r.1.2
  let core1 := { core with csrfTokens := r.2 }
  if !csrfAdded ∧ err ≠ none then
    (("", err), core1)
  else if !csrfAdded then
    (("", none), core1)
  else
    ((sid, none), core1)

/-- The method `(*Core).ChangeUsersRole`, with the calls it makes on the user
repository. -/
def Core.ChangeUsersRole (core : Core) (login role currentUserRole : String) :
    Option Error × List UserCall :=
  if currentUserRole ≠ "super" then
    (some ErrNotAllowed, [])
  else
    match core.users.ChangeUsersRole login role with
    | some err => (some (.wrapped "change user role error: %w" err), [.ChangeUsersRole login role])
    | none => (none, [.ChangeUsersRole login role])

end authorization

/-! ## HTTP handlers

A request is what a handler reads of it; the answer of a handler is the status
it sends with the header and cookie it sets, and the calls it made on its
core, in order. -/

/-- What `io.ReadAll(r.Body)` followed by `easyjson.Unmarshal` gives: an error
of the read, an error of the decoding, or the decoded request. -/
inductive Body (α : Type) where
  | readError
  | malformed
  | decoded (request : α)

/-- The parts of an `*http.Request` the handlers read: the method, the header
`x-csrf-token` (empty when absent), the cookie `session_id`, the value stored
under `middleware.UserIDKey` in the context, and the body. -/
structure Request (α : Type) where
  Method : String
  csrfToken : String
  session_id : Option String
  userId : Option Nat
  body : Body α

/-- The answer of a handler: the status of `requests.Response`, the response
header `X-CSRF-Token` and the cookie `session_id` when set, the calls made on
the core, and whether the handler ended in a run-time panic instead. -/
structure Served (Call : Type) where
  Status : Nat
  header : Option String
  cookie : Option String
  calls : List Call
  panicked : Bool

/-- The struct `requests.SigninRequest`. -/
structure SigninRequest where
  Login : String
  Password : String
  deriving DecidableEq, Repr

/-- The struct `requests.SignupRequest`. -/
structure SignupRequest where
  Login : String
  Email : String
  Password : String
  BirthDate : String
  Name : String
  deriving DecidableEq, Repr

/-- The struct `requests.ChangeRoleRequest`. -/
structure ChangeRoleRequest where
  Login : String
  Role : String
  deriving DecidableEq, Repr

/-- The struct `requests.DeleteCommentRequest`. -/
structure DeleteCommentRequest where
  IdUser : Nat
  IdFilm : Nat
  deriving DecidableEq, Repr

namespace authorization

/-- The methods of the interface `usecase.ICore` the three handlers below call,
as the answers the core gives. -/
structure ICore where
  CheckCsrfToken : String → Bool × Option Error
  FindUserAccount : String → String → Option UserItem × Bool × Option Error
  CreateSession : String → String × Session × Option Error
  FindUserByLogin : String → Bool × Option Error
  CreateUserAccount : String → String → String → String → String → Option Error
  GetUserName : String → String × Option Error
  GetUserRole : String → String × Option Error
  ChangeUsersRole : String → String → String → Option Error
  FindUsers : String → String → Nat → Nat → List UserItem × Option Error

/-- A call on the core. -/
inductive CoreCall where
  | CheckCsrfToken (token : String)
  | FindUserAccount (login password : String)
  | CreateSession (login : String)
  | FindUserByLogin (login : String)
  | CreateUserAccount (login password name birthDate email : String)
  | GetUserName (sid : String)
  | GetUserRole (login : String)
  | ChangeUsersRole (login role currentUserRole : String)
  | FindUsers (login role : String) (first limit : Nat)
  deriving DecidableEq, Repr

/-- The method `(*API).Signin`. -/
def API.Signin (core : ICore) (r : Request SigninRequest) : Served CoreCall :=
  if r.Method ≠ "POST" then
    ⟨405, none, none, [], false⟩
  else
    let csrfToken := r.csrfToken
    let err := (core.CheckCsrfToken csrfToken).2
    if err ≠ none then
      ⟨412, some "null", none, [.CheckCsrfToken csrfToken], false⟩
    else
      match r.body with
      | .readError => ⟨400, none, none, [.CheckCsrfToken csrfToken], false⟩
      | .malformed => ⟨400, none, none, [.CheckCsrfToken csrfToken], false⟩
      | .decoded request =>
        let found := core.FindUserAccount request.Login request.Password
        let calls := [.CheckCsrfToken csrfToken, .FindUserAccount request.Login request.Password]
        if found.2.2 ≠ none then
          ⟨500, none, none, calls, false⟩
        else if !found.2.1 then
          ⟨401, none, none, calls, false⟩
        else
          match found.1 with
          | none => ⟨0, none, none, calls, true⟩
          | some user =>
            let sid := (core.CreateSession user.Login).1
            ⟨200, none, some sid, calls ++ [.CreateSession user.Login], false⟩

/-- The method `(*API).Signup`. -/
def API.Signup (core : ICore) (r : Request SignupRequest) : Served CoreCall :=
  if r.Method ≠ "POST" then
    ⟨405, none, none, [], false⟩
  else
    let csrfToken := r.csrfToken
    let err := (core.CheckCsrfToken csrfToken).2
    if err ≠ none then
      ⟨412, some "null", none, [.CheckCsrfToken csrfToken], false⟩
    else
      match r.body with
      | .readError => ⟨400, none, none, [.CheckCsrfToken csrfToken], false⟩
      | .malformed => ⟨400, none, none, [.CheckCsrfToken csrfToken], false⟩
      | .decoded request =>
        let found := core.FindUserByLogin request.Login
        let calls := [.CheckCsrfToken csrfToken, .FindUserByLogin request.Login]
        if found.2 ≠ none then
          ⟨500, none, none, calls, false⟩
        else if found.1 then
          ⟨409, none, none, calls, false⟩
        else
          let err := core.CreateUserAccount request.Login request.Password request.Name
            request.BirthDate request.Email
          let calls1 := calls ++ [.CreateUserAccount request.Login request.Password request.Name
            request.BirthDate request.Email]
          if err ≠ none then
            ⟨400, none, none, calls1, false⟩
          else
            ⟨200, none, none, calls1, false⟩

/-- The method `(*API).ChangeUserRole`. -/
def API.ChangeUserRole (core : ICore) (r : Request ChangeRoleRequest) : Served CoreCall :=
  if r.Method ≠ "POST" then
    ⟨405, none, none, [], false⟩
  else
    let csrfToken := r.csrfToken
    let err := (core.CheckCsrfToken csrfToken).2
    if err ≠ none then
      ⟨412, some "null", none, [.CheckCsrfToken csrfToken], false⟩
    else
      match r.body with
      | .readError => ⟨400, none, none, [.CheckCsrfToken csrfToken], false⟩
      | .malformed => ⟨400, none, none, [.CheckCsrfToken csrfToken], false⟩
      | .decoded request =>
        match r.session_id with
        | none => ⟨401, none, none, [.CheckCsrfToken csrfToken], false⟩
        | some session =>
          let userName := core.GetUserName session
          let calls := [.CheckCsrfToken csrfToken, .GetUserName session]
          if userName.2 ≠ none then
            ⟨500, none, none, calls, false⟩
          else
            let userRole := core.GetUserRole userName.1
            let calls1 := calls ++ [.GetUserRole userName.1]
            if userRole.2 ≠ none then
              ⟨500, none, none, calls1, false⟩
            else
              let calls2 := calls1 ++ [.ChangeUsersRole request.Login request.Role userRole.1]
              match core.ChangeUsersRole request.Login request.Role userRole.1 with
              | some err =>
                if errors.Is err ErrNotAllowed then
                  ⟨403, none, none, calls2, false⟩
                else
                  ⟨500, none, none, calls2, false⟩
              | none => ⟨200, none, none, calls2, false⟩

end authorization

/-! ## `films/usecase/core.go`, `films/delivery/api.go` -/

/-- A `float32`, by its bits; the code below only passes such values on. -/
structure Float32 where
  bits : Nat
  deriving DecidableEq, Repr

/-- A `float64`, by its bits. -/
structure Float64 where
  bits : Nat
  deriving DecidableEq, Repr

/-- The struct `models.FilmItem`. -/
structure FilmItem where
  Id : Nat
  Title : String
  Info : String
  Poster : String
  ReleaseDate : String
  Country : String
  Mpaa : String
  Rating : Float64
  deriving DecidableEq, Repr

/-- The struct `models.Character`. -/
structure Character where
  IdActor : Nat
  ActorPhoto : String
  NameActor : String
  NameCharacter : String
  deriving DecidableEq, Repr

namespace films

/-- The package-level `ErrNotFound`. -/
def ErrNotFound : Error := .sentinel "films/usecase.ErrNotFound"

/-- The package-level `ErrFoundFavorite`. -/
def ErrFoundFavorite : Error := .sentinel "films/usecase.ErrFoundFavorite"

/-- The methods of `film.IFilmsRepo` the use cases below call, as the answers
the repository gives. -/
structure IFilmsRepo where
  FindFilm : String → String → String → Float32 → Float32 → String → List Nat → List String →
    Nat → Nat → List FilmItem × Option Error
  CheckFilm : Nat → Nat → Bool × Option Error
  AddFavoriteFilm : Nat → Nat → Option Error
  HasUsersRating : Nat → Nat → Bool × Option Error
  AddRating : Nat → Nat → Nat → Option Error
  DeleteRating : Nat → Nat → Option Error
  AddFilm : FilmItem → Option Error
  GetFilmId : String → Nat × Option Error

/-- The methods of `crew.ICrewRepo` the use cases below call. -/
structure ICrewRepo where
  FindActor : String → String → List String → List String → String → Nat → Nat →
    List Character × Option Error
  CheckActor : Nat → Nat → Bool × Option Error
  AddFavoriteActor : Nat → Nat → Option Error
  AddFilm : List Nat → Nat → Option Error

/-- The method of `genre.IGenreRepo` the use cases below call. -/
structure IGenreRepo where
  AddFilm : List Nat → Nat → Option Error

/-- A call on a repository of the films service, with its arguments. -/
inductive RepoCall where
  | FindFilm (title dateFrom dateTo : String) (ratingFrom ratingTo : Float32) (mpaa : String)
      (genres : List Nat) (actors : List String) (first limit : Nat)
  | CheckFilm (userId filmId : Nat)
  | AddFavoriteFilm (userId filmId : Nat)
  | HasUsersRating (userId filmId : Nat)
  | AddRating (filmId userId rating : Nat)
  | DeleteRating (idUser idFilm : Nat)
  | FindActor (name birthDate : String) (films career : List String) (country : String)
      (first limit : Nat)
  | CheckActor (userId actorId : Nat)
  | AddFavoriteActor (userId actorId : Nat)
  | AddFilm (film : FilmItem)
  | GetFilmId (title : String)
  | GenresAddFilm (genres : List Nat) (filmId : Nat)
  | CrewAddFilm (actors : List Nat) (filmId : Nat)
  deriving DecidableEq, Repr

/-- The fields of the struct `Core` the use cases below read. -/
structure Core where
  films : IFilmsRepo
  genres : IGenreRepo
  crew : ICrewRepo
  nearFilms : FilmRedisRepo

/-- The method `(*Core).FindFilm`, with the calls it makes. -/
def Core.FindFilm (core : Core) (title dateFrom dateTo : String) (ratingFrom ratingTo : Float32)
    (mpaa : String) (genres : List Nat) (actors : List String) (first limit : Nat) :
    (List FilmItem × Option Error) × List RepoCall :=
  let r := core.films.FindFilm title dateFrom dateTo ratingFrom ratingTo mpaa genres actors
    first limit
  let calls := [RepoCall.FindFilm title dateFrom dateTo ratingFrom ratingTo mpaa genres actors
    first limit]
  match r.2 with
  | some err => (([], some (.wrapped "find film err: %w" err)), calls)
  | none =>
    if r.1.length = 0 then
      (([], some ErrNotFound), calls)
    else
      ((r.1, none), calls)

/-- The method `(*Core).FindActor`, with the calls it makes. -/
def Core.FindActor (core : Core) (name birthDate : String) (films career : List String)
    (country : String) (first limit : Nat) : (List Character × Option Error) × List RepoCall :=
  let r := core.crew.FindActor name birthDate films career country first limit
  let calls := [RepoCall.FindActor name birthDate films career country first limit]
  match r.2 with
  | some err => (([], some (.wrapped "find actor err: %w" err)), calls)
  | none =>
    if r.1.length = 0 then
      (([], some ErrNotFound), calls)
    else
      ((r.1, none), calls)

/-- The method `(*Core).FavoriteFilmsAdd`, with the calls it makes. -/
def Core.FavoriteFilmsAdd (core : Core) (userId filmId : Nat) : Option Error × List RepoCall :=
  let r := core.films.CheckFilm userId filmId
  match r.2 with
  | some err => (some (.wrapped "favorite film add err: %w" err), [.CheckFilm userId filmId])
  | none =>
    if r.1 then
      (some ErrFoundFavorite, [.CheckFilm userId filmId])
    else
      match core.films.AddFavoriteFilm userId filmId with
      | some err =>
        (some (.wrapped "favorite film add err: %w" err),
          [.CheckFilm userId filmId, .AddFavoriteFilm userId filmId])
      | none => (none, [.CheckFilm userId filmId, .AddFavoriteFilm userId filmId])

/-- The method `(*Core).FavoriteActorsAdd`, with the calls it makes. -/
def Core.FavoriteActorsAdd (core : Core) (userId actorId : Nat) :
    Option Error × List RepoCall :=
  let r := core.crew.CheckActor userId actorId
  match r.2 with
  | some err => (some (.wrapped "favorite actors add err: %w" err), [.CheckActor userId actorId])
  | none =>
    if r.1 then
      (some ErrFoundFavorite, [.CheckActor userId actorId])
    else
      match core.crew.AddFavoriteActor userId actorId with
      | some err =>
        (some (.wrapped "favorite actors add err: %w" err),
          [.CheckActor userId actorId, .AddFavoriteActor userId actorId])
      | none => (none, [.CheckActor userId actorId, .AddFavoriteActor userId actorId])

/-- The method `(*Core).AddRating`, with the calls it makes. -/
def Core.AddRating (core : Core) (filmId userId rating : Nat) :
    (Bool × Option Error) × List RepoCall :=
  let r := core.films.HasUsersRating userId filmId
  match r.2 with
  | some err =>
    ((false, some (.wrapped "find users rating error: %w" err)), [.HasUsersRating userId filmId])
  | none =>
    if r.1 then
      ((r.1, none), [.HasUsersRating userId filmId])
    else
      match core.films.AddRating filmId userId rating with
      | some err =>
        ((false, some (.wrapped "add rating err: %w" err)),
          [.HasUsersRating userId filmId, .AddRating filmId userId rating])
      | none => ((false, none), [.HasUsersRating userId filmId, .AddRating filmId userId rating])

/-- The method `(*Core).AddFilm`, with the calls it makes. -/
def Core.AddFilm (core : Core) (film : FilmItem) (genres actors : List Nat) :
    Option Error × List RepoCall :=
  match core.films.AddFilm film with
  | some err => (some (.wrapped "add film err: %w" err), [.AddFilm film])
  | none =>
    let r := core.films.GetFilmId film.Title
    let id := r.1
    match r.2 with
    | some err => (some (.wrapped "add film err: %w" err), [.AddFilm film, .GetFilmId film.Title])
    | none =>
      match core.genres.AddFilm genres id with
      | some err =>
        (some (.wrapped "add film err: %w" err),
          [.AddFilm film, .GetFilmId film.Title, .GenresAddFilm genres id])
      | none =>
        match core.crew.AddFilm actors id with
        | some err =>
          (some (.wrapped "add film err: %w" err),
            [.AddFilm film, .GetFilmId film.Title, .GenresAddFilm genres id,
              .CrewAddFilm actors id])
        | none =>
          (none,
            [.AddFilm film, .GetFilmId film.Title, .GenresAddFilm genres id,
              .CrewAddFilm actors id])

/-- The method `(*Core).DeleteRating`, with the calls it makes. -/
def Core.DeleteRating (core : Core) (idUser idFilm : Nat) : Option Error × List RepoCall :=
  match core.films.DeleteRating idUser idFilm with
  | some err => (some (.wrapped "delete rating err: %w" err), [.DeleteRating idUser idFilm])
  | none => (none, [.DeleteRating idUser idFilm])

/-- The method `(*API).DeleteRating`; the calls are those its core makes on the
repository. -/
def API.DeleteRating (core : Core) (r : Request DeleteCommentRequest) : Served RepoCall :=
  if r.Method ≠ "POST" then
    ⟨405, none, none, [], false⟩
  else
    match r.body with
    | .readError => ⟨400, none, none, [], false⟩
    | .malformed => ⟨400, none, none, [], false⟩
    | .decoded request =>
      let d := core.DeleteRating request.IdUser request.IdFilm
      if d.1 ≠ none then
        ⟨500, none, none, d.2, false⟩
      else
        ⟨200, none, none, d.2, false⟩

end films

/-! ## `comments/usecase/core.go`, `comments/delivery/api.go` -/

/-- Go: `models.CommentItem`. -/
structure CommentItem where
  IdUser : Nat
  Username : String
  IdFilm : Nat
  Rating : Nat
  Comment : String
  Photo : String
  deriving DecidableEq, Repr

/-- Go: the conversion `int32(x)` of a `uint64`: the low 32 bits read as a
two's complement number. -/
def int32 (x : Nat) : Int :=
  if x % 2 ^ 32 < 2 ^ 31 then ((x % 2 ^ 32 : Nat) : Int) else ((x % 2 ^ 32 : Nat) : Int) - 2 ^ 32

/-- Go: `auth.NamesAndPathsListRequest`, with `Ids []int32`. -/
structure NamesAndPathsListRequest where
  Ids : List Int
  deriving DecidableEq, Repr

/-- Go: `auth.NamesAndPathsResponse`. -/
structure NamesAndPathsResponse where
  Names : List String
  Paths : List String
  deriving DecidableEq, Repr

/-- The method of `auth.AuthorizationClient` the comments service calls. -/
structure AuthorizationClient where
  GetIdsAndPaths : NamesAndPathsListRequest → Except Error NamesAndPathsResponse

namespace comments

/-- The methods of `comment.ICommentRepo` the use cases below call. -/
structure ICommentRepo where
  GetFilmComments : Nat → Nat → Nat → List CommentItem × Option Error
  HasUsersComment : Nat → Nat → Bool × Option Error
  AddComment : Nat → Nat → Nat → String → Option Error
  DeleteComment : Nat → Nat → Option Error

/-- A call on the comment repository, with its arguments. -/
inductive RepoCall where
  | HasUsersComment (userId filmId : Nat)
  | AddComment (filmId userId rating : Nat) (text : String)
  | DeleteComment (idUser idFilm : Nat)
  deriving DecidableEq, Repr

/-- The fields of the struct `Core` the use cases below read. -/
structure Core where
  comments : ICommentRepo
  client : AuthorizationClient

/-- A call on the authorization client, with its request. -/
inductive ClientCall where
  | GetIdsAndPaths (request : NamesAndPathsListRequest)
  deriving DecidableEq, Repr

/-- One turn of the second loop of `GetFilmComments`, for the index `i`:
`comments[i].Username = Names[i]` and `comments[i].Photo = Paths[i]`; `none` is
the run-time panic of an index out of range. -/
def decorateStep (names paths : List String) (comments : List CommentItem) (i : Nat) :
    Option (List CommentItem) :=
  match comments[i]?, names[i]?, paths[i]? with
  | some c, some name, some path =>
    some (comments.set i { c with Username := name, Photo := path })
  | _, _, _ => none

/-- The method `(*Core).GetFilmComments`, with the call it makes on the
authorization client; `none` is the run-time panic of an index out of range in
the loop over `namesAndPhotos.Names`. -/
def Core.GetFilmComments (core : Core) (filmId first limit : Nat) :
    Option ((List CommentItem × Option Error) × List ClientCall) :=
  let r := core.comments.GetFilmComments filmId first limit
  match r.2 with
  | some err => some (([], some (.wrapped "GetFilmComments err: %w" err)), [])
  | none =>
    let comments := r.1
    let ids := comments.map (fun c => int32 c.IdUser)
    match core.client.GetIdsAndPaths ⟨ids⟩ with
    | .error err =>
      some (([], some (.wrapped "get film comments grpc err: %w" err)), [.GetIdsAndPaths ⟨ids⟩])
    | .ok namesAndPhotos =>
      match (List.range namesAndPhotos.Names.length).foldlM
          (decorateStep namesAndPhotos.Names namesAndPhotos.Paths) comments with
      | none => none
      | some comments => some ((comments, none), [.GetIdsAndPaths ⟨ids⟩])

/-- The comment `c` with the name and the photo at the index `i` of the two
lists, if both lists have that index. -/
def decorated (names paths : List String) (c : CommentItem) (i : Nat) : Option CommentItem :=
  names[i]?.bind fun name => paths[i]?.map fun path => { c with Username := name, Photo := path }

/-- The method `(*Core).AddComment`, with the calls it makes. -/
def Core.AddComment (core : Core) (filmId userId rating : Nat) (text : String) :
    (Bool × Option Error) × List RepoCall :=
  let r := core.comments.HasUsersComment userId filmId
  match r.2 with
  | some err =>
    ((false, some (.wrapped "find users comment error: %w" err)),
      [.HasUsersComment userId filmId])
  | none =>
    if r.1 then
      ((r.1, none), [.HasUsersComment userId filmId])
    else
      match core.comments.AddComment filmId userId rating text with
      | some err =>
        ((false, some (.wrapped "add comment err: %w" err)),
          [.HasUsersComment userId filmId, .AddComment filmId userId rating text])
      | none =>
        ((false, none), [.HasUsersComment userId filmId, .AddComment filmId userId rating text])

/-- The method `(*Core).DeleteComment`, with the calls it makes. -/
def Core.DeleteComment (core : Core) (idUser idFilm : Nat) : Option Error × List RepoCall :=
  match core.comments.DeleteComment idUser idFilm with
  | some err => (some (.wrapped "delete comment err: %w" err), [.DeleteComment idUser idFilm])
  | none => (none, [.DeleteComment idUser idFilm])

/-- The method `(*API).DeleteComment`; the calls are those its core makes on
the repository. -/
def API.DeleteComment (core : Core) (r : Request DeleteCommentRequest) : Served RepoCall :=
  if r.Method ≠ "POST" then
    ⟨405, none, none, [], false⟩
  else
    match r.body with
    | .readError => ⟨400, none, none, [], false⟩
    | .malformed => ⟨400, none, none, [], false⟩
    | .decoded request =>
      let d := core.DeleteComment request.IdUser request.IdFilm
      if d.1 ≠ none then
        ⟨500, none, none, d.2, false⟩
      else
        ⟨200, none, none, d.2, false⟩

end comments

/-! ## Handlers of `GET` requests

A `GET` handler reads the method, the parameters of the query string and the
user id that the authorization middleware stored in the context. -/

/-- The parts of an `*http.Request` the `GET` handlers read: the method, the
function `r.URL.Query().Get` (the empty string for a parameter that is absent)
and the `uint64` stored under `middleware.UserIDKey` in the context, if any. -/
structure GetRequest where
  Method : String
  query : String → String
  userId : Option Nat

namespace uint64

/-- Go: `a - b` on `uint64`. -/
def sub (a b : Nat) : Nat := (a + 2 ^ 64 - b % 2 ^ 64) % 2 ^ 64

/-- Go: `a * b` on `uint64`. -/
def mul (a b : Nat) : Nat := (a * b) % 2 ^ 64

end uint64

/-- The struct `requests.FilmResponse`; the handler passes it on unread. -/
structure FilmResponse where
  Film : FilmItem

namespace films

/-- The method `(*Core).AddNearFilm`. -/
def Core.AddNearFilm (c : Core) (active : NearFilm) : (Bool × Option Error) × Core :=
  let r := c.nearFilms.AddNearFilm active
  let c1 := { c with nearFilms := r.2 }
  if r.1.2 ≠ none then ((false, r.1.2), c1) else ((r.1.1, none), c1)

/-- The methods of the interface `usecase.ICore` the handlers below call, as
the answers the core gives. -/
structure ICore where
  GetFilmsAndGenreTitle : Nat → Nat → Nat → List FilmItem × String × Option Error
  GetFilmInfo : Nat → Option FilmResponse × Option Error
  FavoriteFilms : Nat → Nat → Nat → List FilmItem × Option Error
  FavoriteActors : Nat → Nat → Nat → List Character × Option Error
  AddNearFilm : NearFilm → Bool × Option Error

/-- A call on the core. -/
inductive CoreCall where
  | GetFilmsAndGenreTitle (genreId start end_ : Nat)
  | GetFilmInfo (filmId : Nat)
  | FavoriteFilms (userId start end_ : Nat)
  | FavoriteActors (userId start end_ : Nat)
  | AddNearFilm (active : NearFilm)
  deriving DecidableEq, Repr

/-- The method `(*API).Films`. -/
def API.Films (core : ICore) (r : GetRequest) : Served CoreCall :=
  if r.Method ≠ "GET" then
    ⟨405, none, none, [], false⟩
  else
    let page := match strconv.ParseUint (r.query "page") with
      | some page => page
      | none => 1
    let pageSize := match strconv.ParseUint (r.query "page_size") with
      | some pageSize => pageSize
      | none => 8
    let genreId := match strconv.ParseUint (r.query "collection_id") with
      | some genreId => genreId
      | none => 0
    let start := uint64.mul (uint64.sub page 1) pageSize
    let found := core.GetFilmsAndGenreTitle genreId start pageSize
    if found.2.2 ≠ none then
      ⟨500, none, none, [.GetFilmsAndGenreTitle genreId start pageSize], false⟩
    else
      ⟨200, none, none, [.GetFilmsAndGenreTitle genreId start pageSize], false⟩

/-- The method `(*API).Film`.  The answer is sent before the film is recorded
as recently viewed; the last test calls `err.Error()` on an `err` that the test
before it has found to be nil, which is a run-time panic. -/
def API.Film (core : ICore) (r : GetRequest) : Served CoreCall :=
  if r.Method ≠ "GET" then
    ⟨405, none, none, [], false⟩
  else
    match strconv.ParseUint (r.query "film_id") with
    | none => ⟨400, none, none, [], false⟩
    | some filmId =>
      match (core.GetFilmInfo filmId).2 with
      | some err =>
        if errors.Is err ErrNotFound then
          ⟨404, none, none, [.GetFilmInfo filmId], false⟩
        else
          ⟨500, none, none, [.GetFilmInfo filmId], false⟩
      | none =>
        match r.userId with
        | none => ⟨200, none, none, [.GetFilmInfo filmId], false⟩
        | some userId =>
          let nearFilm : NearFilm := { IdFilm := filmId, IdUser := userId }
          let added := core.AddNearFilm nearFilm
          match added.2 with
          | some _ => ⟨200, none, none, [.GetFilmInfo filmId, .AddNearFilm nearFilm], false⟩
          | none =>
            if !added.1 then
              ⟨200, none, none, [.GetFilmInfo filmId, .AddNearFilm nearFilm], true⟩
            else
              ⟨200, none, none, [.GetFilmInfo filmId, .AddNearFilm nearFilm], false⟩

/-- The method `(*API).FavoriteFilms`; the type assertion on the value of the
context has no second result, so a request without a user id is a run-time
panic. -/
def API.FavoriteFilms (core : ICore) (r : GetRequest) : Served CoreCall :=
  if r.Method ≠ "GET" then
    ⟨405, none, none, [], false⟩
  else
    match r.userId with
    | none => ⟨0, none, none, [], true⟩
    | some userId =>
      let page := match strconv.ParseUint (r.query "page") with
        | some page => page
        | none => 1
      let pageSize := match strconv.ParseUint (r.query "per_page") with
        | some pageSize => pageSize
        | none => 8
      let start := uint64.mul (uint64.sub page 1) pageSize
      if (core.FavoriteFilms userId start pageSize).2 ≠ none then
        ⟨500, none, none, [.FavoriteFilms userId start pageSize], false⟩
      else
        ⟨200, none, none, [.FavoriteFilms userId start pageSize], false⟩

/-- The method `(*API).FavoriteActors`. -/
def API.FavoriteActors (core : ICore) (r : GetRequest) : Served CoreCall :=
  if r.Method ≠ "GET" then
    ⟨405, none, none, [], false⟩
  else
    match r.userId with
    | none => ⟨0, none, none, [], true⟩
    | some userId =>
      let page := match strconv.ParseUint (r.query "page") with
        | some page => page
        | none => 1
      let pageSize := match strconv.ParseUint (r.query "per_page") with
        | some pageSize => pageSize
        | none => 8
      let start := uint64.mul (uint64.sub page 1) pageSize
      if (core.FavoriteActors userId start pageSize).2 ≠ none then
        ⟨500, none, none, [.FavoriteActors userId start pageSize], false⟩
      else
        ⟨200, none, none, [.FavoriteActors userId start pageSize], false⟩

end films

namespace comments

/-- The method of the interface `usecase.ICore` the handler below calls. -/
structure ICore where
  GetFilmComments : Nat → Nat → Nat → List CommentItem × Option Error

/-- A call on the core. -/
inductive CoreCall where
  | GetFilmComments (filmId first limit : Nat)
  deriving DecidableEq, Repr

/-- The method `(*API).Comment`. -/
def API.Comment (core : ICore) (r : GetRequest) : Served CoreCall :=
  if r.Method ≠ "GET" then
    ⟨405, none, none, [], false⟩
  else
    match strconv.ParseUint (r.query "film_id") with
    | none => ⟨400, none, none, [], false⟩
    | some filmId =>
      let page := match strconv.ParseUint (r.query "page") with
        | some page => page
        | none => 1
      let pageSize := match strconv.ParseUint (r.query "per_page") with
        | some pageSize => pageSize
        | none => 10
      let first := uint64.mul (uint64.sub page 1) pageSize
      if (core.GetFilmComments filmId first pageSize).2 ≠ none then
        ⟨500, none, none, [.GetFilmComments filmId first pageSize], false⟩
      else
        ⟨200, none, none, [.GetFilmComments filmId first pageSize], false⟩

end comments

namespace authorization

/-- The method `(*API).GetUsers`. -/
def API.GetUsers (core : ICore) (r : GetRequest) : Served CoreCall :=
  if r.Method ≠ "GET" then
    ⟨405, none, none, [], false⟩
  else
    let login := r.query "login"
    let role := r.query "role"
    let page := match strconv.ParseUint (r.query "page") with
      | some page => page
      | none => 1
    let pageSize := match strconv.ParseUint (r.query "per_page") with
      | some pageSize => pageSize
      | none => 10
    let first := uint64.mul (uint64.sub page 1) pageSize
    match (core.FindUsers login role first pageSize).2 with
    | some err =>
      if errors.Is err ErrNotFound then
        ⟨404, none, none, [.FindUsers login role first pageSize], false⟩
      else
        ⟨500, none, none, [.FindUsers login role first pageSize], false⟩
    | none => ⟨200, none, none, [.FindUsers login role first pageSize], false⟩

end authorization

/-! ## SQL query builders

The repositories over the relational store build the text of a statement in a
`strings.Builder` next to the list of its arguments and hand both to the
database.  A builder is embedded up to that call: it returns the text and the
arguments. -/

/-- A value in the argument list of a statement. -/
inductive SqlArg where
  | text (s : String)
  | uint64 (n : Nat)
  | float32 (f : Float32)
  | uint32Array (l : List Nat)
  | textArray (l : List String)
  deriving DecidableEq, Repr

/-- `strconv.Itoa(i)` for the non-negative `i` the builders number their
placeholders with. -/
def strconv.Itoa (i : Nat) : String :=
  strconv.FormatUint i

/-- The variables of a builder: the text written so far, `paramNum`, `params`
and, where the function has it, `hasWhere`. -/
structure Builder where
  s : String
  paramNum : Nat
  params : List SqlArg
  hasWhere : Bool

namespace profile

/-- The method `(*RepoPostgre).EditProfile` up to `repo.db.Exec`: the text and
the arguments of the statement. -/
def EditProfileQuery (prevLogin login password email birthDate photo : String) :
    String × List SqlArg :=
  let b0 : Builder := ⟨"UPDATE profile SET ", 1, [], false⟩
  let b1 :=
    if login ≠ "" then
      { b0 with s := b0.s ++ ("login = $" ++ strconv.Itoa b0.paramNum),
                paramNum := b0.paramNum + 1, params := b0.params ++ [.text login] }
    else b0
  let b2 :=
    if photo ≠ "" then
      let b := if b1.paramNum ≠ 1 then { b1 with s := b1.s ++ ", " } else b1
      { b with s := b.s ++ ("photo = $" ++ strconv.Itoa b.paramNum),
               paramNum := b.paramNum + 1, params := b.params ++ [.text photo] }
    else b1
  let b3 :=
    if email ≠ "" then
      let b := if b2.paramNum ≠ 1 then { b2 with s := b2.s ++ ", " } else b2
      { b with s := b.s ++ ("email = $" ++ strconv.Itoa b.paramNum),
               paramNum := b.paramNum + 1, params := b.params ++ [.text email] }
    else b2
  let b4 :=
    if password ≠ "" then
      let b := if b3.paramNum ≠ 1 then { b3 with s := b3.s ++ ", " } else b3
      { b with s := b.s ++ ("password = $" ++ strconv.Itoa b.paramNum),
               paramNum := b.paramNum + 1, params := b.params ++ [.text password] }
    else b3
  let b5 :=
    if birthDate ≠ "" then
      let b := if b4.paramNum ≠ 1 then { b4 with s := b4.s ++ ", " } else b4
      { b with s := b.s ++ ("birth_date = $" ++ strconv.Itoa b.paramNum),
               paramNum := b.paramNum + 1, params := b.params ++ [.text birthDate] }
    else b4
  (b5.s ++ (" WHERE login = $" ++ strconv.Itoa b5.paramNum), b5.params ++ [.text prevLogin])

/-- The statement as the specification words it: the non-empty fields in the
order login, photo, email, password, birth_date, as assignments
`<col> = $i` numbered from 1 and separated by `", "`, then the `WHERE` clause
with the next number; the arguments are the values of those fields followed
by `prevLogin`. -/
def EditProfileSpec (prevLogin login password email birthDate photo : String) :
    String × List SqlArg :=
  let fields := [("login", login), ("photo", photo), ("email", email), ("password", password),
    ("birth_date", birthDate)].filter (fun f => f.2 ≠ "")
  ("UPDATE profile SET "
      ++ ", ".intercalate (fields.enum.map (fun f => f.2.1 ++ " = $" ++ strconv.Itoa (f.1 + 1)))
      ++ " WHERE login = $" ++ strconv.Itoa (fields.length + 1),
    fields.map (fun f => SqlArg.text f.2) ++ [.text prevLogin])

end profile

namespace film

/-- The text `FindFilm` starts from. -/
def selectFilms : String :=
  "SELECT DISTINCT film.title, film.id, film.poster, AVG(users_comment.rating) FROM film " ++
    "JOIN films_genre ON film.id = films_genre.id_film " ++
    "LEFT JOIN users_comment ON film.id = users_comment.id_film " ++
    "JOIN person_in_film ON film.id = person_in_film.id_film " ++
    "JOIN crew ON person_in_film.id_person = crew.id "

/-- The text `FindFilm` ends with, for the four placeholder numbers of
`ratingFrom`, `ratingTo`, `LIMIT` and `OFFSET`. -/
def groupFilms (p0 p1 p2 p3 : String) : String :=
  "GROUP BY film.title, film.id " ++
    "HAVING (AVG(users_comment.rating) >= $" ++ p0 ++
    " AND AVG(users_comment.rating) <= $" ++ p1 ++ ") " ++
    "OR AVG(users_comment.rating) IS NULL " ++
    "ORDER BY film.title " ++
    "LIMIT $" ++ p2 ++ " OFFSET $" ++ p3

/-- The condition on the genres, for a placeholder number. -/
def genresCondition (p : String) : String :=
  "(CASE WHEN array_length($" ++ p ++ "::int[], 1)> 0 " ++
    "THEN films_genre.id_genre = ANY ($" ++ p ++ "::int[]) ELSE TRUE END) "

/-- The condition on the actors, for a placeholder number. -/
def actorsCondition (p : String) : String :=
  "(CASE WHEN array_length($" ++ p ++ "::varchar[], 1)> 0 " ++
    "THEN crew.name = ANY ($" ++ p ++ "::varchar[]) ELSE TRUE END) "

/-- The `if !hasWhere ... else ...` in front of a condition. -/
def Builder.whereOrAnd (b : Builder) : Builder :=
  if !b.hasWhere then { b with s := b.s ++ "WHERE ", hasWhere := true }
  else { b with s := b.s ++ "AND " }

/-- A condition is written with the current `paramNum`, which is then
incremented, and its value appended to `params`. -/
def Builder.condition (b : Builder) (cond : String → String) (value : SqlArg) : Builder :=
  { b with s := b.s ++ cond (strconv.Itoa b.paramNum), paramNum := b.paramNum + 1,
           params := b.params ++ [value] }

/-- The method `(*RepoPostgre).FindFilm` up to `repo.db.Query`: the text and the
arguments of the query; `none` is the run-time panic of `actors[0]` on an empty
slice. -/
def FindFilmQuery (title dateFrom dateTo : String) (ratingFrom ratingTo : Float32)
    (mpaa : String) (genres : List Nat) (actors : List String) (first limit : Nat) :
    Option (String × List SqlArg) :=
  let b0 : Builder := ⟨selectFilms, 1, [], false⟩
  let b1 :=
    if title ≠ "" then
      Builder.condition { b0 with s := b0.s ++ "WHERE ", hasWhere := true }
        (fun p => "fts @@ to_tsquery($" ++ p ++ ") ") (.text title)
    else b0
  let b2 :=
    if dateFrom ≠ "" then
      Builder.condition (Builder.whereOrAnd b1) (fun p => "release_date >= $" ++ p ++ " ")
        (.text dateFrom)
    else b1
  let b3 :=
    if dateTo ≠ "" then
      Builder.condition (Builder.whereOrAnd b2) (fun p => "release_date <= $" ++ p ++ " ")
        (.text dateTo)
    else b2
  let b4 :=
    if mpaa ≠ "" then
      Builder.condition (Builder.whereOrAnd b3) (fun p => "mpaa = $" ++ p ++ " ") (.text mpaa)
    else b3
  let b5 :=
    if genres.length > 0 then
      Builder.condition (Builder.whereOrAnd b4) genresCondition (.uint32Array genres)
    else b4
  match actors with
  | [] => none
  | actors0 :: _ =>
    let b6 :=
      if actors0 ≠ "" then
        Builder.condition
          (if !b5.hasWhere then { b5 with s := b5.s ++ "WHERE " }
            else { b5 with s := b5.s ++ "AND " })
          actorsCondition (.textArray actors)
      else b5
    some (b6.s ++ groupFilms (strconv.Itoa b6.paramNum) (strconv.Itoa (b6.paramNum + 1))
        (strconv.Itoa (b6.paramNum + 2)) (strconv.Itoa (b6.paramNum + 3)),
      b6.params ++ [.float32 ratingFrom, .float32 ratingTo, .uint64 limit, .uint64 first])

/-- The active filters of `FindFilm` in the order of the source, each with the
text of its condition for a placeholder number and with its value. -/
def FindFilmFilters (title dateFrom dateTo mpaa : String) (genres : List Nat)
    (actors : List String) : List ((String → String) × SqlArg) :=
  (if title ≠ "" then [(fun p => "fts @@ to_tsquery($" ++ p ++ ") ", SqlArg.text title)]
    else []) ++
  (if dateFrom ≠ "" then [(fun p => "release_date >= $" ++ p ++ " ", SqlArg.text dateFrom)]
    else []) ++
  (if dateTo ≠ "" then [(fun p => "release_date <= $" ++ p ++ " ", SqlArg.text dateTo)]
    else []) ++
  (if mpaa ≠ "" then [(fun p => "mpaa = $" ++ p ++ " ", SqlArg.text mpaa)] else []) ++
  (if genres ≠ [] then [(genresCondition, SqlArg.uint32Array genres)] else []) ++
  (if actors.head? ≠ some "" then [(actorsCondition, SqlArg.textArray actors)] else [])

/-- The query as the specification words it: after the fixed head, the active
filter conditions, the first one behind `WHERE` and every later one behind
`AND`, the `i`-th of them with the placeholder `$i`; then the fixed tail with
the next four placeholders; the arguments are the values of the filters in
the same order followed by `ratingFrom`, `ratingTo`, `limit` and `first`. -/
def FindFilmSpec (title dateFrom dateTo : String) (ratingFrom ratingTo : Float32)
    (mpaa : String) (genres : List Nat) (actors : List String) (first limit : Nat) :
    String × List SqlArg :=
  let filters := FindFilmFilters title dateFrom dateTo mpaa genres actors
  let n := filters.length
  (selectFilms
      ++ String.join (filters.enum.map (fun f =>
          (if f.1 = 0 then "WHERE " else "AND ") ++ f.2.1 (strconv.Itoa (f.1 + 1))))
      ++ groupFilms (strconv.Itoa (n + 1)) (strconv.Itoa (n + 2)) (strconv.Itoa (n + 3))
          (strconv.Itoa (n + 4)),
    filters.map (fun f => f.2)
      ++ [.float32 ratingFrom, .float32 ratingTo, .uint64 limit, .uint64 first])

end film

namespace crew

/-- The text `FindActor` starts from. -/
def selectActors : String :=
  "SELECT DISTINCT crew.id, crew.name, crew.photo FROM crew " ++
    "JOIN person_in_film ON crew.id = person_in_film.id_person " ++
    "JOIN film ON person_in_film.id_film = film.id " ++
    "JOIN profession ON person_in_film.id_profession = profession.id "

/-- The condition on the films, for a placeholder number. -/
def filmsCondition (p : String) : String :=
  "(CASE WHEN array_length($" ++ p ++ "::varchar[], 1)> 0 " ++
    "THEN film.title = ANY($" ++ p ++ "::varchar[]) ELSE TRUE END) "

/-- The condition on the career, for a placeholder number. -/
def careerCondition (p : String) : String :=
  "(CASE WHEN array_length($" ++ p ++ "::varchar[], 1)> 0 " ++
    "THEN profession.title = ANY($" ++ p ++ "::varchar[]) ELSE TRUE END) "

/-- The first part of `(*RepoPostgre).FindActor`, from its declarations to the
end of the branch of the career: the builder after the filters name,
birthDate, films and career; `none` is the run-time panic of `films[0]` or
`career[0]` on an empty slice.  The condition on the name is written with the
literal `$1`. -/
def FindActorFilters (name birthDate : String) (films career : List String) : Option Builder :=
  let b0 : Builder := ⟨selectActors, 1, [], false⟩
  let b1 :=
    if name ≠ "" then
      { b0 with s := b0.s ++ "WHERE " ++ "name LIKE '%' || $1 || '%'", hasWhere := true,
                paramNum := b0.paramNum + 1, params := b0.params ++ [.text name] }
    else b0
  let b2 :=
    if birthDate ≠ "" then
      film.Builder.condition (film.Builder.whereOrAnd b1)
        (fun p => "birth_date = $" ++ p ++ " ") (.text birthDate)
    else b1
  match films with
  | [] => none
  | films0 :: _ =>
    let b3 :=
      if films0 ≠ "" then
        film.Builder.condition (film.Builder.whereOrAnd b2) filmsCondition (.textArray films)
      else b2
    match career with
    | [] => none
    | career0 :: _ =>
      some
        (if career0 ≠ "" then
          film.Builder.condition (film.Builder.whereOrAnd b3) careerCondition
            (.textArray career)
        else b3)

/-- The method `(*RepoPostgre).FindActor` up to `repo.db.Query`: the text and
the arguments of the query.  After the filters of `FindActorFilters` comes
the branch of the country, which writes its condition with the current
`paramNum` and appends the country to `params` but does not increment
`paramNum`, then `LIMIT` and `OFFSET` with `paramNum` and `paramNum + 1` and
the arguments `limit` and `first`. -/
def FindActorQuery (name birthDate : String) (films career : List String) (country : String)
    (first limit : Nat) : Option (String × List SqlArg) :=
  match FindActorFilters name birthDate films career with
  | none => none
  | some b4 =>
    let b5 :=
      if country ≠ "" then
        let b :=
          if !b4.hasWhere then { b4 with s := b4.s ++ "WHERE " }
          else { b4 with s := b4.s ++ "AND " }
        { b with s := b.s ++ ("country = $" ++ strconv.Itoa b.paramNum),
                 params := b.params ++ [.text country] }
      else b4
    some (b5.s ++ ("LIMIT $" ++ strconv.Itoa b5.paramNum ++ " OFFSET $"
        ++ strconv.Itoa (b5.paramNum + 1)),
      b5.params ++ [.uint64 limit, .uint64 first])

end crew

namespace calendar

end calendar

/-! ## Names used in the statements and sample keyspaces -/

/-- The key of the recently-viewed hash of user `u`. -/
def nearKey (u : Nat) : String :=
  "nearfilms:" ++ strconv.FormatUint u

/-- The entry `GetNearFilms` makes of one field for user `u`. -/
def nearFilmOf (u : Nat) (field : String) : Option NearFilm :=
  (strconv.ParseUint field).map (fun idFilm => { IdUser := u, IdFilm := idFilm })

/-- A keyspace with the session `"abc"` of `"alice"` and the token `"x"`. -/
def sampleDb : String → Option redis.Value :=
  fun k => if k = "abc" then some (.str "alice" (24 * Hour))
    else if k = "x" then some (.str "x" (3 * Hour)) else none

/-- A keyspace in which the recently-viewed hash of user 1 has the field
`"07"`, a numeral that `AddNearFilm` never writes. -/
def staleDb : String → Option redis.Value :=
  fun k => if k = "nearfilms:1" then some (.hash (AList.insert "07" "1" ∅)) else none

/-- A user repository that accepts every change of role. -/
def sampleUsers : authorization.IUserRepo :=
  ⟨fun _ _ => none⟩

/-- An authorization core over empty stores whose flags are up. -/
def sampleCore : authorization.Core :=
  ⟨⟨redis.Client.empty, true⟩, sampleUsers, ⟨redis.Client.empty, true⟩⟩

/-- The account of `"alice"`. -/
def alice : UserItem :=
  { Id := 1, Name := "Alice", Birthdate := "2000-01-01", Photo := "", Login := "alice",
    Password := "", RegistrationDate := "2023-10-01", Email := "alice@example.org",
    Role := "user" }

/-- The core of an authorization service whose CSRF store is empty and
reachable: checks of a token, creation of a session and changes of role are
those of `sampleCore`; the account of `"alice"` exists with the password
given, no other login is taken, and the session `"root-session"` belongs to
the `"super"` user `"root"`. -/
def openCore : authorization.ICore :=
  { CheckCsrfToken := fun token => (sampleCore.CheckCsrfToken token).1
    FindUserAccount := fun _ _ => (some alice, true, none)
    CreateSession := fun login => (sampleCore.CreateSession (fun _ => 0) 0 login).1
    FindUserByLogin := fun _ => (false, none)
    CreateUserAccount := fun _ _ _ _ _ => none
    GetUserName := fun _ => ("root", none)
    GetUserRole := fun _ => ("super", none)
    ChangeUsersRole := fun login role currentUserRole =>
      (sampleCore.ChangeUsersRole login role currentUserRole).1
    FindUsers := fun _ _ _ _ => ([alice], none) }

/-- A films core whose repositories accept everything and find nothing. -/
def sampleFilms : films.Core :=
  { films :=
      { FindFilm := fun _ _ _ _ _ _ _ _ _ _ => ([], none)
        CheckFilm := fun _ _ => (false, none)
        AddFavoriteFilm := fun _ _ => none
        HasUsersRating := fun _ _ => (false, none)
        AddRating := fun _ _ _ => none
        DeleteRating := fun _ _ => none
        AddFilm := fun _ => none
        GetFilmId := fun _ => (1, none) }
    genres := { AddFilm := fun _ _ => none }
    crew :=
      { FindActor := fun _ _ _ _ _ _ _ => ([], none)
        CheckActor := fun _ _ => (false, none)
        AddFavoriteActor := fun _ _ => none
        AddFilm := fun _ _ => none }
    nearFilms := ⟨redis.Client.empty, true⟩ }

/-- A comments core whose repository accepts everything and finds nothing. -/
def sampleComments : comments.Core :=
  { comments :=
      { GetFilmComments := fun _ _ _ => ([], none)
        HasUsersComment := fun _ _ => (false, none)
        AddComment := fun _ _ _ _ => none
        DeleteComment := fun _ _ => none }
    client := { GetIdsAndPaths := fun _ => .ok ⟨[], []⟩ } }

/-- A comments core whose repository has, for the film 1, the two comments of
the users 7 and 9, and whose client knows these two users. -/
def twoComments : comments.Core :=
  { comments :=
      { GetFilmComments := fun filmId _ _ =>
          if filmId = 1 then ([⟨7, "", 1, 8, "good", ""⟩, ⟨9, "", 1, 3, "dull", ""⟩], none)
          else ([], none)
        HasUsersComment := fun _ _ => (false, none)
        AddComment := fun _ _ _ _ => none
        DeleteComment := fun _ _ => none }
    client :=
      { GetIdsAndPaths := fun request =>
          if request.Ids = [7, 9] then .ok ⟨["ann", "bob"], ["a.png", "b.png"]⟩
          else .ok ⟨[], []⟩ } }

/-- A comments core whose repository has one comment, of the user with the id
`2 ^ 31`, and whose client answers every request with one name and one path. -/
def bigIdComments : comments.Core :=
  { comments :=
      { GetFilmComments := fun _ _ _ => ([⟨2147483648, "", 1, 8, "good", ""⟩], none)
        HasUsersComment := fun _ _ => (false, none)
        AddComment := fun _ _ _ _ => none
        DeleteComment := fun _ _ => none }
    client := { GetIdsAndPaths := fun _ => .ok ⟨["ann"], ["a.png"]⟩ } }

/-- The film with the title `"t"`. -/
def sampleFilm : FilmItem :=
  ⟨0, "t", "", "", "", "", "", ⟨0⟩⟩

/-- The number of positions of the text `s` at which the text `pat` occurs. -/
def occurrences (pat : List Char) : List Char → Nat
  | [] => 0
  | c :: cs => (if pat.isPrefixOf (c :: cs) then 1 else 0) + occurrences pat cs

/-- The offset as the specification words it: `(page - 1) * pageSize` modulo
`2 ^ 64`, computed on the integers. -/
def pageOffset (page pageSize : Nat) : Nat :=
  ((((page : Int) - 1) * (pageSize : Int)) % 2 ^ 64).toNat

/-- The offset and the limit of a list request as the specification words
them: the page is the parameter `page`, or 1 when it is absent or does not
parse, the page size is the parameter `key`, or `dflt` when it is absent or
does not parse. -/
def paging (r : GetRequest) (key : String) (dflt : Nat) : Nat × Nat :=
  let page := (strconv.ParseUint (r.query "page")).getD 1
  let pageSize := (strconv.ParseUint (r.query key)).getD dflt
  (pageOffset page pageSize, pageSize)

/-- The request for the page of the film 5 by the user 1. -/
def viewer : GetRequest :=
  ⟨"GET", fun key => if key = "film_id" then "5" else "", some 1⟩

/-- The request of the user 1 for the page 3 of a list with 5 items per page,
under both names of the page size. -/
def thirdPage : GetRequest :=
  ⟨"GET", fun key =>
    if key = "page" then "3"
    else if key = "per_page" then "5"
    else if key = "page_size" then "5"
    else if key = "film_id" then "5"
    else "", some 1⟩

/-- The films core of `sampleFilms` with a store of recently viewed films
whose `Connection` is false. -/
def lostFilms : films.Core :=
  { sampleFilms with nearFilms := ⟨redis.Client.empty, false⟩ }

/-- A core of the films service, as the handlers see it, that knows every film
and records recently viewed films as `lostFilms` does. -/
def softFailFilms : films.ICore :=
  { GetFilmsAndGenreTitle := fun _ _ _ => ([], "", none)
    GetFilmInfo := fun _ => (some ⟨sampleFilm⟩, none)
    FavoriteFilms := fun _ _ _ => ([], none)
    FavoriteActors := fun _ _ _ => ([], none)
    AddNearFilm := fun active => (lostFilms.AddNearFilm active).1 }

/-- A core of the comments service, as the handler sees it, without comments. -/
def noComments : comments.ICore :=
  { GetFilmComments := fun _ _ _ => ([], none) }

namespace redis

theorem Client.Healthy.answers {c : Client} (h : c.Healthy) : c.Answers := by
  unfold Client.Healthy at h
  unfold Client.Answers Client.behaviour
  cases hf : c.faults with
  | nil => rfl
  | cons a l =>
    rw [hf] at h
    simpa using h a (List.mem_cons_self a l)

theorem Client.Healthy.sent {c : Client} (h : c.Healthy) (cmd : Cmd) (db : String → Option Value) :
    (c.sent cmd db).Healthy := by
  intro f hf
  exact h f (List.mem_of_mem_tail hf)

theorem bind_same (db : String → Option Value) (key : String) (v : Option Value) :
    bind db key v key = v := by
  simp [bind]

theorem bind_other (db : String → Option Value) (key : String) (v : Option Value)
    {k : String} (hk : k ≠ key) : bind db key v k = db k := by
  simp [bind, hk]

theorem Set_of_answers {c : Client} (h : c.Answers) (key value : String) (x : Duration) :
    c.Set key value x = (none, c.sent (.set key value x) (applySet c.db key value x)) := by
  unfold Client.Answers at h
  simp [Client.Set, h]

theorem Get_of_answers {c : Client} (h : c.Answers) (key : String) :
    c.Get key = (replyGet c.db key, c.sent (.get key) c.db) := by
  unfold Client.Answers at h
  simp [Client.Get, h]

theorem Del_of_answers {c : Client} (h : c.Answers) (key : String) :
    c.Del key = ((replyDel c.db key, none), c.sent (.del key) (bind c.db key none)) := by
  unfold Client.Answers at h
  simp [Client.Del, h]

theorem Get_state (c : Client) (key : String) : (c.Get key).2 = c.sent (.get key) c.db := by
  unfold Client.Get
  split <;> rfl

theorem Set_log (c : Client) (key value : String) (x : Duration) :
    (c.Set key value x).2.log = c.log ++ [.set key value x] := by
  unfold Client.Set
  split <;> rfl

theorem Set_faults (c : Client) (key value : String) (x : Duration) :
    (c.Set key value x).2.faults = c.faults.tail := by
  unfold Client.Set
  split <;> rfl

theorem Del_log (c : Client) (key : String) : (c.Del key).2.log = c.log ++ [.del key] := by
  unfold Client.Del
  split <;> rfl

theorem HDel_log (c : Client) (key field : String) :
    (c.HDel key field).2.log = c.log ++ [.hdel key field] := by
  unfold Client.HDel
  split <;> rfl

/-- The error of `Get` on an absent key is never nil. -/
theorem Get_absent_err (c : Client) (key : String) (habs : c.db key = none) :
    (c.Get key).1.1 = "" ∧ (c.Get key).1.2 ≠ none := by
  unfold Client.Get
  split <;> simp [replyGet, habs]

end redis

/-! ## Facts about the session and CSRF repositories -/

theorem redis.replyGet_applySet (db : String → Option redis.Value) (key value : String)
    (x : Duration) : redis.replyGet (redis.applySet db key value x) key = (value, none) := by
  simp [redis.replyGet, redis.applySet, redis.bind]

theorem redis.replyGet_absent {db : String → Option redis.Value} {key : String}
    (h : db key = none) : redis.replyGet db key = ("", some redis.Nil) := by
  simp [redis.replyGet, h]

theorem redis.Nil_ne_none : (some redis.Nil : Option Error) ≠ none := by
  simp

/-- With the flag up, `CheckActiveSession` is decided by the error of one `Get`. -/
theorem SessionRepo.CheckActiveSession_eq (s : SessionRepo) (sid : String)
    (hs : s.Connection = true) :
    s.CheckActiveSession sid =
      ((match (s.sessionRedisClient.Get sid).1.2 with
        | none => (true, none)
        | some e => if e = redis.Nil then (false, none) else (false, some e)),
       { s with sessionRedisClient := s.sessionRedisClient.sent (.get sid) s.sessionRedisClient.db }) := by
  simp only [SessionRepo.CheckActiveSession, redis.Get_state, hs]
  cases h : (s.sessionRedisClient.Get sid).1.2 with
  | none => simp
  | some e =>
    by_cases he : e = redis.Nil
    · simp [he]
    · simp [he]

/-- With the flag up, `CheckActiveCsrf` is decided by the error of one `Get`. -/
theorem CsrfRepo.CheckActiveCsrf_eq (c : CsrfRepo) (sid : String)
    (hc : c.Connection = true) :
    c.CheckActiveCsrf sid =
      ((match (c.csrfRedisClient.Get sid).1.2 with
        | none => (true, none)
        | some e => if e = redis.Nil then (false, none) else (false, some e)),
       { c with csrfRedisClient := c.csrfRedisClient.sent (.get sid) c.csrfRedisClient.db }) := by
  simp only [CsrfRepo.CheckActiveCsrf, redis.Get_state, hc]
  cases h : (c.csrfRedisClient.Get sid).1.2 with
  | none => simp
  | some e =>
    by_cases he : e = redis.Nil
    · simp [he]
    · simp [he]

/-- `AddSession` on a healthy backend with the flag up. -/
theorem SessionRepo.AddSession_healthy (s : SessionRepo) (active : Session)
    (hs : s.Connection = true) (hh : s.sessionRedisClient.Healthy) :
    s.AddSession active = ((true, none),
      { sessionRedisClient :=
          (s.sessionRedisClient.sent (.set active.SID active.Login (24 * Hour))
            (redis.applySet s.sessionRedisClient.db active.SID active.Login (24 * Hour))).sent
            (.get active.SID)
            (redis.applySet s.sessionRedisClient.db active.SID active.Login (24 * Hour)),
        Connection := true }) := by
  have h1 := redis.Set_of_answers hh.answers active.SID active.Login (24 * Hour)
  have h2 := redis.Get_of_answers
    (hh.sent (.set active.SID active.Login (24 * Hour))
      (redis.applySet s.sessionRedisClient.db active.SID active.Login (24 * Hour))).answers
    active.SID
  unfold SessionRepo.AddSession SessionRepo.CheckActiveSession
  simp only [hs, h1, h2]
  simp [redis.Client.sent, redis.replyGet_applySet]

/-- `AddCsrf` on a healthy backend with the flag up. -/
theorem CsrfRepo.AddCsrf_healthy (c : CsrfRepo) (active : Csrf)
    (hc : c.Connection = true) (hh : c.csrfRedisClient.Healthy) :
    c.AddCsrf active = ((true, none),
      { csrfRedisClient :=
          (c.csrfRedisClient.sent (.set active.SID active.SID (3 * Hour))
            (redis.applySet c.csrfRedisClient.db active.SID active.SID (3 * Hour))).sent
            (.get active.SID)
            (redis.applySet c.csrfRedisClient.db active.SID active.SID (3 * Hour)),
        Connection := true }) := by
  have h1 := redis.Set_of_answers hh.answers active.SID active.SID (3 * Hour)
  have h2 := redis.Get_of_answers
    (hh.sent (.set active.SID active.SID (3 * Hour))
      (redis.applySet c.csrfRedisClient.db active.SID active.SID (3 * Hour))).answers
    active.SID
  unfold CsrfRepo.AddCsrf CsrfRepo.CheckActiveCsrf
  simp only [hc, h1, h2]
  simp [redis.Client.sent, redis.replyGet_applySet]

/-- With the flag down every gated operation returns its zero value with a nil
error and hands the store back untouched. -/
theorem soft_fail_gated (s : SessionRepo) (c : CsrfRepo) (f : FilmRedisRepo)
    (hs : s.Connection = false) (hc : c.Connection = false) (hf : f.Connection = false)
    (active : Session) (token : Csrf) (film : NearFilm) (sid uid fid : String) :
    s.AddSession active = ((false, none), s) ∧
    c.AddCsrf token = ((false, none), c) ∧
    f.AddNearFilm film = ((false, none), f) ∧
    s.CheckActiveSession sid = ((false, none), s) ∧
    c.CheckActiveCsrf sid = ((false, none), c) ∧
    f.CheckActiveNearFilm uid fid = ((false, none), f) ∧
    s.GetUserLogin sid = (("", none), s) ∧
    f.GetNearFilms uid = (([], none), f) := by
  refine ⟨?_, ?_, ?_, ?_, ?_, ?_, ?_, ?_⟩
  · simp [SessionRepo.AddSession, hs]
  · simp [CsrfRepo.AddCsrf, hc]
  · simp [FilmRedisRepo.AddNearFilm, hf]
  · simp [SessionRepo.CheckActiveSession, hs]
  · simp [CsrfRepo.CheckActiveCsrf, hc]
  · simp [FilmRedisRepo.CheckActiveNearFilm, hf]
  · simp [SessionRepo.GetUserLogin, hs]
  · simp [FilmRedisRepo.GetNearFilms, hf]

/-! ## The claims -/

/-- C1. Soft fail: on a store whose `Connection` flag is false, `AddSession`,
`AddCsrf`, `AddNearFilm`, `CheckActiveSession`, `CheckActiveCsrf` and
`CheckActiveNearFilm` return `(false, nil)`, `GetUserLogin` returns `("", nil)`
and `GetNearFilms` returns the empty list with a nil error; the store comes
back as it was, so no command was sent and the keyspace is unchanged. -/
theorem soft_fail_without_connection (s : SessionRepo) (c : CsrfRepo) (f : FilmRedisRepo)
    (hs : s.Connection = false) (hc : c.Connection = false) (hf : f.Connection = false)
    (active : Session) (token : Csrf) (film : NearFilm) (sid uid fid : String) :
    s.AddSession active = ((false, none), s) ∧
    c.AddCsrf token = ((false, none), c) ∧
    f.AddNearFilm film = ((false, none), f) ∧
    s.CheckActiveSession sid = ((false, none), s) ∧
    c.CheckActiveCsrf sid = ((false, none), c) ∧
    f.CheckActiveNearFilm uid fid = ((false, none), f) ∧
    s.GetUserLogin sid = (("", none), s) ∧
    f.GetNearFilms uid = (([], none), f) :=
  soft_fail_gated s c f hs hc hf active token film sid uid fid

/-- Witness of C1: with the flag down, creating the CSRF token `"x"` returns
`(false, nil)` and sends nothing, on a backend that would refuse the command. -/
theorem soft_fail_without_connection_witness :
    (CsrfRepo.AddCsrf
      ⟨⟨fun _ => none, [some (.refused (.other "connection refused"))], []⟩, false⟩
      ⟨"x", 0⟩).1 = (false, none) ∧
    (CsrfRepo.AddCsrf
      ⟨⟨fun _ => none, [some (.refused (.other "connection refused"))], []⟩, false⟩
      ⟨"x", 0⟩).2.csrfRedisClient.log = [] := by
  have h := (soft_fail_without_connection ⟨redis.Client.empty, false⟩
    ⟨⟨fun _ => none, [some (.refused (.other "connection refused"))], []⟩, false⟩
    ⟨redis.Client.empty, false⟩ rfl rfl rfl ⟨"alice", "abc", 0⟩ ⟨"x", 0⟩ ⟨1, 1⟩
    "abc" "1" "1").2.1
  rw [h]
  exact ⟨rfl, rfl⟩

/-- C2. Create then check: with the flag up and a backend that executes every
command, from any keyspace, `AddSession` returns `(true, nil)` and a
`CheckActiveSession` of the same token right after it returns `(true, nil)`;
the same for `AddCsrf` and `CheckActiveCsrf`. -/
theorem create_then_check (s : SessionRepo) (c : CsrfRepo) (active : Session) (token : Csrf)
    (hs : s.Connection = true) (hsh : s.sessionRedisClient.Healthy)
    (hc : c.Connection = true) (hch : c.csrfRedisClient.Healthy) :
    (s.AddSession active).1 = (true, none) ∧
    ((s.AddSession active).2.CheckActiveSession active.SID).1 = (true, none) ∧
    (c.AddCsrf token).1 = (true, none) ∧
    ((c.AddCsrf token).2.CheckActiveCsrf token.SID).1 = (true, none) := by
  rw [SessionRepo.AddSession_healthy s active hs hsh, CsrfRepo.AddCsrf_healthy c token hc hch]
  refine ⟨rfl, ?_, rfl, ?_⟩
  · rw [SessionRepo.CheckActiveSession_eq _ _ rfl]
    have hh := ((hsh.sent (.set active.SID active.Login (24 * Hour))
      (redis.applySet s.sessionRedisClient.db active.SID active.Login (24 * Hour))).sent
      (.get active.SID)
      (redis.applySet s.sessionRedisClient.db active.SID active.Login (24 * Hour))).answers
    simp only [redis.Get_of_answers hh]
    simp [redis.Client.sent, redis.replyGet_applySet]
  · rw [CsrfRepo.CheckActiveCsrf_eq _ _ rfl]
    have hh := ((hch.sent (.set token.SID token.SID (3 * Hour))
      (redis.applySet c.csrfRedisClient.db token.SID token.SID (3 * Hour))).sent
      (.get token.SID)
      (redis.applySet c.csrfRedisClient.db token.SID token.SID (3 * Hour))).answers
    simp only [redis.Get_of_answers hh]
    simp [redis.Client.sent, redis.replyGet_applySet]

/-- Witness of C2: on an empty healthy backend. -/
theorem create_then_check_witness :
    (SessionRepo.AddSession ⟨redis.Client.empty, true⟩ ⟨"alice", "abc", 0⟩).1 = (true, none) ∧
    (CsrfRepo.CheckActiveCsrf (CsrfRepo.AddCsrf ⟨redis.Client.empty, true⟩ ⟨"x", 0⟩).2 "x").1
      = (true, none) := by
  have h := create_then_check ⟨redis.Client.empty, true⟩ ⟨redis.Client.empty, true⟩
    ⟨"alice", "abc", 0⟩ ⟨"x", 0⟩ rfl (by decide) rfl (by decide)
  exact ⟨h.1, h.2.2.2⟩

/-- C3. Check on an absent key: with the flag up and a token that is not a key
of the backend, `CheckActiveSession` and `CheckActiveCsrf` return `(false, nil)`
when the backend answers the lookup; and whatever the keyspace, an error `e`
of the lookup other than `redis.Nil` is returned as `(false, e)`. -/
theorem check_absent_key (s : SessionRepo) (c : CsrfRepo) (t : String)
    (hs : s.Connection = true) (hc : c.Connection = true) :
    (s.sessionRedisClient.db t = none → s.sessionRedisClient.Answers →
      (s.CheckActiveSession t).1 = (false, none)) ∧
    (c.csrfRedisClient.db t = none → c.csrfRedisClient.Answers →
      (c.CheckActiveCsrf t).1 = (false, none)) ∧
    (∀ e, (s.sessionRedisClient.Get t).1.2 = some e → e ≠ redis.Nil →
      (s.CheckActiveSession t).1 = (false, some e)) ∧
    (∀ e, (c.csrfRedisClient.Get t).1.2 = some e → e ≠ redis.Nil →
      (c.CheckActiveCsrf t).1 = (false, some e)) := by
  rw [SessionRepo.CheckActiveSession_eq s t hs, CsrfRepo.CheckActiveCsrf_eq c t hc]
  refine ⟨?_, ?_, ?_, ?_⟩
  · intro habs hans
    simp [redis.Get_of_answers hans, redis.replyGet_absent habs]
  · intro habs hans
    simp [redis.Get_of_answers hans, redis.replyGet_absent habs]
  · intro e he hne
    simp [he, hne]
  · intro e he hne
    simp [he, hne]

/-- Witness of C3: an absent token on an empty backend gives `(false, nil)`; a
refused lookup gives `(false, e)`; so does a token whose key holds a hash. -/
theorem check_absent_key_witness :
    (SessionRepo.CheckActiveSession ⟨redis.Client.empty, true⟩ "abc").1 = (false, none) ∧
    (CsrfRepo.CheckActiveCsrf
      ⟨⟨fun _ => none, [some (.refused (.other "i/o timeout"))], []⟩, true⟩ "abc").1
      = (false, some (.other "i/o timeout")) ∧
    (SessionRepo.CheckActiveSession
      ⟨⟨fun k => if k = "abc" then some (.hash ∅) else none, [], []⟩, true⟩ "abc").1
      = (false, some redis.WrongType) := by
  refine ⟨?_, ?_, ?_⟩
  · exact (check_absent_key ⟨redis.Client.empty, true⟩ ⟨redis.Client.empty, true⟩ "abc"
      rfl rfl).1 rfl rfl
  · exact (check_absent_key ⟨redis.Client.empty, true⟩
      ⟨⟨fun _ => none, [some (.refused (.other "i/o timeout"))], []⟩, true⟩ "abc"
      rfl rfl).2.2.2 (.other "i/o timeout") rfl (by decide)
  · exact (check_absent_key
      ⟨⟨fun k => if k = "abc" then some (.hash ∅) else none, [], []⟩, true⟩
      ⟨redis.Client.empty, true⟩ "abc" rfl rfl).2.2.1 redis.WrongType rfl (by decide)

/-- C4. Delete then check: from any keyspace, with or without the token, when
`DeleteSession` returns `(true, nil)` the token is no key of the backend any
more and every other key holds what it held; a `CheckActiveSession` of the
token on the store left by the delete has result `false`, and returns
`(false, nil)` when the flag is down or the backend answers the lookup.  The
same for `CsrfRepo.DeleteSession` and `CheckActiveCsrf`. -/
theorem delete_then_check (s : SessionRepo) (c : CsrfRepo) (t : String)
    (hs : (s.DeleteSession t).1 = (true, none)) (hc : (c.DeleteSession t).1 = (true, none)) :
    ((s.DeleteSession t).2.sessionRedisClient.db t = none ∧
      (∀ k, k ≠ t → (s.DeleteSession t).2.sessionRedisClient.db k = s.sessionRedisClient.db k) ∧
      ((s.DeleteSession t).2.CheckActiveSession t).1.1 = false ∧
      ((s.DeleteSession t).2.Connection = false ∨ (s.DeleteSession t).2.sessionRedisClient.Answers →
        ((s.DeleteSession t).2.CheckActiveSession t).1 = (false, none))) ∧
    ((c.DeleteSession t).2.csrfRedisClient.db t = none ∧
      (∀ k, k ≠ t → (c.DeleteSession t).2.csrfRedisClient.db k = c.csrfRedisClient.db k) ∧
      ((c.DeleteSession t).2.CheckActiveCsrf t).1.1 = false ∧
      ((c.DeleteSession t).2.Connection = false ∨ (c.DeleteSession t).2.csrfRedisClient.Answers →
        ((c.DeleteSession t).2.CheckActiveCsrf t).1 = (false, none))) := by
  constructor
  · have hdel : (s.DeleteSession t).2.sessionRedisClient.db = redis.bind s.sessionRedisClient.db t none := by
      revert hs
      unfold SessionRepo.DeleteSession redis.Client.Del
      cases s.sessionRedisClient.behaviour with
      | none => intro _; rfl
      | some f => cases f <;> simp
    have habs : (s.DeleteSession t).2.sessionRedisClient.db t = none := by
      rw [hdel, redis.bind_same]
    refine ⟨habs, ?_, ?_, ?_⟩
    · intro k hk
      rw [hdel, redis.bind_other _ _ _ hk]
    · cases hconn : (s.DeleteSession t).2.Connection with
      | false => simp [SessionRepo.CheckActiveSession, hconn]
      | true =>
        rw [SessionRepo.CheckActiveSession_eq _ _ hconn]
        have h := (redis.Get_absent_err _ t habs).2
        cases hg : ((s.DeleteSession t).2.sessionRedisClient.Get t).1.2 with
        | none => exact absurd hg h
        | some e => by_cases he : e = redis.Nil <;> simp [he]
    · intro h
      cases hconn : (s.DeleteSession t).2.Connection with
      | false => simp [SessionRepo.CheckActiveSession, hconn]
      | true =>
        rw [hconn] at h
        have hans := h.resolve_left (by simp)
        rw [SessionRepo.CheckActiveSession_eq _ _ hconn]
        simp [redis.Get_of_answers hans, redis.replyGet_absent habs]
  · have hdel : (c.DeleteSession t).2.csrfRedisClient.db = redis.bind c.csrfRedisClient.db t none := by
      revert hc
      unfold CsrfRepo.DeleteSession redis.Client.Del
      cases c.csrfRedisClient.behaviour with
      | none => intro _; rfl
      | some f => cases f <;> simp
    have habs : (c.DeleteSession t).2.csrfRedisClient.db t = none := by
      rw [hdel, redis.bind_same]
    refine ⟨habs, ?_, ?_, ?_⟩
    · intro k hk
      rw [hdel, redis.bind_other _ _ _ hk]
    · cases hconn : (c.DeleteSession t).2.Connection with
      | false => simp [CsrfRepo.CheckActiveCsrf, hconn]
      | true =>
        rw [CsrfRepo.CheckActiveCsrf_eq _ _ hconn]
        have h := (redis.Get_absent_err _ t habs).2
        cases hg : ((c.DeleteSession t).2.csrfRedisClient.Get t).1.2 with
        | none => exact absurd hg h
        | some e => by_cases he : e = redis.Nil <;> simp [he]
    · intro h
      cases hconn : (c.DeleteSession t).2.Connection with
      | false => simp [CsrfRepo.CheckActiveCsrf, hconn]
      | true =>
        rw [hconn] at h
        have hans := h.resolve_left (by simp)
        rw [CsrfRepo.CheckActiveCsrf_eq _ _ hconn]
        simp [redis.Get_of_answers hans, redis.replyGet_absent habs]

/-- Witness of C4: deleting the session `"abc"`, present in the session store and
absent from the empty CSRF store; the check after each delete returns
`(false, nil)` and the key `"x"` of the session store holds what it held. -/
theorem delete_then_check_witness :
    (SessionRepo.CheckActiveSession
      (SessionRepo.DeleteSession ⟨⟨sampleDb, [], []⟩, true⟩ "abc").2 "abc").1 = (false, none) ∧
    (CsrfRepo.CheckActiveCsrf
      (CsrfRepo.DeleteSession ⟨redis.Client.empty, true⟩ "abc").2 "abc").1 = (false, none) ∧
    (SessionRepo.DeleteSession ⟨⟨sampleDb, [], []⟩, true⟩ "abc").2.sessionRedisClient.db "x"
      = sampleDb "x" := by
  have h := delete_then_check ⟨⟨sampleDb, [], []⟩, true⟩ ⟨redis.Client.empty, true⟩ "abc"
    (by decide) (by decide)
  exact ⟨h.1.2.2.2 (Or.inr (by decide)), h.2.2.2.2 (Or.inr (by decide)),
    h.1.2.1 "x" (by decide)⟩

/-- C5. Session round trip: with the flag up and a backend that executes every
command, after `AddSession` of token `t` for login `l` the call
`GetUserLogin(t)` returns `(l, nil)`. -/
theorem session_round_trip (s : SessionRepo) (active : Session)
    (hs : s.Connection = true) (hh : s.sessionRedisClient.Healthy) :
    ((s.AddSession active).2.GetUserLogin active.SID).1 = (active.Login, none) := by
  rw [SessionRepo.AddSession_healthy s active hs hh]
  have hans := ((hh.sent (.set active.SID active.Login (24 * Hour))
    (redis.applySet s.sessionRedisClient.db active.SID active.Login (24 * Hour))).sent
    (.get active.SID)
    (redis.applySet s.sessionRedisClient.db active.SID active.Login (24 * Hour))).answers
  simp only [SessionRepo.GetUserLogin, redis.Get_of_answers hans]
  simp [redis.Client.sent, redis.replyGet_applySet]

/-- Witness of C5: a 32-character token stored for `"alice"` reads back
`"alice"`. -/
theorem session_round_trip_witness :
    (SessionRepo.GetUserLogin
      (SessionRepo.AddSession ⟨redis.Client.empty, true⟩
        ⟨"alice", "abcdefghijklmnopqrstuvwxyz012345", 0⟩).2
      "abcdefghijklmnopqrstuvwxyz012345").1 = ("alice", none) :=
  session_round_trip ⟨redis.Client.empty, true⟩
    ⟨"alice", "abcdefghijklmnopqrstuvwxyz012345", 0⟩ rfl (by decide)

/-- C6. Get and Check differ on absence: with the flag up and a token that is
not a key of the backend, `GetUserLogin` returns `""` with a non-nil error
(that error is `redis.Nil` when the backend answers), whereas
`CheckActiveSession` on the same store returns `(false, nil)` when the backend
answers. -/
theorem get_check_asymmetry (s : SessionRepo) (t : String)
    (hs : s.Connection = true) (habs : s.sessionRedisClient.db t = none) :
    (s.GetUserLogin t).1.1 = "" ∧ (s.GetUserLogin t).1.2 ≠ none ∧
    (s.sessionRedisClient.Answers →
      (s.GetUserLogin t).1 = ("", some redis.Nil) ∧
      (s.CheckActiveSession t).1 = (false, none)) := by
  have h := redis.Get_absent_err s.sessionRedisClient t habs
  refine ⟨?_, ?_, ?_⟩
  · simp only [SessionRepo.GetUserLogin, hs]
    by_cases he : (s.sessionRedisClient.Get t).1.2 = none
    · exact absurd he h.2
    · simp [he]
  · simp only [SessionRepo.GetUserLogin, hs]
    by_cases he : (s.sessionRedisClient.Get t).1.2 = none
    · exact absurd he h.2
    · simp [he]
  · intro hans
    constructor
    · simp only [SessionRepo.GetUserLogin, hs, redis.Get_of_answers hans,
        redis.replyGet_absent habs]
      simp
    · rw [SessionRepo.CheckActiveSession_eq s t hs]
      simp [redis.Get_of_answers hans, redis.replyGet_absent habs]

/-- Witness of C6: on the store left by `DeleteSession("abc")`. -/
theorem get_check_asymmetry_witness :
    (SessionRepo.GetUserLogin
      (SessionRepo.DeleteSession ⟨⟨sampleDb, [], []⟩, true⟩ "abc").2 "abc").1
      = ("", some redis.Nil) ∧
    (SessionRepo.CheckActiveSession
      (SessionRepo.DeleteSession ⟨⟨sampleDb, [], []⟩, true⟩ "abc").2 "abc").1
      = (false, none) :=
  (get_check_asymmetry (SessionRepo.DeleteSession ⟨⟨sampleDb, [], []⟩, true⟩ "abc").2 "abc"
    rfl rfl).2.2 (by decide)

/-! ### Deletes -/

/-- `DeleteSession` reports exactly the error of its `Del`. -/
theorem SessionRepo.DeleteSession_result (s : SessionRepo) (t : String) :
    (s.DeleteSession t).1 =
      (match (s.sessionRedisClient.Del t).1.2 with
        | none => (true, none)
        | some e => (false, some e)) := by
  unfold SessionRepo.DeleteSession
  cases h : (s.sessionRedisClient.Del t).1.2 <;> simp [h]

/-- `CsrfRepo.DeleteSession` reports exactly the error of its `Del`. -/
theorem CsrfRepo.DeleteCsrf_result (c : CsrfRepo) (t : String) :
    (c.DeleteSession t).1 =
      (match (c.csrfRedisClient.Del t).1.2 with
        | none => (true, none)
        | some e => (false, some e)) := by
  unfold CsrfRepo.DeleteSession
  cases h : (c.csrfRedisClient.Del t).1.2 <;> simp [h]

/-- `DeleteNearFilm` reports exactly the error of its `HDel`. -/
theorem FilmRedisRepo.DeleteNearFilm_result (f : FilmRedisRepo) (uid fid : String) :
    (f.DeleteNearFilm uid fid).1 =
      (match (f.filmRedisClient.HDel ("nearfilms:" ++ uid) fid).1.2 with
        | none => (true, none)
        | some e => (false, some e)) := by
  unfold FilmRedisRepo.DeleteNearFilm
  cases h : (f.filmRedisClient.HDel ("nearfilms:" ++ uid) fid).1.2 <;> simp [h]

/-- The backend after `DeleteSession` is the backend after its `Del`. -/
theorem SessionRepo.DeleteSession_client (s : SessionRepo) (t : String) :
    (s.DeleteSession t).2.sessionRedisClient = (s.sessionRedisClient.Del t).2 := by
  unfold SessionRepo.DeleteSession
  by_cases h : (s.sessionRedisClient.Del t).1.2 = none <;> simp [h]

/-- The backend after `CsrfRepo.DeleteSession` is the backend after its `Del`. -/
theorem CsrfRepo.DeleteCsrf_client (c : CsrfRepo) (t : String) :
    (c.DeleteSession t).2.csrfRedisClient = (c.csrfRedisClient.Del t).2 := by
  unfold CsrfRepo.DeleteSession
  by_cases h : (c.csrfRedisClient.Del t).1.2 = none <;> simp [h]

/-- The backend after `DeleteNearFilm` is the backend after its `HDel`. -/
theorem FilmRedisRepo.DeleteNearFilm_client (f : FilmRedisRepo) (uid fid : String) :
    (f.DeleteNearFilm uid fid).2.filmRedisClient
      = (f.filmRedisClient.HDel ("nearfilms:" ++ uid) fid).2 := by
  unfold FilmRedisRepo.DeleteNearFilm
  by_cases h : (f.filmRedisClient.HDel ("nearfilms:" ++ uid) fid).1.2 = none <;> simp [h]

/-- An answered `HDel` on a key that holds no string has a nil error. -/
theorem redis.HDel_err_of_answers {c : redis.Client} (h : c.Answers) (key field : String)
    (hk : ∀ v x, c.db key ≠ some (.str v x)) : (c.HDel key field).1.2 = none := by
  unfold redis.Client.Answers at h
  unfold redis.Client.HDel redis.applyHDel
  rw [h]
  cases hv : c.db key with
  | none => rfl
  | some v =>
    cases v with
    | str v x => exact absurd hv (hk v x)
    | hash m => by_cases hm : field ∈ m.keys <;> simp [hm]

/-- C7. Delete is not gated: for every client state and both values of the
flag, `DeleteSession`, `CsrfRepo.DeleteSession` and `DeleteNearFilm` send the
backend delete, and what they return and leave behind is the same for both
values of the flag: `(true, nil)` when the command has a nil error, which is
the case whenever the backend answers (key or field present or not), and
`(false, e)` when the command fails with `e`. -/
theorem delete_not_gated (cl : redis.Client) (flag : Bool) (t uid fid : String) :
    ((SessionRepo.DeleteSession ⟨cl, flag⟩ t).2.sessionRedisClient.log = cl.log ++ [.del t] ∧
      (CsrfRepo.DeleteSession ⟨cl, flag⟩ t).2.csrfRedisClient.log = cl.log ++ [.del t] ∧
      (FilmRedisRepo.DeleteNearFilm ⟨cl, flag⟩ uid fid).2.filmRedisClient.log
        = cl.log ++ [.hdel ("nearfilms:" ++ uid) fid]) ∧
    ((SessionRepo.DeleteSession ⟨cl, flag⟩ t).1 = (SessionRepo.DeleteSession ⟨cl, !flag⟩ t).1 ∧
      (SessionRepo.DeleteSession ⟨cl, flag⟩ t).2.sessionRedisClient
        = (SessionRepo.DeleteSession ⟨cl, !flag⟩ t).2.sessionRedisClient ∧
      (CsrfRepo.DeleteSession ⟨cl, flag⟩ t).1 = (CsrfRepo.DeleteSession ⟨cl, !flag⟩ t).1 ∧
      (CsrfRepo.DeleteSession ⟨cl, flag⟩ t).2.csrfRedisClient
        = (CsrfRepo.DeleteSession ⟨cl, !flag⟩ t).2.csrfRedisClient ∧
      (FilmRedisRepo.DeleteNearFilm ⟨cl, flag⟩ uid fid).1
        = (FilmRedisRepo.DeleteNearFilm ⟨cl, !flag⟩ uid fid).1 ∧
      (FilmRedisRepo.DeleteNearFilm ⟨cl, flag⟩ uid fid).2.filmRedisClient
        = (FilmRedisRepo.DeleteNearFilm ⟨cl, !flag⟩ uid fid).2.filmRedisClient) ∧
    (((cl.Del t).1.2 = none → (SessionRepo.DeleteSession ⟨cl, flag⟩ t).1 = (true, none)) ∧
      ((cl.Del t).1.2 = none → (CsrfRepo.DeleteSession ⟨cl, flag⟩ t).1 = (true, none)) ∧
      ((cl.HDel ("nearfilms:" ++ uid) fid).1.2 = none →
        (FilmRedisRepo.DeleteNearFilm ⟨cl, flag⟩ uid fid).1 = (true, none))) ∧
    ((cl.Answers → (SessionRepo.DeleteSession ⟨cl, flag⟩ t).1 = (true, none)) ∧
      (cl.Answers → (CsrfRepo.DeleteSession ⟨cl, flag⟩ t).1 = (true, none)) ∧
      (cl.Answers → (∀ v x, cl.db ("nearfilms:" ++ uid) ≠ some (.str v x)) →
        (FilmRedisRepo.DeleteNearFilm ⟨cl, flag⟩ uid fid).1 = (true, none))) ∧
    (∀ e, ((cl.Del t).1.2 = some e →
        (SessionRepo.DeleteSession ⟨cl, flag⟩ t).1 = (false, some e)) ∧
      ((cl.Del t).1.2 = some e → (CsrfRepo.DeleteSession ⟨cl, flag⟩ t).1 = (false, some e)) ∧
      ((cl.HDel ("nearfilms:" ++ uid) fid).1.2 = some e →
        (FilmRedisRepo.DeleteNearFilm ⟨cl, flag⟩ uid fid).1 = (false, some e))) := by
  refine ⟨⟨?_, ?_, ?_⟩, ⟨?_, ?_, ?_, ?_, ?_, ?_⟩, ⟨?_, ?_, ?_⟩, ⟨?_, ?_, ?_⟩, ?_⟩
  · rw [SessionRepo.DeleteSession_client]
    exact redis.Del_log cl t
  · rw [CsrfRepo.DeleteCsrf_client]
    exact redis.Del_log cl t
  · rw [FilmRedisRepo.DeleteNearFilm_client]
    exact redis.HDel_log cl _ fid
  · rw [SessionRepo.DeleteSession_result, SessionRepo.DeleteSession_result]
  · rw [SessionRepo.DeleteSession_client, SessionRepo.DeleteSession_client]
  · rw [CsrfRepo.DeleteCsrf_result, CsrfRepo.DeleteCsrf_result]
  · rw [CsrfRepo.DeleteCsrf_client, CsrfRepo.DeleteCsrf_client]
  · rw [FilmRedisRepo.DeleteNearFilm_result, FilmRedisRepo.DeleteNearFilm_result]
  · rw [FilmRedisRepo.DeleteNearFilm_client, FilmRedisRepo.DeleteNearFilm_client]
  · intro h
    rw [SessionRepo.DeleteSession_result]
    simp only [h]
  · intro h
    rw [CsrfRepo.DeleteCsrf_result]
    simp only [h]
  · intro h
    rw [FilmRedisRepo.DeleteNearFilm_result]
    simp only [h]
  · intro h
    rw [SessionRepo.DeleteSession_result]
    simp only [redis.Del_of_answers h]
  · intro h
    rw [CsrfRepo.DeleteCsrf_result]
    simp only [redis.Del_of_answers h]
  · intro h hk
    rw [FilmRedisRepo.DeleteNearFilm_result]
    simp only [redis.HDel_err_of_answers h _ fid hk]
  · intro e
    refine ⟨?_, ?_, ?_⟩
    · intro h
      rw [SessionRepo.DeleteSession_result]
      simp only [h]
    · intro h
      rw [CsrfRepo.DeleteCsrf_result]
      simp only [h]
    · intro h
      rw [FilmRedisRepo.DeleteNearFilm_result]
      simp only [h]

/-- Witness of C7: with the flag down, deleting an absent key on a backend that
answers returns `(true, nil)`, and on a backend that refuses the command
returns the backend's error. -/
theorem delete_not_gated_witness :
    (SessionRepo.DeleteSession ⟨redis.Client.empty, false⟩ "abc").1 = (true, none) ∧
    (FilmRedisRepo.DeleteNearFilm ⟨redis.Client.empty, false⟩ "1" "7").1 = (true, none) ∧
    (CsrfRepo.DeleteSession
      ⟨⟨sampleDb, [some (.refused (.other "connection refused"))], []⟩, false⟩ "x").1
      = (false, some (.other "connection refused")) := by
  refine ⟨?_, ?_, ?_⟩
  · exact (delete_not_gated redis.Client.empty false "abc" "1" "7").2.2.2.1.1 (by decide)
  · exact (delete_not_gated redis.Client.empty false "abc" "1" "7").2.2.2.1.2.2 (by decide)
      (by intro v x h; exact absurd h (by simp [redis.Client.empty]))
  · exact ((delete_not_gated ⟨sampleDb, [some (.refused (.other "connection refused"))], []⟩
      false "x" "1" "7").2.2.2.2 (.other "connection refused")).2.1 rfl

/-- Counterexample to C8 as stated: with the flag down and a backend that
refuses the command, `DeleteSession` returns the backend's error, not nil. -/
theorem nil_error_without_connection_counterexample :
    (SessionRepo.mk ⟨fun _ => none, [some (.refused (.other "connection refused"))], []⟩
      false).Connection = false ∧
    (SessionRepo.DeleteSession
      ⟨⟨fun _ => none, [some (.refused (.other "connection refused"))], []⟩, false⟩ "abc").1
      = (false, some (.other "connection refused")) := by
  exact ⟨rfl, rfl⟩

/-- C8, amended. With the flag down and whatever the backend would do, the
gated operations (create, check, get-owner, add and list recently-viewed)
return a nil error; the three deletes are not gated and return the error of
their backend command, nil or not. -/
theorem nil_error_without_connection (s : SessionRepo) (c : CsrfRepo) (f : FilmRedisRepo)
    (hs : s.Connection = false) (hc : c.Connection = false) (hf : f.Connection = false)
    (active : Session) (token : Csrf) (film : NearFilm) (sid uid fid : String) :
    ((s.AddSession active).1.2 = none ∧ (c.AddCsrf token).1.2 = none ∧
      (f.AddNearFilm film).1.2 = none ∧ (s.CheckActiveSession sid).1.2 = none ∧
      (c.CheckActiveCsrf sid).1.2 = none ∧ (f.CheckActiveNearFilm uid fid).1.2 = none ∧
      (s.GetUserLogin sid).1.2 = none ∧ (f.GetNearFilms uid).1.2 = none) ∧
    ((s.DeleteSession sid).1.2 = (s.sessionRedisClient.Del sid).1.2 ∧
      (c.DeleteSession sid).1.2 = (c.csrfRedisClient.Del sid).1.2 ∧
      (f.DeleteNearFilm uid fid).1.2 = (f.filmRedisClient.HDel ("nearfilms:" ++ uid) fid).1.2) := by
  have h := soft_fail_gated s c f hs hc hf active token film sid uid fid
  refine ⟨⟨?_, ?_, ?_, ?_, ?_, ?_, ?_, ?_⟩, ?_, ?_, ?_⟩
  · rw [h.1]
  · rw [h.2.1]
  · rw [h.2.2.1]
  · rw [h.2.2.2.1]
  · rw [h.2.2.2.2.1]
  · rw [h.2.2.2.2.2.1]
  · rw [h.2.2.2.2.2.2.1]
  · rw [h.2.2.2.2.2.2.2]
  · rw [SessionRepo.DeleteSession_result]
    cases (s.sessionRedisClient.Del sid).1.2 <;> rfl
  · rw [CsrfRepo.DeleteCsrf_result]
    cases (c.csrfRedisClient.Del sid).1.2 <;> rfl
  · rw [FilmRedisRepo.DeleteNearFilm_result]
    cases (f.filmRedisClient.HDel ("nearfilms:" ++ uid) fid).1.2 <;> rfl

/-- Witness of C8, amended: with the flag down and a backend that refuses every
command, checking a session has a nil error. -/
theorem nil_error_without_connection_witness :
    (SessionRepo.CheckActiveSession
      ⟨⟨sampleDb, [some (.refused (.other "connection refused"))], []⟩, false⟩ "abc").1.2
      = none :=
  (nil_error_without_connection
    ⟨⟨sampleDb, [some (.refused (.other "connection refused"))], []⟩, false⟩
    ⟨redis.Client.empty, false⟩ ⟨redis.Client.empty, false⟩ rfl rfl rfl
    ⟨"alice", "abc", 0⟩ ⟨"x", 0⟩ ⟨7, 1⟩ "abc" "1" "7").1.2.2.2.1

/-! ### What a create writes -/

/-- With the flag up, the backend after `AddSession` is the backend after the
`Set` followed by one `Get`. -/
theorem SessionRepo.AddSession_client (s : SessionRepo) (active : Session)
    (hs : s.Connection = true) :
    (s.AddSession active).2.sessionRedisClient =
      (s.sessionRedisClient.Set active.SID active.Login (24 * Hour)).2.sent (.get active.SID)
        (s.sessionRedisClient.Set active.SID active.Login (24 * Hour)).2.db := by
  simp only [SessionRepo.AddSession, hs]
  rw [SessionRepo.CheckActiveSession_eq ⟨_, true⟩ _ rfl]
  split_ifs <;> first | rfl | simp_all

/-- With the flag up, the backend after `AddCsrf` is the backend after the `Set`
followed by one `Get`. -/
theorem CsrfRepo.AddCsrf_client (c : CsrfRepo) (active : Csrf)
    (hc : c.Connection = true) :
    (c.AddCsrf active).2.csrfRedisClient =
      (c.csrfRedisClient.Set active.SID active.SID (3 * Hour)).2.sent (.get active.SID)
        (c.csrfRedisClient.Set active.SID active.SID (3 * Hour)).2.db := by
  simp only [CsrfRepo.AddCsrf, hc]
  rw [CsrfRepo.CheckActiveCsrf_eq ⟨_, true⟩ _ rfl]
  split_ifs <;> first | rfl | simp_all

/-- C9. Stored value and lifetime: with the flag up, the commands `AddSession`
sends are one `SET` of key `t` with value `l` and expiry 24 hours followed by
the confirming `GET`, and those of `AddCsrf` one `SET` of key `t` with value
`t` and expiry 3 hours followed by the confirming `GET`; when the backend
answers the write, the key holds that value with that expiry afterwards; and
`ExpiresAt` has no influence on the outcome. -/
theorem stored_value_and_lifetime (s : SessionRepo) (c : CsrfRepo) (active : Session)
    (token : Csrf) (hs : s.Connection = true) (hc : c.Connection = true) :
    ((s.AddSession active).2.sessionRedisClient.log = s.sessionRedisClient.log ++
        [.set active.SID active.Login (24 * 3600 * 1000000000), .get active.SID] ∧
      (c.AddCsrf token).2.csrfRedisClient.log = c.csrfRedisClient.log ++
        [.set token.SID token.SID (3 * 3600 * 1000000000), .get token.SID]) ∧
    ((s.sessionRedisClient.Answers →
        (s.AddSession active).2.sessionRedisClient.db active.SID
          = some (.str active.Login (24 * 3600 * 1000000000))) ∧
      (c.csrfRedisClient.Answers →
        (c.AddCsrf token).2.csrfRedisClient.db token.SID
          = some (.str token.SID (3 * 3600 * 1000000000)))) ∧
    ((∀ x, s.AddSession { active with ExpiresAt := x } = s.AddSession active) ∧
      (∀ x, c.AddCsrf { token with ExpiresAt := x } = c.AddCsrf token)) := by
  have e24 : 24 * Hour = 24 * 3600 * 1000000000 := by decide
  have e3 : 3 * Hour = 3 * 3600 * 1000000000 := by decide
  rw [SessionRepo.AddSession_client s active hs, CsrfRepo.AddCsrf_client c token hc]
  refine ⟨⟨?_, ?_⟩, ⟨?_, ?_⟩, ?_, ?_⟩
  · simp only [redis.Client.sent, redis.Set_log, e24]
    simp
  · simp only [redis.Client.sent, redis.Set_log, e3]
    simp
  · intro h
    rw [redis.Set_of_answers h, ← e24]
    simp [redis.Client.sent, redis.applySet, redis.bind]
  · intro h
    rw [redis.Set_of_answers h, ← e3]
    simp [redis.Client.sent, redis.applySet, redis.bind]
  · intro x
    rfl
  · intro x
    rfl

/-- Witness of C9: the session `"abc"` of `"alice"` and the token `"x"`, each
created with an `ExpiresAt` of one second; the stored expiry is 24 hours,
respectively 3 hours. -/
theorem stored_value_and_lifetime_witness :
    (SessionRepo.AddSession ⟨redis.Client.empty, true⟩
      ⟨"alice", "abc", 1000000000⟩).2.sessionRedisClient.log
      = [.set "abc" "alice" 86400000000000, .get "abc"] ∧
    (CsrfRepo.AddCsrf ⟨redis.Client.empty, true⟩ ⟨"x", 1000000000⟩).2.csrfRedisClient.log
      = [.set "x" "x" 10800000000000, .get "x"] :=
  (stored_value_and_lifetime ⟨redis.Client.empty, true⟩ ⟨redis.Client.empty, true⟩
    ⟨"alice", "abc", 1000000000⟩ ⟨"x", 1000000000⟩ rfl rfl).1

/-! ### Decimal numerals -/

namespace strconv

theorem parseLoop_cons (c : Char) (cs : List Char) (n : Nat) :
    parseLoop (c :: cs) n = (parseStep c n).bind (parseLoop cs) := by
  unfold parseStep
  simp only [parseLoop]
  split_ifs <;> simp [parseLoop]

theorem parseLoop_append (xs ys : List Char) (n : Nat) :
    parseLoop (xs ++ ys) n = (parseLoop xs n).bind (parseLoop ys) := by
  induction xs generalizing n with
  | nil => simp [parseLoop]
  | cons c cs ih =>
    rw [List.cons_append, parseLoop_cons, parseLoop_cons]
    cases h : parseStep c n with
    | none => simp
    | some m => simp [ih]

theorem digit_bounds {d : Nat} (hd : d < 10) :
    '0' ≤ digit d ∧ digit d ≤ '9' ∧ (digit d).toNat - '0'.toNat = d := by
  interval_cases d <;> decide

/-- A digit read after `m` gives `m * 10 + d` as long as that is a `uint64`. -/
theorem parseStep_digit {d m : Nat} (hd : d < 10) (hm : m * 10 + d < 2 ^ 64) :
    parseStep (digit d) m = some (m * 10 + d) := by
  obtain ⟨h0, h9, hv⟩ := digit_bounds hd
  have hcut : ¬ (m ≥ maxVal / 10 + 1) := by
    have : maxVal / 10 + 1 = 1844674407370955162 := by decide
    rw [this]
    norm_num at hm
    omega
  have h10 : (m * 10) % 2 ^ 64 = m * 10 := Nat.mod_eq_of_lt (by omega)
  have h1 : (m * 10 + d) % 2 ^ 64 = m * 10 + d := Nat.mod_eq_of_lt hm
  have hmax : ¬ (m * 10 + d > maxVal) := by
    have : maxVal = 2 ^ 64 - 1 := rfl
    omega
  unfold parseStep
  simp only [parseLoop, h0, h9, and_self, if_true, hv, hcut, if_false, h10, h1]
  simp [hmax]

theorem formatBits_append (fuel u : Nat) (acc : List Char) :
    formatBits fuel u acc = formatBits fuel u [] ++ acc := by
  induction fuel generalizing u acc with
  | zero => simp [formatBits]
  | succ n ih =>
    simp only [formatBits]
    split_ifs
    · simp
    · rw [ih (u / 10) (digit (u % 10) :: acc), ih (u / 10) [digit (u % 10)]]
      simp

theorem formatBits_ne_nil (fuel u : Nat) : formatBits (fuel + 1) u [] ≠ [] := by
  simp only [formatBits]
  split_ifs
  · simp
  · rw [formatBits_append]
    simp

/-- Reading back the digits written for `u`. -/
theorem parseLoop_formatBits (fuel u : Nat) (hfuel : u < fuel) (hu : u < 2 ^ 64) :
    parseLoop (formatBits fuel u []) 0 = some u := by
  induction fuel generalizing u with
  | zero => omega
  | succ n ih =>
    simp only [formatBits]
    split_ifs with h
    · have := parseStep_digit (d := u) (m := 0) h (by omega)
      simpa [parseStep] using this
    · rw [formatBits_append, parseLoop_append, ih (u / 10) (by omega) (by omega)]
      have := parseStep_digit (d := u % 10) (m := u / 10) (Nat.mod_lt _ (by omega)) (by omega)
      simp only [Option.some_bind]
      rw [show parseLoop [digit (u % 10)] (u / 10) = parseStep (digit (u % 10)) (u / 10) from rfl,
        this]
      congr 1
      omega

/-- Round trip: `ParseUint(FormatUint(u, 10), 10, 64)` is `(u, nil)` for every
`uint64` `u`. -/
theorem ParseUint_FormatUint (u : Nat) (hu : u < 2 ^ 64) :
    ParseUint (FormatUint u) = some u := by
  unfold ParseUint FormatUint
  have hne : (String.mk (formatBits (u + 1) u [])) ≠ "" := by
    intro h
    have := congrArg String.data h
    exact formatBits_ne_nil u u this
  rw [if_neg hne]
  exact parseLoop_formatBits (u + 1) u (by omega) hu

end strconv

/-! ### The recently-viewed hash -/

theorem redis.not_str_of_hash {db : String → Option redis.Value} {key : String}
    (h : redis.Hash) (hk : db key = some (.hash h)) : ∀ v x, db key ≠ some (.str v x) := by
  intro v x hne
  rw [hk] at hne
  cases hne

theorem redis.applyHSet_of_not_str (db : String → Option redis.Value) (key field value : String)
    (hk : ∀ v x, db key ≠ some (.str v x)) :
    (redis.applyHSet db key field value).1.2 = none ∧
    (redis.applyHSet db key field value).2
      = redis.bind db key (some (.hash ((redis.hashAt db key).insert field value))) := by
  unfold redis.applyHSet redis.hashAt
  cases hv : db key with
  | none => exact ⟨rfl, rfl⟩
  | some v =>
    cases v with
    | str v x => exact absurd hv (hk v x)
    | hash m => exact ⟨rfl, rfl⟩

theorem foldl_nearFilmsStep (uid : String) (u : Nat) (hu : strconv.ParseUint uid = some u)
    (fields : List String) (acc : List NearFilm) :
    fields.foldl (nearFilmsStep uid) acc = acc ++ fields.filterMap (nearFilmOf u) := by
  induction fields generalizing acc with
  | nil => simp
  | cons a l ih =>
    rw [List.foldl_cons, ih]
    cases ha : strconv.ParseUint a with
    | none => simp [nearFilmsStep, nearFilmOf, ha, List.filterMap_cons]
    | some n => simp [nearFilmsStep, nearFilmOf, ha, hu, List.filterMap_cons]

/-- In a list without repetition, an element whose image is `x` and which is
the only one with that image accounts for exactly one `x` among the images. -/
theorem count_filterMap_eq_one {α β : Type} [DecidableEq β] (g : α → Option β) (x : β) (k0 : α)
    (l : List α) (hnd : l.Nodup) (hmem : k0 ∈ l) (hg : g k0 = some x)
    (huniq : ∀ k ∈ l, g k = some x → k = k0) : (l.filterMap g).count x = 1 := by
  induction l with
  | nil => simp at hmem
  | cons a l ih =>
    rw [List.nodup_cons] at hnd
    by_cases ha : a = k0
    · subst ha
      have hnone : (l.filterMap g).count x = 0 := by
        rw [List.count_eq_zero]
        intro hx
        obtain ⟨k, hk, hgk⟩ := List.mem_filterMap.1 hx
        have := huniq k (List.mem_cons_of_mem _ hk) hgk
        exact hnd.1 (this ▸ hk)
      simp [List.filterMap_cons, hg, hnone]
    · have hk0 : k0 ∈ l := by
        rcases List.mem_cons.1 hmem with h | h
        · exact absurd h.symm ha
        · exact h
      have hga : g a ≠ some x := fun h => ha (huniq a (List.mem_cons_self a l) h)
      have ih' := ih hnd.2 hk0 (fun k hk => huniq k (List.mem_cons_of_mem _ hk))
      cases hgv : g a with
      | none => simpa [List.filterMap_cons, hgv] using ih'
      | some y =>
        have hy : y ≠ x := fun h => hga (by rw [hgv, h])
        simpa [List.filterMap_cons, hgv, List.count_cons, hy] using ih'

/-- `AddNearFilm` on a healthy backend with the flag up, when the key of the
user holds no string: the field is put into the hash and confirmed. -/
theorem FilmRedisRepo.AddNearFilm_healthy (r : FilmRedisRepo) (active : NearFilm)
    (hconn : r.Connection = true) (hh : r.filmRedisClient.Healthy)
    (hk : ∀ v x, r.filmRedisClient.db (nearKey active.IdUser) ≠ some (.str v x)) :
    r.AddNearFilm active = ((true, none),
      { filmRedisClient :=
          (r.filmRedisClient.sent
            (.hset (nearKey active.IdUser) (strconv.FormatUint active.IdFilm) "1")
            (redis.bind r.filmRedisClient.db (nearKey active.IdUser)
              (some (.hash ((redis.hashAt r.filmRedisClient.db (nearKey active.IdUser)).insert
                (strconv.FormatUint active.IdFilm) "1"))))).sent
            (.hexists (nearKey active.IdUser) (strconv.FormatUint active.IdFilm))
            (redis.bind r.filmRedisClient.db (nearKey active.IdUser)
              (some (.hash ((redis.hashAt r.filmRedisClient.db (nearKey active.IdUser)).insert
                (strconv.FormatUint active.IdFilm) "1")))),
        Connection := true }) := by
  obtain ⟨he, hdb⟩ := redis.applyHSet_of_not_str r.filmRedisClient.db (nearKey active.IdUser)
    (strconv.FormatUint active.IdFilm) "1" hk
  have hans := hh.answers
  unfold redis.Client.Answers at hans
  have hans2 := (hh.sent (.hset (nearKey active.IdUser) (strconv.FormatUint active.IdFilm) "1")
    (redis.bind r.filmRedisClient.db (nearKey active.IdUser)
      (some (.hash ((redis.hashAt r.filmRedisClient.db (nearKey active.IdUser)).insert
        (strconv.FormatUint active.IdFilm) "1"))))).answers
  unfold redis.Client.Answers at hans2
  unfold nearKey at *
  simp only [FilmRedisRepo.AddNearFilm, FilmRedisRepo.CheckActiveNearFilm, redis.Client.HSet,
    redis.Client.HExists, hconn, hans, he, hdb, hans2]
  simp [redis.Client.sent, redis.replyHExists, redis.bind]

/-- `GetNearFilms` with the flag up on a backend that answers, when the key of
the user holds a hash: one entry for every field that parses. -/
theorem FilmRedisRepo.GetNearFilms_hash (r : FilmRedisRepo) (u : Nat) (hu : u < 2 ^ 64)
    (hconn : r.Connection = true) (hans : r.filmRedisClient.Answers) (h : redis.Hash)
    (hk : r.filmRedisClient.db (nearKey u) = some (.hash h)) :
    (r.GetNearFilms (strconv.FormatUint u)).1 = (h.keys.filterMap (nearFilmOf u), none) := by
  unfold redis.Client.Answers at hans
  unfold nearKey at hk
  simp only [FilmRedisRepo.GetNearFilms, redis.Client.HGetAll, hconn, hans, redis.replyHGetAll, hk]
  simp only [Bool.not_true, Bool.false_eq_true, if_false, ne_eq, not_true_eq_false,
    List.map_map]
  rw [foldl_nearFilmsStep _ u (strconv.ParseUint_FormatUint u hu)]
  simp [AList.keys, List.keys]
  rfl

/-- Counterexample to C10 as stated: on a healthy backend whose hash for
user 1 already has the field `"07"`, `AddNearFilm({IdUser: 1, IdFilm: 7})`
returns `(true, nil)` and the following `GetNearFilms("1")` contains
`NearFilm{IdUser: 1, IdFilm: 7}` twice. -/
theorem add_then_list_counterexample :
    (FilmRedisRepo.AddNearFilm ⟨⟨staleDb, [], []⟩, true⟩ { IdUser := 1, IdFilm := 7 }).1
      = (true, none) ∧
    (FilmRedisRepo.GetNearFilms
      (FilmRedisRepo.AddNearFilm ⟨⟨staleDb, [], []⟩, true⟩ { IdUser := 1, IdFilm := 7 }).2
      (strconv.FormatUint 1)).1
      = ([{ IdUser := 1, IdFilm := 7 }, { IdUser := 1, IdFilm := 7 }], none) ∧
    (FilmRedisRepo.GetNearFilms
      (FilmRedisRepo.AddNearFilm ⟨⟨staleDb, [], []⟩, true⟩ { IdUser := 1, IdFilm := 7 }).2
      (strconv.FormatUint 1)).1.1.count { IdUser := 1, IdFilm := 7 } = 2 := by
  decide

/-- C10, amended. With the flag up and a healthy backend, for all `uint64` ids
`u` and `f` and every keyspace in which the key of user `u` holds no string
and no field of its hash other than the decimal numeral of `f` parses to `f`,
`AddNearFilm({IdUser: u, IdFilm: f})` returns `(true, nil)` and the following
`GetNearFilms(decimal(u))` returns, with a nil error, one entry for every
field of the hash that parses, among them `NearFilm{IdUser: u, IdFilm: f}`
exactly once, whether or not `f` had been added before. -/
theorem add_then_list (r : FilmRedisRepo) (u f : Nat) (hu : u < 2 ^ 64) (hf : f < 2 ^ 64)
    (hconn : r.Connection = true) (hh : r.filmRedisClient.Healthy)
    (hk : ∀ v x, r.filmRedisClient.db (nearKey u) ≠ some (.str v x))
    (hcanon : ∀ field ∈ (redis.hashAt r.filmRedisClient.db (nearKey u)).keys,
      strconv.ParseUint field = some f → field = strconv.FormatUint f) :
    (r.AddNearFilm { IdUser := u, IdFilm := f }).1 = (true, none) ∧
    ((r.AddNearFilm { IdUser := u, IdFilm := f }).2.GetNearFilms (strconv.FormatUint u)).1.2
      = none ∧
    ((r.AddNearFilm { IdUser := u, IdFilm := f }).2.GetNearFilms (strconv.FormatUint u)).1.1
      = (redis.hashAt (r.AddNearFilm { IdUser := u, IdFilm := f }).2.filmRedisClient.db
          (nearKey u)).keys.filterMap (nearFilmOf u) ∧
    ((r.AddNearFilm { IdUser := u, IdFilm := f }).2.GetNearFilms (strconv.FormatUint u)).1.1.count
      { IdUser := u, IdFilm := f } = 1 := by
  rw [FilmRedisRepo.AddNearFilm_healthy r { IdUser := u, IdFilm := f } hconn hh hk]
  have hans := ((hh.sent (.hset (nearKey u) (strconv.FormatUint f) "1")
    (redis.bind r.filmRedisClient.db (nearKey u)
      (some (.hash ((redis.hashAt r.filmRedisClient.db (nearKey u)).insert
        (strconv.FormatUint f) "1"))))).sent
    (.hexists (nearKey u) (strconv.FormatUint f))
    (redis.bind r.filmRedisClient.db (nearKey u)
      (some (.hash ((redis.hashAt r.filmRedisClient.db (nearKey u)).insert
        (strconv.FormatUint f) "1"))))).answers
  have hget := FilmRedisRepo.GetNearFilms_hash
    { filmRedisClient :=
        (r.filmRedisClient.sent (.hset (nearKey u) (strconv.FormatUint f) "1")
          (redis.bind r.filmRedisClient.db (nearKey u)
            (some (.hash ((redis.hashAt r.filmRedisClient.db (nearKey u)).insert
              (strconv.FormatUint f) "1"))))).sent
          (.hexists (nearKey u) (strconv.FormatUint f))
          (redis.bind r.filmRedisClient.db (nearKey u)
            (some (.hash ((redis.hashAt r.filmRedisClient.db (nearKey u)).insert
              (strconv.FormatUint f) "1")))),
      Connection := true } u hu rfl hans
    ((redis.hashAt r.filmRedisClient.db (nearKey u)).insert (strconv.FormatUint f) "1")
    (redis.bind_same _ _ _)
  refine ⟨rfl, ?_, ?_, ?_⟩
  · rw [hget]
  · rw [hget]
    simp [redis.hashAt, redis.Client.sent, redis.bind]
  · rw [hget]
    refine count_filterMap_eq_one (nearFilmOf u) _ (strconv.FormatUint f) _
      (AList.keys_nodup _) ?_ ?_ ?_
    · exact AList.mem_keys.2 ((AList.mem_insert _).2 (Or.inl rfl))
    · simp [nearFilmOf, strconv.ParseUint_FormatUint f hf]
    · intro k hkmem hgk
      rcases (AList.mem_insert _).1 (AList.mem_keys.1 hkmem) with h | h
      · exact h
      · apply hcanon k (AList.mem_keys.2 h)
        cases hp : strconv.ParseUint k with
        | none => simp [nearFilmOf, hp] at hgk
        | some n =>
          simp only [nearFilmOf, hp, Option.map_some', Option.some.injEq, NearFilm.mk.injEq] at hgk
          rw [hgk.1]

/-- Witness of C10, amended: film 7 is added for user 1 a second time; it is
listed once. -/
theorem add_then_list_witness :
    (FilmRedisRepo.GetNearFilms
      (FilmRedisRepo.AddNearFilm
        (FilmRedisRepo.AddNearFilm ⟨redis.Client.empty, true⟩ { IdUser := 1, IdFilm := 7 }).2
        { IdUser := 1, IdFilm := 7 }).2
      (strconv.FormatUint 1)).1.1.count { IdUser := 1, IdFilm := 7 } = 1 :=
  (add_then_list
    (FilmRedisRepo.AddNearFilm ⟨redis.Client.empty, true⟩ { IdUser := 1, IdFilm := 7 }).2
    1 7 (by decide) (by decide) rfl (by decide)
    (redis.not_str_of_hash (AList.insert "7" "1" ∅) rfl)
    (by decide)).2.2.2

/-! ### Other users' hashes -/

theorem redis.applyHSet_other (db : String → Option redis.Value) (key field value : String)
    {k : String} (hk : k ≠ key) : (redis.applyHSet db key field value).2 k = db k := by
  unfold redis.applyHSet
  cases hv : db key with
  | none => simp [redis.bind, hk]
  | some v => cases v <;> simp [redis.bind, hk]

theorem redis.applyHDel_other (db : String → Option redis.Value) (key field : String)
    {k : String} (hk : k ≠ key) : (redis.applyHDel db key field).2 k = db k := by
  unfold redis.applyHDel
  cases hv : db key with
  | none => rfl
  | some v =>
    cases v with
    | str v x => rfl
    | hash m => by_cases hm : field ∈ m.keys <;> simp [hm, redis.bind, hk]

theorem redis.HSet_db_other (c : redis.Client) (key field value : String) {k : String}
    (hk : k ≠ key) : (c.HSet key field value).2.db k = c.db k := by
  unfold redis.Client.HSet
  split
  · rfl
  · exact redis.applyHSet_other c.db key field value hk
  · exact redis.applyHSet_other c.db key field value hk

theorem redis.HDel_db_other (c : redis.Client) (key field : String) {k : String}
    (hk : k ≠ key) : (c.HDel key field).2.db k = c.db k := by
  unfold redis.Client.HDel
  split
  · rfl
  · exact redis.applyHDel_other c.db key field hk
  · exact redis.applyHDel_other c.db key field hk

theorem redis.HExists_db (c : redis.Client) (key field : String) :
    (c.HExists key field).2.db = c.db := by
  unfold redis.Client.HExists
  split <;> rfl

/-- `AddNearFilm` leaves every key but the one of its user as it was, and does
not touch the flag. -/
theorem FilmRedisRepo.AddNearFilm_frame (r : FilmRedisRepo) (active : NearFilm) {k : String}
    (hk : k ≠ nearKey active.IdUser) :
    (r.AddNearFilm active).2.filmRedisClient.db k = r.filmRedisClient.db k ∧
    (r.AddNearFilm active).2.Connection = r.Connection := by
  unfold nearKey at hk
  cases hc : r.Connection with
  | false => simp [FilmRedisRepo.AddNearFilm, hc]
  | true =>
    simp only [FilmRedisRepo.AddNearFilm, FilmRedisRepo.CheckActiveNearFilm, hc, Bool.not_true,
      Bool.false_eq_true, if_false]
    split_ifs <;>
      simp [redis.HExists_db, redis.HSet_db_other _ _ _ _ hk]

/-- `DeleteNearFilm` leaves every key but the one of its user as it was, and
does not touch the flag. -/
theorem FilmRedisRepo.DeleteNearFilm_frame (r : FilmRedisRepo) (uid fid : String) {k : String}
    (hk : k ≠ "nearfilms:" ++ uid) :
    (r.DeleteNearFilm uid fid).2.filmRedisClient.db k = r.filmRedisClient.db k ∧
    (r.DeleteNearFilm uid fid).2.Connection = r.Connection := by
  rw [FilmRedisRepo.DeleteNearFilm_client, redis.HDel_db_other _ _ _ hk]
  refine ⟨rfl, ?_⟩
  simp only [FilmRedisRepo.DeleteNearFilm]
  split_ifs <;> rfl

theorem redis.HSet_faults (c : redis.Client) (key field value : String) :
    (c.HSet key field value).2.faults = c.faults.tail := by
  unfold redis.Client.HSet
  split <;> rfl

theorem redis.HExists_faults (c : redis.Client) (key field : String) :
    (c.HExists key field).2.faults = c.faults.tail := by
  unfold redis.Client.HExists
  split <;> rfl

theorem redis.HDel_faults (c : redis.Client) (key field : String) :
    (c.HDel key field).2.faults = c.faults.tail := by
  unfold redis.Client.HDel
  split <;> rfl

/-- A healthy backend is still healthy after `AddNearFilm`. -/
theorem FilmRedisRepo.AddNearFilm_healthy_stays (r : FilmRedisRepo) (active : NearFilm)
    (hh : r.filmRedisClient.Healthy) : (r.AddNearFilm active).2.filmRedisClient.Healthy := by
  intro f hf
  apply hh f
  cases hc : r.Connection with
  | false =>
    simp only [FilmRedisRepo.AddNearFilm, hc] at hf
    simpa using hf
  | true =>
    simp only [FilmRedisRepo.AddNearFilm, FilmRedisRepo.CheckActiveNearFilm, hc, Bool.not_true,
      Bool.false_eq_true, if_false] at hf
    split_ifs at hf
    all_goals
      simp only [redis.HExists_faults, redis.HSet_faults] at hf
      first
        | exact List.mem_of_mem_tail hf
        | exact List.mem_of_mem_tail (List.mem_of_mem_tail hf)

/-- A healthy backend is still healthy after `DeleteNearFilm`. -/
theorem FilmRedisRepo.DeleteNearFilm_healthy_stays (r : FilmRedisRepo) (uid fid : String)
    (hh : r.filmRedisClient.Healthy) : (r.DeleteNearFilm uid fid).2.filmRedisClient.Healthy := by
  intro f hf
  apply hh f
  rw [FilmRedisRepo.DeleteNearFilm_client, redis.HDel_faults] at hf
  exact List.mem_of_mem_tail hf

/-- What `GetNearFilms` returns is decided by the flag, the behaviour of the
backend at the call and what the key of the user holds. -/
theorem FilmRedisRepo.GetNearFilms_congr (r1 r2 : FilmRedisRepo) (uid : String)
    (hc : r1.Connection = r2.Connection)
    (hb : r1.filmRedisClient.behaviour = r2.filmRedisClient.behaviour)
    (hdb : r1.filmRedisClient.db ("nearfilms:" ++ uid)
      = r2.filmRedisClient.db ("nearfilms:" ++ uid)) :
    (r1.GetNearFilms uid).1 = (r2.GetNearFilms uid).1 := by
  unfold FilmRedisRepo.GetNearFilms redis.Client.HGetAll redis.replyHGetAll
  rw [hc, hb, hdb]
  cases r2.Connection with
  | false => rfl
  | true =>
    simp only [Bool.not_true, Bool.false_eq_true, if_false]
    cases r2.filmRedisClient.behaviour with
    | none => split_ifs <;> rfl
    | some f => cases f <;> rfl

theorem strconv.FormatUint_injective {u v : Nat} (hu : u < 2 ^ 64) (hv : v < 2 ^ 64)
    (h : strconv.FormatUint u = strconv.FormatUint v) : u = v := by
  have h1 := strconv.ParseUint_FormatUint u hu
  rw [h, strconv.ParseUint_FormatUint v hv] at h1
  exact (Option.some.inj h1).symm

/-- Distinct `uint64` ids have distinct keys. -/
theorem nearKey_injective {u v : Nat} (hu : u < 2 ^ 64) (hv : v < 2 ^ 64)
    (h : nearKey u = nearKey v) : u = v := by
  unfold nearKey at h
  apply strconv.FormatUint_injective hu hv
  have hd := congrArg String.data h
  simp only [String.data_append] at hd
  exact String.ext (List.append_cancel_left hd)

/-- Every entry of `GetNearFilms(decimal(v))` carries the user id `v`. -/
theorem FilmRedisRepo.GetNearFilms_IdUser (r : FilmRedisRepo) (v : Nat) (hv : v < 2 ^ 64) :
    ∀ x ∈ (r.GetNearFilms (strconv.FormatUint v)).1.1, x.IdUser = v := by
  intro x hx
  simp only [FilmRedisRepo.GetNearFilms] at hx
  rw [foldl_nearFilmsStep _ v (strconv.ParseUint_FormatUint v hv)] at hx
  split_ifs at hx
  · simp at hx
  · simp at hx
  · simp only [List.nil_append, List.mem_filterMap] at hx
    obtain ⟨k, _, hk⟩ := hx
    cases hp : strconv.ParseUint k with
    | none => simp [nearFilmOf, hp] at hk
    | some n =>
      simp only [nearFilmOf, hp, Option.map_some', Option.some.injEq] at hk
      rw [← hk]

/-- C11. No cross-user leakage: for distinct `uint64` ids `u` and `v` the keys
`"nearfilms:" + decimal(u)` and `"nearfilms:" + decimal(v)` differ; whatever
the backend does, `AddNearFilm({IdUser: u, IdFilm: f})` and
`DeleteNearFilm(decimal(u), fid)` leave the hash of `v` and the flag as they
were, so `GetNearFilms(decimal(v))` returns after them what it returns before
them whenever the backend behaves alike at the listing (as a healthy backend
does); and every entry `GetNearFilms(decimal(v))` returns has `IdUser = v`. -/
theorem no_cross_user_leakage (r : FilmRedisRepo) (u v f : Nat) (fid : String)
    (hu : u < 2 ^ 64) (hv : v < 2 ^ 64) (huv : u ≠ v) :
    nearKey u ≠ nearKey v ∧
    ((r.AddNearFilm { IdUser := u, IdFilm := f }).2.filmRedisClient.db (nearKey v)
        = r.filmRedisClient.db (nearKey v) ∧
      (r.DeleteNearFilm (strconv.FormatUint u) fid).2.filmRedisClient.db (nearKey v)
        = r.filmRedisClient.db (nearKey v)) ∧
    (((r.AddNearFilm { IdUser := u, IdFilm := f }).2.filmRedisClient.behaviour
          = r.filmRedisClient.behaviour →
        ((r.AddNearFilm { IdUser := u, IdFilm := f }).2.GetNearFilms (strconv.FormatUint v)).1
          = (r.GetNearFilms (strconv.FormatUint v)).1) ∧
      ((r.DeleteNearFilm (strconv.FormatUint u) fid).2.filmRedisClient.behaviour
          = r.filmRedisClient.behaviour →
        ((r.DeleteNearFilm (strconv.FormatUint u) fid).2.GetNearFilms (strconv.FormatUint v)).1
          = (r.GetNearFilms (strconv.FormatUint v)).1)) ∧
    (r.filmRedisClient.Healthy →
      ((r.AddNearFilm { IdUser := u, IdFilm := f }).2.GetNearFilms (strconv.FormatUint v)).1
        = (r.GetNearFilms (strconv.FormatUint v)).1 ∧
      ((r.DeleteNearFilm (strconv.FormatUint u) fid).2.GetNearFilms (strconv.FormatUint v)).1
        = (r.GetNearFilms (strconv.FormatUint v)).1) ∧
    (∀ x ∈ (r.GetNearFilms (strconv.FormatUint v)).1.1, x.IdUser = v) := by
  have hkey : nearKey v ≠ nearKey u := fun h => huv (nearKey_injective hv hu h).symm
  have hadd := FilmRedisRepo.AddNearFilm_frame r { IdUser := u, IdFilm := f } hkey
  have hdel := FilmRedisRepo.DeleteNearFilm_frame r (strconv.FormatUint u) fid hkey
  refine ⟨fun h => hkey h.symm, ⟨hadd.1, hdel.1⟩, ⟨?_, ?_⟩, ?_,
    FilmRedisRepo.GetNearFilms_IdUser r v hv⟩
  · intro hb
    exact FilmRedisRepo.GetNearFilms_congr _ _ _ hadd.2 hb hadd.1
  · intro hb
    exact FilmRedisRepo.GetNearFilms_congr _ _ _ hdel.2 hb hdel.1
  · intro hh
    have hr := hh.answers
    constructor
    · refine FilmRedisRepo.GetNearFilms_congr _ _ _ hadd.2 ?_ hadd.1
      rw [hr]
      exact (FilmRedisRepo.AddNearFilm_healthy_stays r _ hh).answers
    · refine FilmRedisRepo.GetNearFilms_congr _ _ _ hdel.2 ?_ hdel.1
      rw [hr]
      exact (FilmRedisRepo.DeleteNearFilm_healthy_stays r _ fid hh).answers

/-- Witness of C11: user 2 has viewed film 9; adding film 7 for user 1, or
removing it, does not change what user 2 is shown. -/
theorem no_cross_user_leakage_witness :
    (FilmRedisRepo.GetNearFilms
      (FilmRedisRepo.AddNearFilm
        (FilmRedisRepo.AddNearFilm ⟨redis.Client.empty, true⟩ { IdUser := 2, IdFilm := 9 }).2
        { IdUser := 1, IdFilm := 7 }).2 (strconv.FormatUint 2)).1
      = (FilmRedisRepo.GetNearFilms
        (FilmRedisRepo.AddNearFilm ⟨redis.Client.empty, true⟩ { IdUser := 2, IdFilm := 9 }).2
        (strconv.FormatUint 2)).1 :=
  ((no_cross_user_leakage
    (FilmRedisRepo.AddNearFilm ⟨redis.Client.empty, true⟩ { IdUser := 2, IdFilm := 9 }).2
    1 2 7 "7" (by decide) (by decide) (by decide)).2.2.2.1 (by decide)).1

/-! ### The probe loops -/

theorem sync.Lock_then_RLock (m m1 : sync.RWMutex) (h : m.Lock = some m1) : m1.RLock = none := by
  unfold sync.RWMutex.Lock at h
  split_ifs at h
  cases h
  simp [sync.RWMutex.RLock]

theorem sync.RLock_then_Lock (m m1 : sync.RWMutex) (h : m.RLock = some m1) : m1.Lock = none := by
  unfold sync.RWMutex.RLock at h
  split_ifs at h
  cases h
  simp [sync.RWMutex.Lock]

/-- C12, what the code does. No turn of a probe loop gets to its assignment or
its sleep: whatever the state of the lock and the outcome of the ping, the
goroutine ends up waiting in `Lock` or `RLock`, and `Connection` is what it
was.  From the unlocked mutex the session and film probes take the write lock
and wait in `RLock`; the CSRF probe takes a read lock and waits in `Lock`.
After a ping that failed the flag is still true. -/
theorem probe_turn_never_writes :
    (∀ (r : SessionRepo) (m : sync.RWMutex),
      (r.CheckRedisSessionConnection m).reachedSleep = false ∧
      (r.CheckRedisSessionConnection m).flag SessionRepo.Connection = some r.Connection) ∧
    (∀ (r : CsrfRepo) (m : sync.RWMutex),
      (r.CheckRedisCsrfConnection m).reachedSleep = false ∧
      (r.CheckRedisCsrfConnection m).flag CsrfRepo.Connection = some r.Connection) ∧
    (∀ (r : FilmRedisRepo) (m : sync.RWMutex),
      (r.CheckRedisNearFilmConnection m).reachedSleep = false ∧
      (r.CheckRedisNearFilmConnection m).flag FilmRedisRepo.Connection = some r.Connection) ∧
    (∀ r : SessionRepo, r.CheckRedisSessionConnection ⟨false, 0⟩
      = .waiting .RLock { r with sessionRedisClient := r.sessionRedisClient.Ping.2 } ⟨true, 0⟩) ∧
    (∀ r : CsrfRepo, r.CheckRedisCsrfConnection ⟨false, 0⟩
      = .waiting .Lock { r with csrfRedisClient := r.csrfRedisClient.Ping.2 } ⟨false, 1⟩) ∧
    (∀ r : FilmRedisRepo, r.CheckRedisNearFilmConnection ⟨false, 0⟩
      = .waiting .RLock { r with filmRedisClient := r.filmRedisClient.Ping.2 } ⟨true, 0⟩) ∧
    (SessionRepo.CheckRedisSessionConnection
        ⟨⟨fun _ => none, [some (.refused (.other "connection refused"))], []⟩, true⟩
        ⟨false, 0⟩).flag SessionRepo.Connection = some true := by
  refine ⟨?_, ?_, ?_, fun _ => rfl, fun _ => rfl, fun _ => rfl, rfl⟩
  · intro r m
    unfold SessionRepo.CheckRedisSessionConnection
    cases h : m.Lock with
    | none => exact ⟨rfl, rfl⟩
    | some m1 =>
      simp only [sync.Lock_then_RLock m m1 h]
      exact ⟨rfl, rfl⟩
  · intro r m
    unfold CsrfRepo.CheckRedisCsrfConnection
    cases h : m.RLock with
    | none => exact ⟨rfl, rfl⟩
    | some m1 =>
      simp only [sync.RLock_then_Lock m m1 h]
      exact ⟨rfl, rfl⟩
  · intro r m
    unfold FilmRedisRepo.CheckRedisNearFilmConnection
    cases h : m.Lock with
    | none => exact ⟨rfl, rfl⟩
    | some m1 =>
      simp only [sync.Lock_then_RLock m m1 h]
      exact ⟨rfl, rfl⟩

/-! ### The flags of the authorization core -/

theorem errors.Is_self (e : Error) : errors.Is e e = true := by
  cases e <;> simp [errors.Is]

/-- An error made by `fmt.Errorf` with `%w` is an error in the sense of
`errors.Is` of the error it wraps, and is not a package-level error value. -/
theorem errors.Is_wrapped (format : String) (e : Error) :
    errors.Is (.wrapped format e) e = true ∧ ∀ name, Error.wrapped format e ≠ .sentinel name := by
  refine ⟨?_, fun name h => by cases h⟩
  simp [errors.Is, errors.Is_self]

/-- C16. Role check: `Core.ChangeUsersRole` returns `ErrNotAllowed`, and makes
no call on the repository, exactly when `currentUserRole` is not `"super"`;
when it is `"super"` the repository is called once, with `login` and `role`,
and the result is nil when the repository succeeds and an error wrapping the
repository's error when it fails. -/
theorem role_check (core : authorization.Core) (login role currentUserRole : String) :
    ((core.ChangeUsersRole login role currentUserRole).1 = some authorization.ErrNotAllowed
      ↔ currentUserRole ≠ "super") ∧
    ((core.ChangeUsersRole login role currentUserRole).2 = [] ↔ currentUserRole ≠ "super") ∧
    (currentUserRole = "super" →
      (core.ChangeUsersRole login role currentUserRole).2 = [.ChangeUsersRole login role] ∧
      (core.users.ChangeUsersRole login role = none →
        (core.ChangeUsersRole login role currentUserRole).1 = none) ∧
      (∀ e, core.users.ChangeUsersRole login role = some e →
        (core.ChangeUsersRole login role currentUserRole).1
          = some (.wrapped "change user role error: %w" e) ∧
        errors.Is (.wrapped "change user role error: %w" e) e = true)) := by
  unfold authorization.Core.ChangeUsersRole
  by_cases hr : currentUserRole = "super"
  · cases hu : core.users.ChangeUsersRole login role with
    | none => simp [hr, hu, authorization.ErrNotAllowed]
    | some e => simp [hr, hu, authorization.ErrNotAllowed, errors.Is, errors.Is_self]
  · simp [hr]

/-- Witness of C16: a `"super"` caller reaches the repository, a `"moderator"`
caller does not. -/
theorem role_check_witness :
    authorization.Core.ChangeUsersRole ⟨⟨redis.Client.empty, true⟩, sampleUsers,
      ⟨redis.Client.empty, true⟩⟩ "alice" "moderator" "super"
      = (none, [.ChangeUsersRole "alice" "moderator"]) ∧
    (authorization.Core.ChangeUsersRole ⟨⟨redis.Client.empty, true⟩, sampleUsers,
      ⟨redis.Client.empty, true⟩⟩ "alice" "super" "moderator").1
      = some authorization.ErrNotAllowed := by
  have h1 := (role_check ⟨⟨redis.Client.empty, true⟩, sampleUsers, ⟨redis.Client.empty, true⟩⟩
    "alice" "moderator" "super").2.2 rfl
  have h2 := (role_check ⟨⟨redis.Client.empty, true⟩, sampleUsers, ⟨redis.Client.empty, true⟩⟩
    "alice" "super" "moderator").1.2 (by decide)
  exact ⟨Prod.ext (h1.2.1 rfl) h1.1, h2⟩

/-- C17. Token format: for every length `n` and every random source,
`RandStringRunes(n)` has exactly `n` characters, each a member of
`letterRunes` and so alphanumeric; `Core.CreateSession` and
`Core.CreateCsrfToken` hand the store the session, respectively the token,
whose id is `RandStringRunes(32)`, of 32 such characters. -/
theorem token_format (src : Nat → Nat) (n : Nat) (core : authorization.Core) (now : Nat)
    (login : String) :
    ((authorization.RandStringRunes src n).length = n ∧
      ∀ c ∈ (authorization.RandStringRunes src n).data,
        c ∈ authorization.letterRunes ∧ c.isAlphanum = true) ∧
    ((core.CreateSession src now login).2.sessions
        = (core.sessions.AddSession
            { Login := login, SID := authorization.RandStringRunes src 32,
              ExpiresAt := now + 24 * Hour }).2 ∧
      (core.CreateCsrfToken src now).2.csrfTokens
        = (core.csrfTokens.AddCsrf
            { SID := authorization.RandStringRunes src 32, ExpiresAt := now + 3 * Hour }).2) ∧
    (((core.CreateSession src now login).1.1 = authorization.RandStringRunes src 32 ∨
        (core.CreateSession src now login).1.1 = "") ∧
      ((core.CreateCsrfToken src now).1.1 = authorization.RandStringRunes src 32 ∨
        (core.CreateCsrfToken src now).1.1 = "")) ∧
    (authorization.RandStringRunes src 32).length = 32 := by
  have hlen : ∀ k, (authorization.RandStringRunes src k).length = k := by
    intro k
    simp [authorization.RandStringRunes, String.length]
  refine ⟨⟨hlen n, ?_⟩, ⟨?_, ?_⟩, ⟨?_, ?_⟩, hlen 32⟩
  · intro c hc
    have hmem : c ∈ authorization.letterRunes := by
      simp only [authorization.RandStringRunes, List.mem_map] at hc
      obtain ⟨i, _, hi⟩ := hc
      rw [← hi]
      exact List.get_mem _ _ _
    have hall : ∀ x ∈ authorization.letterRunes, x.isAlphanum = true := by decide
    exact ⟨hmem, hall c hmem⟩
  · simp only [authorization.Core.CreateSession]
    split_ifs <;> rfl
  · simp only [authorization.Core.CreateCsrfToken]
    split_ifs <;> rfl
  · simp only [authorization.Core.CreateSession]
    split_ifs <;> simp
  · simp only [authorization.Core.CreateCsrfToken]
    split_ifs <;> simp

/-! ### CSRF check of the handlers -/

/-- C14, what the code does. `Signin`, `Signup` and `ChangeUserRole` drop the
boolean of `CheckCsrfToken` and answer 412 exactly when it returns an error.
A token that is not in the store gives `(false, nil)`, so a POST with such a
token goes through: `Signin` looks the account up, creates a session and
answers 200; `Signup` creates the account; `ChangeUserRole` changes the
role. -/
theorem csrf_not_enforced :
    ((∀ (core : authorization.ICore) (r : Request SigninRequest),
        (authorization.API.Signin core r).Status = 412
          ↔ r.Method = "POST" ∧ (core.CheckCsrfToken r.csrfToken).2 ≠ none) ∧
      (∀ (core : authorization.ICore) (r : Request SignupRequest),
        (authorization.API.Signup core r).Status = 412
          ↔ r.Method = "POST" ∧ (core.CheckCsrfToken r.csrfToken).2 ≠ none) ∧
      (∀ (core : authorization.ICore) (r : Request ChangeRoleRequest),
        (authorization.API.ChangeUserRole core r).Status = 412
          ↔ r.Method = "POST" ∧ (core.CheckCsrfToken r.csrfToken).2 ≠ none)) ∧
    (sampleCore.CheckCsrfToken "forged").1 = (false, none) ∧
    ((authorization.API.Signin openCore
          ⟨"POST", "forged", none, none, .decoded ⟨"alice", "secret"⟩⟩).Status = 200 ∧
      (authorization.API.Signin openCore
          ⟨"POST", "forged", none, none, .decoded ⟨"alice", "secret"⟩⟩).calls
        = [.CheckCsrfToken "forged", .FindUserAccount "alice" "secret",
            .CreateSession "alice"]) ∧
    ((authorization.API.Signup openCore
          ⟨"POST", "forged", none, none,
            .decoded ⟨"bob", "bob@example.org", "secret", "2001-02-03", "Bob"⟩⟩).Status = 200 ∧
      (authorization.API.Signup openCore
          ⟨"POST", "forged", none, none,
            .decoded ⟨"bob", "bob@example.org", "secret", "2001-02-03", "Bob"⟩⟩).calls
        = [.CheckCsrfToken "forged", .FindUserByLogin "bob",
            .CreateUserAccount "bob" "secret" "Bob" "2001-02-03" "bob@example.org"]) ∧
    ((authorization.API.ChangeUserRole openCore
          ⟨"POST", "forged", some "root-session", none,
            .decoded ⟨"alice", "moderator"⟩⟩).Status = 200 ∧
      (authorization.API.ChangeUserRole openCore
          ⟨"POST", "forged", some "root-session", none,
            .decoded ⟨"alice", "moderator"⟩⟩).calls
        = [.CheckCsrfToken "forged", .GetUserName "root-session", .GetUserRole "root",
            .ChangeUsersRole "alice" "moderator" "super"]) := by
  refine ⟨⟨?_, ?_, ?_⟩, by decide, ⟨by decide, by decide⟩, ⟨by decide, by decide⟩,
    ⟨by decide, by decide⟩⟩
  · intro core r
    unfold authorization.API.Signin
    by_cases hm : r.Method = "POST"
    · by_cases he : (core.CheckCsrfToken r.csrfToken).2 = none
      · simp only [hm, he, ne_eq, not_true_eq_false, if_false, and_false, iff_false]
        repeat' split
        all_goals simp
      · simp [hm, he]
    · simp [hm]
  · intro core r
    unfold authorization.API.Signup
    by_cases hm : r.Method = "POST"
    · by_cases he : (core.CheckCsrfToken r.csrfToken).2 = none
      · simp only [hm, he, ne_eq, not_true_eq_false, if_false, and_false, iff_false]
        repeat' split
        all_goals simp
      · simp [hm, he]
    · simp [hm]
  · intro core r
    unfold authorization.API.ChangeUserRole
    by_cases hm : r.Method = "POST"
    · by_cases he : (core.CheckCsrfToken r.csrfToken).2 = none
      · simp only [hm, he, ne_eq, not_true_eq_false, if_false, and_false, iff_false]
        repeat' split
        all_goals simp
      · simp [hm, he]
    · simp [hm]

/-! ### Deletes of comments and ratings -/

/-- Counterexample to C15 as stated: a caller whose session resolves to user 1
posts a body with `user_id` 2; `DeleteComment` and `DeleteRating` pass 2 to the
repository delete, and the same caller's request with `user_id` 1 deletes
another row. -/
theorem ownership_on_delete_counterexample :
    (comments.API.DeleteComment sampleComments
        ⟨"POST", "", some "sid", some 1, .decoded ⟨2, 5⟩⟩).calls = [.DeleteComment 2 5] ∧
    (comments.API.DeleteComment sampleComments
        ⟨"POST", "", some "sid", some 1, .decoded ⟨1, 5⟩⟩).calls = [.DeleteComment 1 5] ∧
    (films.API.DeleteRating sampleFilms
        ⟨"POST", "", some "sid", some 1, .decoded ⟨2, 5⟩⟩).calls = [.DeleteRating 2 5] ∧
    (films.API.DeleteRating sampleFilms
        ⟨"POST", "", some "sid", some 1, .decoded ⟨1, 5⟩⟩).calls = [.DeleteRating 1 5] := by
  decide

/-- C15, amended. For every POST whose body decodes, `DeleteComment` and
`DeleteRating` call the repository delete exactly once, with the `user_id` and
`film_id` of the body, and answer 200 when it succeeds and 500 when it fails;
the id stored under `UserIDKey`, the cookie and the header play no part, so
requests that differ only in them delete the same row. -/
theorem delete_uses_body_ids (cc : comments.Core) (fc : films.Core)
    (r : Request DeleteCommentRequest) (idUser idFilm : Nat)
    (hm : r.Method = "POST") (hb : r.body = .decoded ⟨idUser, idFilm⟩) :
    ((comments.API.DeleteComment cc r).calls = [.DeleteComment idUser idFilm] ∧
      (comments.API.DeleteComment cc r).Status
        = (if cc.comments.DeleteComment idUser idFilm = none then 200 else 500)) ∧
    ((films.API.DeleteRating fc r).calls = [.DeleteRating idUser idFilm] ∧
      (films.API.DeleteRating fc r).Status
        = (if fc.films.DeleteRating idUser idFilm = none then 200 else 500)) ∧
    (∀ (token : String) (cookie : Option String) (userId : Option Nat),
      comments.API.DeleteComment cc
          { r with csrfToken := token, session_id := cookie, userId := userId }
        = comments.API.DeleteComment cc r ∧
      films.API.DeleteRating fc
          { r with csrfToken := token, session_id := cookie, userId := userId }
        = films.API.DeleteRating fc r) := by
  refine ⟨⟨?_, ?_⟩, ⟨?_, ?_⟩, fun _ _ _ => ⟨rfl, rfl⟩⟩
  · simp only [comments.API.DeleteComment, comments.Core.DeleteComment, hm, hb]
    cases cc.comments.DeleteComment idUser idFilm <;> simp
  · simp only [comments.API.DeleteComment, comments.Core.DeleteComment, hm, hb]
    cases cc.comments.DeleteComment idUser idFilm <;> simp
  · simp only [films.API.DeleteRating, films.Core.DeleteRating, hm, hb]
    cases fc.films.DeleteRating idUser idFilm <;> simp
  · simp only [films.API.DeleteRating, films.Core.DeleteRating, hm, hb]
    cases fc.films.DeleteRating idUser idFilm <;> simp

/-- Witness of C15, amended: without any session, a POST with the body
`{user_id: 2, film_id: 5}` deletes the comment of user 2 on film 5. -/
theorem delete_uses_body_ids_witness :
    (comments.API.DeleteComment sampleComments
        ⟨"POST", "", none, none, .decoded ⟨2, 5⟩⟩).calls = [.DeleteComment 2 5] ∧
    (comments.API.DeleteComment sampleComments
        ⟨"POST", "", none, none, .decoded ⟨2, 5⟩⟩).Status = 200 := by
  have h := (delete_uses_body_ids sampleComments sampleFilms
    ⟨"POST", "", none, none, .decoded ⟨2, 5⟩⟩ 2 5 rfl rfl).1
  exact ⟨h.1, h.2⟩

/-! ### Use cases of the films and comments services -/

/-- C18. Search results and not-found: `Core.FindFilm` and `Core.FindActor`
call the repository once with their own arguments; when the repository fails
they return no list and an error wrapping the repository's error; when it
returns an empty list without error they return `(nil, ErrNotFound)`; when it
returns a non-empty list they return that list with a nil error. -/
theorem find_or_not_found (core : films.Core) (title dateFrom dateTo : String)
    (ratingFrom ratingTo : Float32) (mpaa : String) (genres : List Nat) (actors : List String)
    (name birthDate : String) (filmTitles career : List String) (country : String)
    (first limit : Nat) :
    ((core.FindFilm title dateFrom dateTo ratingFrom ratingTo mpaa genres actors first limit).2
        = [.FindFilm title dateFrom dateTo ratingFrom ratingTo mpaa genres actors first limit] ∧
      (∀ l, core.films.FindFilm title dateFrom dateTo ratingFrom ratingTo mpaa genres actors
            first limit = (l, none) →
        (l = [] →
          (core.FindFilm title dateFrom dateTo ratingFrom ratingTo mpaa genres actors
            first limit).1 = ([], some films.ErrNotFound)) ∧
        (l ≠ [] →
          (core.FindFilm title dateFrom dateTo ratingFrom ratingTo mpaa genres actors
            first limit).1 = (l, none))) ∧
      (∀ l e, core.films.FindFilm title dateFrom dateTo ratingFrom ratingTo mpaa genres actors
            first limit = (l, some e) →
        (core.FindFilm title dateFrom dateTo ratingFrom ratingTo mpaa genres actors
            first limit).1 = ([], some (.wrapped "find film err: %w" e)) ∧
        errors.Is (.wrapped "find film err: %w" e) e = true)) ∧
    ((core.FindActor name birthDate filmTitles career country first limit).2
        = [.FindActor name birthDate filmTitles career country first limit] ∧
      (∀ l, core.crew.FindActor name birthDate filmTitles career country first limit
            = (l, none) →
        (l = [] →
          (core.FindActor name birthDate filmTitles career country first limit).1
            = ([], some films.ErrNotFound)) ∧
        (l ≠ [] →
          (core.FindActor name birthDate filmTitles career country first limit).1
            = (l, none))) ∧
      (∀ l e, core.crew.FindActor name birthDate filmTitles career country first limit
            = (l, some e) →
        (core.FindActor name birthDate filmTitles career country first limit).1
            = ([], some (.wrapped "find actor err: %w" e)) ∧
        errors.Is (.wrapped "find actor err: %w" e) e = true)) := by
  refine ⟨⟨?_, ?_, ?_⟩, ⟨?_, ?_, ?_⟩⟩
  · simp only [films.Core.FindFilm]
    split
    · rfl
    · split_ifs <;> rfl
  · intro l hl
    simp only [films.Core.FindFilm, hl]
    constructor
    · intro h
      simp [h]
    · intro h
      simp [h]
  · intro l e hl
    simp only [films.Core.FindFilm, hl]
    exact ⟨trivial, (errors.Is_wrapped _ e).1⟩
  · simp only [films.Core.FindActor]
    split
    · rfl
    · split_ifs <;> rfl
  · intro l hl
    simp only [films.Core.FindActor, hl]
    constructor
    · intro h
      simp [h]
    · intro h
      simp [h]
  · intro l e hl
    simp only [films.Core.FindActor, hl]
    exact ⟨trivial, (errors.Is_wrapped _ e).1⟩

/-- Witness of C18: a repository that finds nothing gives `ErrNotFound`. -/
theorem find_or_not_found_witness :
    (films.Core.FindFilm sampleFilms "Dune" "" "" ⟨0⟩ ⟨0⟩ "" [] ["Zendaya"] 0 8).1
      = ([], some films.ErrNotFound) ∧
    (films.Core.FindActor sampleFilms "Zendaya" "" [] [] "" 0 8).1
      = ([], some films.ErrNotFound) := by
  have h := find_or_not_found sampleFilms "Dune" "" "" ⟨0⟩ ⟨0⟩ "" [] ["Zendaya"]
    "Zendaya" "" [] [] "" 0 8
  exact ⟨(h.1.2.1 [] rfl).1 rfl, (h.2.2.1 [] rfl).1 rfl⟩

/-- C19. Adding a favorite: `Core.FavoriteFilmsAdd` returns `ErrFoundFavorite`
after the one call of `CheckFilm`, without an insert, when `CheckFilm` reports
the pair present; when it reports the pair absent, `AddFavoriteFilm(userId,
filmId)` is called exactly once and the result is nil when it succeeds; when
`CheckFilm` or `AddFavoriteFilm` fails the result is an error wrapping the
failure, which is not `ErrFoundFavorite`.  The same for `FavoriteActorsAdd`
with `CheckActor` and `AddFavoriteActor`. -/
theorem favorite_add (core : films.Core) (userId filmId actorId : Nat) :
    ((core.films.CheckFilm userId filmId = (true, none) →
        core.FavoriteFilmsAdd userId filmId
          = (some films.ErrFoundFavorite, [.CheckFilm userId filmId])) ∧
      (core.films.CheckFilm userId filmId = (false, none) →
        (core.FavoriteFilmsAdd userId filmId).2
          = [.CheckFilm userId filmId, .AddFavoriteFilm userId filmId] ∧
        (core.films.AddFavoriteFilm userId filmId = none →
          (core.FavoriteFilmsAdd userId filmId).1 = none) ∧
        (∀ e, core.films.AddFavoriteFilm userId filmId = some e →
          (core.FavoriteFilmsAdd userId filmId).1
            = some (.wrapped "favorite film add err: %w" e))) ∧
      (∀ found e, core.films.CheckFilm userId filmId = (found, some e) →
        core.FavoriteFilmsAdd userId filmId
          = (some (.wrapped "favorite film add err: %w" e), [.CheckFilm userId filmId])) ∧
      (∀ e, Error.wrapped "favorite film add err: %w" e ≠ films.ErrFoundFavorite)) ∧
    ((core.crew.CheckActor userId actorId = (true, none) →
        core.FavoriteActorsAdd userId actorId
          = (some films.ErrFoundFavorite, [.CheckActor userId actorId])) ∧
      (core.crew.CheckActor userId actorId = (false, none) →
        (core.FavoriteActorsAdd userId actorId).2
          = [.CheckActor userId actorId, .AddFavoriteActor userId actorId] ∧
        (core.crew.AddFavoriteActor userId actorId = none →
          (core.FavoriteActorsAdd userId actorId).1 = none) ∧
        (∀ e, core.crew.AddFavoriteActor userId actorId = some e →
          (core.FavoriteActorsAdd userId actorId).1
            = some (.wrapped "favorite actors add err: %w" e))) ∧
      (∀ found e, core.crew.CheckActor userId actorId = (found, some e) →
        core.FavoriteActorsAdd userId actorId
          = (some (.wrapped "favorite actors add err: %w" e), [.CheckActor userId actorId])) ∧
      (∀ e, Error.wrapped "favorite actors add err: %w" e ≠ films.ErrFoundFavorite)) := by
  refine ⟨⟨?_, ?_, ?_, ?_⟩, ⟨?_, ?_, ?_, ?_⟩⟩
  · intro h
    simp [films.Core.FavoriteFilmsAdd, h]
  · intro h
    simp only [films.Core.FavoriteFilmsAdd, h]
    cases ha : core.films.AddFavoriteFilm userId filmId <;> simp
  · intro found e h
    simp [films.Core.FavoriteFilmsAdd, h]
  · intro e h
    cases h
  · intro h
    simp [films.Core.FavoriteActorsAdd, h]
  · intro h
    simp only [films.Core.FavoriteActorsAdd, h]
    cases ha : core.crew.AddFavoriteActor userId actorId <;> simp
  · intro found e h
    simp [films.Core.FavoriteActorsAdd, h]
  · intro e h
    cases h

/-- Witness of C19: on a repository without favorites the film is inserted
once. -/
theorem favorite_add_witness :
    films.Core.FavoriteFilmsAdd sampleFilms 1 5
      = (none, [.CheckFilm 1 5, .AddFavoriteFilm 1 5]) ∧
    films.Core.FavoriteActorsAdd sampleFilms 1 9
      = (none, [.CheckActor 1 9, .AddFavoriteActor 1 9]) := by
  have h := favorite_add sampleFilms 1 5 9
  exact ⟨Prod.ext ((h.1.2.1 rfl).2.1 rfl) (h.1.2.1 rfl).1,
    Prod.ext ((h.2.2.1 rfl).2.1 rfl) (h.2.2.1 rfl).1⟩

/-- C20. One rating and one comment per user and film: `Core.AddRating` returns
`(true, nil)` after the one call of `HasUsersRating`, without an insert, when
the repository reports a rating of the user for the film; otherwise it calls
`AddRating(filmId, userId, rating)` exactly once and returns `(false, nil)`
when that succeeds; when a repository call fails it returns `false` with an
error wrapping the failure.  The same for `Core.AddComment` of the comments
service with `HasUsersComment` and `AddComment`. -/
theorem one_rating_per_user (fc : films.Core) (cc : comments.Core)
    (filmId userId rating : Nat) (text : String) :
    ((fc.films.HasUsersRating userId filmId = (true, none) →
        fc.AddRating filmId userId rating = ((true, none), [.HasUsersRating userId filmId])) ∧
      (fc.films.HasUsersRating userId filmId = (false, none) →
        (fc.AddRating filmId userId rating).2
          = [.HasUsersRating userId filmId, .AddRating filmId userId rating] ∧
        (fc.films.AddRating filmId userId rating = none →
          (fc.AddRating filmId userId rating).1 = (false, none)) ∧
        (∀ e, fc.films.AddRating filmId userId rating = some e →
          (fc.AddRating filmId userId rating).1
            = (false, some (.wrapped "add rating err: %w" e)))) ∧
      (∀ found e, fc.films.HasUsersRating userId filmId = (found, some e) →
        fc.AddRating filmId userId rating
          = ((false, some (.wrapped "find users rating error: %w" e)),
            [.HasUsersRating userId filmId]))) ∧
    ((cc.comments.HasUsersComment userId filmId = (true, none) →
        cc.AddComment filmId userId rating text
          = ((true, none), [.HasUsersComment userId filmId])) ∧
      (cc.comments.HasUsersComment userId filmId = (false, none) →
        (cc.AddComment filmId userId rating text).2
          = [.HasUsersComment userId filmId, .AddComment filmId userId rating text] ∧
        (cc.comments.AddComment filmId userId rating text = none →
          (cc.AddComment filmId userId rating text).1 = (false, none)) ∧
        (∀ e, cc.comments.AddComment filmId userId rating text = some e →
          (cc.AddComment filmId userId rating text).1
            = (false, some (.wrapped "add comment err: %w" e)))) ∧
      (∀ found e, cc.comments.HasUsersComment userId filmId = (found, some e) →
        cc.AddComment filmId userId rating text
          = ((false, some (.wrapped "find users comment error: %w" e)),
            [.HasUsersComment userId filmId]))) := by
  refine ⟨⟨?_, ?_, ?_⟩, ⟨?_, ?_, ?_⟩⟩
  · intro h
    simp [films.Core.AddRating, h]
  · intro h
    simp only [films.Core.AddRating, h]
    cases ha : fc.films.AddRating filmId userId rating <;> simp
  · intro found e h
    simp [films.Core.AddRating, h]
  · intro h
    simp [comments.Core.AddComment, h]
  · intro h
    simp only [comments.Core.AddComment, h]
    cases ha : cc.comments.AddComment filmId userId rating text <;> simp
  · intro found e h
    simp [comments.Core.AddComment, h]

/-- Witness of C20: the first rating and the first comment of user 1 on film 5
are inserted once. -/
theorem one_rating_per_user_witness :
    films.Core.AddRating sampleFilms 5 1 9
      = ((false, none), [.HasUsersRating 1 5, .AddRating 5 1 9]) ∧
    comments.Core.AddComment sampleComments 5 1 9 "fine"
      = ((false, none), [.HasUsersComment 1 5, .AddComment 5 1 9 "fine"]) := by
  have h := one_rating_per_user sampleFilms sampleComments 5 1 9 "fine"
  exact ⟨Prod.ext ((h.1.2.1 rfl).2.1 rfl) (h.1.2.1 rfl).1,
    Prod.ext ((h.2.2.1 rfl).2.1 rfl) (h.2.2.1 rfl).1⟩

/-! ### Adding a film -/

/-- C21. `Core.AddFilm` calls `films.AddFilm(film)`, `films.GetFilmId(film.Title)`,
`genres.AddFilm(genres, id)` and `crew.AddFilm(actors, id)` in this order, `id`
being the value `GetFilmId` returned; it returns nil exactly when all four
succeed; when a step fails the result wraps the error of that step and the
calls stop with that step. -/
theorem add_film_steps (core : films.Core) (film : FilmItem) (genres actors : List Nat) :
    ((core.AddFilm film genres actors).1 = none ↔
      core.films.AddFilm film = none ∧ (core.films.GetFilmId film.Title).2 = none ∧
      core.genres.AddFilm genres (core.films.GetFilmId film.Title).1 = none ∧
      core.crew.AddFilm actors (core.films.GetFilmId film.Title).1 = none) ∧
    ((core.AddFilm film genres actors).1 = none →
      (core.AddFilm film genres actors).2
        = [.AddFilm film, .GetFilmId film.Title,
            .GenresAddFilm genres (core.films.GetFilmId film.Title).1,
            .CrewAddFilm actors (core.films.GetFilmId film.Title).1]) ∧
    (∀ e, core.films.AddFilm film = some e →
      core.AddFilm film genres actors
        = (some (.wrapped "add film err: %w" e), [.AddFilm film])) ∧
    (∀ e, core.films.AddFilm film = none → (core.films.GetFilmId film.Title).2 = some e →
      core.AddFilm film genres actors
        = (some (.wrapped "add film err: %w" e), [.AddFilm film, .GetFilmId film.Title])) ∧
    (∀ e, core.films.AddFilm film = none → (core.films.GetFilmId film.Title).2 = none →
      core.genres.AddFilm genres (core.films.GetFilmId film.Title).1 = some e →
      core.AddFilm film genres actors
        = (some (.wrapped "add film err: %w" e),
            [.AddFilm film, .GetFilmId film.Title,
              .GenresAddFilm genres (core.films.GetFilmId film.Title).1])) ∧
    (∀ e, core.films.AddFilm film = none → (core.films.GetFilmId film.Title).2 = none →
      core.genres.AddFilm genres (core.films.GetFilmId film.Title).1 = none →
      core.crew.AddFilm actors (core.films.GetFilmId film.Title).1 = some e →
      core.AddFilm film genres actors
        = (some (.wrapped "add film err: %w" e),
            [.AddFilm film, .GetFilmId film.Title,
              .GenresAddFilm genres (core.films.GetFilmId film.Title).1,
              .CrewAddFilm actors (core.films.GetFilmId film.Title).1])) ∧
    (∀ e, errors.Is (.wrapped "add film err: %w" e) e = true) := by
  simp only [films.Core.AddFilm]
  cases h1 : core.films.AddFilm film with
  | some e1 => simp [errors.Is_self, errors.Is]
  | none =>
    cases h2 : (core.films.GetFilmId film.Title).2 with
    | some e2 => simp [h2, errors.Is_self, errors.Is]
    | none =>
      cases h3 : core.genres.AddFilm genres (core.films.GetFilmId film.Title).1 with
      | some e3 => simp [h2, h3, errors.Is_self, errors.Is]
      | none =>
        cases h4 : core.crew.AddFilm actors (core.films.GetFilmId film.Title).1 with
        | some e4 => simp [h2, h3, h4, errors.Is_self, errors.Is]
        | none => simp [h2, h3, h4, errors.Is_self, errors.Is]

/-- Witness of C21: on repositories that accept everything the four steps run,
with the id 1 that `GetFilmId` returned. -/
theorem add_film_steps_witness :
    films.Core.AddFilm sampleFilms sampleFilm [1] [2]
      = (none,
          [.AddFilm sampleFilm, .GetFilmId "t", .GenresAddFilm [1] 1, .CrewAddFilm [2] 1]) := by
  have h := add_film_steps sampleFilms sampleFilm [1] [2]
  have hnil := h.1.2 ⟨rfl, rfl, rfl, rfl⟩
  exact Prod.ext hnil (h.2.1 hnil)

/-! ### Confirm after write -/

/-- A `Get` has a nil error exactly when the backend answers it and the key
holds a string. -/
theorem redis.Get_err_none_iff (c : redis.Client) (key : String) :
    (c.Get key).1.2 = none ↔ c.Answers ∧ ∃ v x, c.db key = some (.str v x) := by
  unfold redis.Client.Get redis.Client.Answers redis.replyGet
  cases hb : c.behaviour with
  | some f => cases f <;> simp
  | none =>
    cases hv : c.db key with
    | none => simp [redis.Nil]
    | some v => cases v <;> simp [redis.WrongType]

/-- What a check returns with the flag up, in terms of the error of its `Get`. -/
theorem SessionRepo.CheckActiveSession_true_iff (s : SessionRepo) (sid : String)
    (hs : s.Connection = true) :
    ((s.CheckActiveSession sid).1 = (true, none) ↔ (s.sessionRedisClient.Get sid).1.2 = none) ∧
    (∀ e, (s.CheckActiveSession sid).1.2 = some e → (s.sessionRedisClient.Get sid).1.2 = some e) ∧
    ((s.CheckActiveSession sid).1.2 ≠ none → (s.CheckActiveSession sid).1.1 = false) := by
  rw [SessionRepo.CheckActiveSession_eq s sid hs]
  cases hg : (s.sessionRedisClient.Get sid).1.2 with
  | none => simp
  | some e => by_cases he : e = redis.Nil <;> simp [he]

/-- What a check returns with the flag up, in terms of the error of its `Get`. -/
theorem CsrfRepo.CheckActiveCsrf_true_iff (c : CsrfRepo) (sid : String)
    (hc : c.Connection = true) :
    ((c.CheckActiveCsrf sid).1 = (true, none) ↔ (c.csrfRedisClient.Get sid).1.2 = none) ∧
    (∀ e, (c.CheckActiveCsrf sid).1.2 = some e → (c.csrfRedisClient.Get sid).1.2 = some e) ∧
    ((c.CheckActiveCsrf sid).1.2 ≠ none → (c.CheckActiveCsrf sid).1.1 = false) := by
  rw [CsrfRepo.CheckActiveCsrf_eq c sid hc]
  cases hg : (c.csrfRedisClient.Get sid).1.2 with
  | none => simp
  | some e => by_cases he : e = redis.Nil <;> simp [he]

/-- With the flag up `AddSession` returns what the confirming check returns. -/
theorem SessionRepo.AddSession_result (s : SessionRepo) (active : Session)
    (hs : s.Connection = true) :
    (s.AddSession active).1
      = (SessionRepo.CheckActiveSession
          ⟨(s.sessionRedisClient.Set active.SID active.Login (24 * Hour)).2, true⟩
          active.SID).1 := by
  have h := (SessionRepo.CheckActiveSession_true_iff
    ⟨(s.sessionRedisClient.Set active.SID active.Login (24 * Hour)).2, true⟩ active.SID rfl).2.2
  simp only [SessionRepo.AddSession, hs]
  split_ifs with h1 h2
  · simp at h1
  · exact Prod.ext (h h2).symm rfl
  · simp only [ne_eq, not_not] at h2
    exact Prod.ext rfl h2.symm

/-- With the flag up `AddCsrf` returns what the confirming check returns. -/
theorem CsrfRepo.AddCsrf_result (c : CsrfRepo) (active : Csrf) (hc : c.Connection = true) :
    (c.AddCsrf active).1
      = (CsrfRepo.CheckActiveCsrf
          ⟨(c.csrfRedisClient.Set active.SID active.SID (3 * Hour)).2, true⟩ active.SID).1 := by
  have h := (CsrfRepo.CheckActiveCsrf_true_iff
    ⟨(c.csrfRedisClient.Set active.SID active.SID (3 * Hour)).2, true⟩ active.SID rfl).2.2
  simp only [CsrfRepo.AddCsrf, hc]
  split_ifs with h1 h2
  · simp at h1
  · exact Prod.ext (h h2).symm rfl
  · simp only [ne_eq, not_not] at h2
    exact Prod.ext rfl h2.symm

/-- C22. Confirm-after-write decides the result: with the flag up and whatever
the backend does, `AddSession` returns what `CheckActiveSession` of the token
returns on the backend as the write attempt left it; the outcome of the write
is no part of it: an error returned is the error of the confirming read, and
the result is `(true, nil)` exactly when that read has a nil error, that is
when the backend answers it and the key holds a string.  The same for
`AddCsrf` and `CheckActiveCsrf`. -/
theorem confirm_after_write (s : SessionRepo) (c : CsrfRepo) (active : Session) (token : Csrf)
    (hs : s.Connection = true) (hc : c.Connection = true) :
    ((s.AddSession active).1
        = (SessionRepo.CheckActiveSession
            ⟨(s.sessionRedisClient.Set active.SID active.Login (24 * Hour)).2, true⟩
            active.SID).1 ∧
      ((s.AddSession active).1 = (true, none) ↔
        (s.sessionRedisClient.Set active.SID active.Login (24 * Hour)).2.Answers ∧
        ∃ v x, (s.sessionRedisClient.Set active.SID active.Login (24 * Hour)).2.db active.SID
          = some (.str v x)) ∧
      (∀ e, (s.AddSession active).1.2 = some e →
        ((s.sessionRedisClient.Set active.SID active.Login (24 * Hour)).2.Get
          active.SID).1.2 = some e)) ∧
    ((c.AddCsrf token).1
        = (CsrfRepo.CheckActiveCsrf
            ⟨(c.csrfRedisClient.Set token.SID token.SID (3 * Hour)).2, true⟩ token.SID).1 ∧
      ((c.AddCsrf token).1 = (true, none) ↔
        (c.csrfRedisClient.Set token.SID token.SID (3 * Hour)).2.Answers ∧
        ∃ v x, (c.csrfRedisClient.Set token.SID token.SID (3 * Hour)).2.db token.SID
          = some (.str v x)) ∧
      (∀ e, (c.AddCsrf token).1.2 = some e →
        ((c.csrfRedisClient.Set token.SID token.SID (3 * Hour)).2.Get token.SID).1.2
          = some e)) := by
  have h1 := SessionRepo.CheckActiveSession_true_iff
    ⟨(s.sessionRedisClient.Set active.SID active.Login (24 * Hour)).2, true⟩ active.SID rfl
  have h2 := CsrfRepo.CheckActiveCsrf_true_iff
    ⟨(c.csrfRedisClient.Set token.SID token.SID (3 * Hour)).2, true⟩ token.SID rfl
  rw [SessionRepo.AddSession_result s active hs, CsrfRepo.AddCsrf_result c token hc]
  exact ⟨⟨rfl, h1.1.trans (redis.Get_err_none_iff _ _), h1.2.1⟩,
    ⟨rfl, h2.1.trans (redis.Get_err_none_iff _ _), h2.2.1⟩⟩

/-- Witness of C22: the write is refused and the read answered on an empty
keyspace, so `AddSession` returns `(false, nil)`, without the error of the
write; the write is lost after it was executed, so `AddCsrf` returns
`(true, nil)`. -/
theorem confirm_after_write_witness :
    (SessionRepo.AddSession
        ⟨⟨fun _ => none, [some (.refused (.other "connection reset"))], []⟩, true⟩
        ⟨"alice", "abc", 0⟩).1 = (false, none) ∧
    (CsrfRepo.AddCsrf
        ⟨⟨fun _ => none, [some (.lost (.other "i/o timeout"))], []⟩, true⟩
        ⟨"x", 0⟩).1 = (true, none) := by
  have h := confirm_after_write
    ⟨⟨fun _ => none, [some (.refused (.other "connection reset"))], []⟩, true⟩
    ⟨⟨fun _ => none, [some (.lost (.other "i/o timeout"))], []⟩, true⟩
    ⟨"alice", "abc", 0⟩ ⟨"x", 0⟩ rfl rfl
  exact ⟨h.1.1.trans (by decide), h.2.1.trans (by decide)⟩

/-! ### The query builders -/

theorem strconv.Itoa_1 : strconv.Itoa 1 = "1" := by decide

theorem strconv.Itoa_2 : strconv.Itoa 2 = "2" := by decide

theorem strconv.Itoa_3 : strconv.Itoa 3 = "3" := by decide

theorem strconv.Itoa_4 : strconv.Itoa 4 = "4" := by decide

theorem strconv.Itoa_5 : strconv.Itoa 5 = "5" := by decide

theorem strconv.Itoa_6 : strconv.Itoa 6 = "6" := by decide

theorem strconv.Itoa_7 : strconv.Itoa 7 = "7" := by decide

theorem strconv.Itoa_8 : strconv.Itoa 8 = "8" := by decide

theorem strconv.Itoa_9 : strconv.Itoa 9 = "9" := by decide

theorem strconv.Itoa_10 : strconv.Itoa 10 = "10" := by decide

/-- C23. For every combination of empty and non-empty values of login, photo,
email, password and birthDate, the text and the arguments that `EditProfile`
hands to the database are those of `EditProfileSpec`: `UPDATE profile SET `,
the assignments `<col> = $i` of the non-empty fields in the order login,
photo, email, password, birth_date, separated by `, ` and numbered from 1,
then ` WHERE login = $(k+1)`, with the `k` values in the same order followed
by `prevLogin` as arguments.  With all five non-empty this is the statement
and the argument order of `TestEditProfile`. -/
theorem edit_profile_query (prevLogin login password email birthDate photo : String) :
    profile.EditProfileQuery prevLogin login password email birthDate photo
        = profile.EditProfileSpec prevLogin login password email birthDate photo
      ∧ (login ≠ "" → photo ≠ "" → email ≠ "" → password ≠ "" → birthDate ≠ "" →
          profile.EditProfileQuery prevLogin login password email birthDate photo
            = ("UPDATE profile SET login = $1, photo = $2, email = $3, password = $4, "
                ++ "birth_date = $5 WHERE login = $6",
              [.text login, .text photo, .text email, .text password, .text birthDate,
                .text prevLogin])) := by
  constructor
  · by_cases h1 : login = "" <;> by_cases h2 : photo = "" <;> by_cases h3 : email = "" <;>
      by_cases h4 : password = "" <;> by_cases h5 : birthDate = "" <;>
      simp [profile.EditProfileQuery, profile.EditProfileSpec, h1, h2, h3, h4, h5,
        List.enum, List.enumFrom, String.intercalate, String.intercalate.go,
        strconv.Itoa_1, strconv.Itoa_2, strconv.Itoa_3, strconv.Itoa_4, strconv.Itoa_5,
        strconv.Itoa_6]
  · intro h1 h2 h3 h4 h5
    simp [profile.EditProfileQuery, h1, h2, h3, h4, h5,
      strconv.Itoa_1, strconv.Itoa_2, strconv.Itoa_3, strconv.Itoa_4, strconv.Itoa_5,
      strconv.Itoa_6]

/-- C23 at the values of `TestEditProfile`. -/
theorem edit_profile_query_witness :
    profile.EditProfileQuery "l0" "l1" "p1" "e1" "2003-10-08" "ph1"
      = ("UPDATE profile SET login = $1, photo = $2, email = $3, password = $4, "
          ++ "birth_date = $5 WHERE login = $6",
        [.text "l1", .text "ph1", .text "e1", .text "p1", .text "2003-10-08", .text "l0"]) :=
  (edit_profile_query "l0" "l1" "p1" "e1" "2003-10-08" "ph1").2
    (by decide) (by decide) (by decide) (by decide) (by decide)

set_option maxRecDepth 100000 in
theorem film.FindFilmSpec_where (title dateFrom dateTo : String) (ratingFrom ratingTo : Float32)
    (mpaa : String) (genres : List Nat) (a : String) (as : List String) (first limit : Nat) :
    occurrences "WHERE".data
      (film.FindFilmSpec title dateFrom dateTo ratingFrom ratingTo mpaa genres (a :: as)
        first limit).1.data ≤ 1 := by
  by_cases h1 : title = "" <;> by_cases h2 : dateFrom = "" <;> by_cases h3 : dateTo = "" <;>
    by_cases h4 : mpaa = "" <;> by_cases h5 : a = "" <;> cases genres <;>
    simp only [film.FindFilmSpec, film.FindFilmFilters, h1, h2, h3, h4, h5, ne_eq,
      not_true_eq_false, not_false_eq_true, if_true, if_false, List.head?_cons,
      Option.some.injEq, reduceCtorEq, List.append_nil, List.nil_append,
      List.cons_append, List.enum, List.enumFrom, List.map_cons, List.map_nil,
      List.length_cons, List.length_nil] <;>
    decide

/-- C24. For every combination of filters with `len(actors) >= 1`, `FindFilm`
hands to the database the text and the arguments of `FindFilmSpec`: the
active filter conditions, the first behind `WHERE`, the later ones behind
`AND`, the `i`-th with the placeholder `$i`, then the tail with the next four
placeholders for `ratingFrom`, `ratingTo`, `LIMIT` and `OFFSET`, and as
arguments the values of the filters in that order followed by `ratingFrom`,
`ratingTo`, `limit` and `first`.  The text contains `WHERE` at most once, the
number of arguments is the number of active filters plus four, and without
an active filter text and arguments are those of `TestFindFilm`. -/
theorem find_film_query (title dateFrom dateTo : String) (ratingFrom ratingTo : Float32)
    (mpaa : String) (genres : List Nat) (a : String) (as : List String) (first limit : Nat) :
    film.FindFilmQuery title dateFrom dateTo ratingFrom ratingTo mpaa genres (a :: as) first
        limit
      = some (film.FindFilmSpec title dateFrom dateTo ratingFrom ratingTo mpaa genres (a :: as)
          first limit)
    ∧ occurrences "WHERE".data
        (film.FindFilmSpec title dateFrom dateTo ratingFrom ratingTo mpaa genres (a :: as)
          first limit).1.data ≤ 1
    ∧ (film.FindFilmSpec title dateFrom dateTo ratingFrom ratingTo mpaa genres (a :: as)
          first limit).2.length
        = (film.FindFilmFilters title dateFrom dateTo mpaa genres (a :: as)).length + 4
    ∧ film.FindFilmQuery "" "" "" ratingFrom ratingTo "" [] ("" :: as) first limit
      = some ("SELECT DISTINCT film.title, film.id, film.poster, AVG(users_comment.rating) "
          ++ "FROM film JOIN films_genre ON film.id = films_genre.id_film "
          ++ "LEFT JOIN users_comment ON film.id = users_comment.id_film "
          ++ "JOIN person_in_film ON film.id = person_in_film.id_film "
          ++ "JOIN crew ON person_in_film.id_person = crew.id "
          ++ "GROUP BY film.title, film.id HAVING (AVG(users_comment.rating) >= $1 "
          ++ "AND AVG(users_comment.rating) <= $2) OR AVG(users_comment.rating) IS NULL "
          ++ "ORDER BY film.title LIMIT $3 OFFSET $4",
        [.float32 ratingFrom, .float32 ratingTo, .uint64 limit, .uint64 first]) := by
  refine ⟨?_, ?_, ?_, ?_⟩
  · by_cases h1 : title = "" <;> by_cases h2 : dateFrom = "" <;> by_cases h3 : dateTo = "" <;>
      by_cases h4 : mpaa = "" <;> by_cases h5 : a = "" <;> cases genres <;>
      simp [-String.reduceAppend, film.FindFilmQuery, film.FindFilmSpec, film.FindFilmFilters,
        film.Builder.condition, film.Builder.whereOrAnd, h1, h2, h3, h4, h5,
        List.enum, List.enumFrom, String.join, String.append_assoc,
        strconv.Itoa_1, strconv.Itoa_2, strconv.Itoa_3, strconv.Itoa_4, strconv.Itoa_5,
        strconv.Itoa_6, strconv.Itoa_7, strconv.Itoa_8, strconv.Itoa_9, strconv.Itoa_10]
  · exact film.FindFilmSpec_where title dateFrom dateTo ratingFrom ratingTo mpaa genres a as
      first limit
  · simp [film.FindFilmSpec]
  · simp [film.FindFilmQuery, film.selectFilms, film.groupFilms,
      strconv.Itoa_1, strconv.Itoa_2, strconv.Itoa_3, strconv.Itoa_4]

/-- C24 at a request with a title, a closing date, a genre and an actor. -/
theorem find_film_query_witness :
    film.FindFilmQuery "t" "" "2020" ⟨0⟩ ⟨10⟩ "" [1] ["a"] 0 1
      = some (film.FindFilmSpec "t" "" "2020" ⟨0⟩ ⟨10⟩ "" [1] ["a"] 0 1) :=
  (find_film_query "t" "" "2020" ⟨0⟩ ⟨10⟩ "" [1] "a" [] 0 1).1

theorem crew.FindActorFilters_paramNum (name birthDate : String) (films career : List String)
    (b : Builder) (h : crew.FindActorFilters name birthDate films career = some b) :
    b.params.length + 1 = b.paramNum := by
  cases films with
  | nil => simp [crew.FindActorFilters] at h
  | cons f fs =>
    cases career with
    | nil => simp [crew.FindActorFilters] at h
    | cons c cs =>
      simp only [crew.FindActorFilters, Option.some.injEq] at h
      subst h
      by_cases h1 : name = "" <;> by_cases h2 : birthDate = "" <;> by_cases h3 : f = "" <;>
        by_cases h4 : c = "" <;>
        simp [film.Builder.condition, film.Builder.whereOrAnd, h1, h2, h3, h4]

/-- C27, what the code does. The builder `b` that `FindActor` has after the
filters name, birthDate, films and career has `paramNum = len(params) + 1`,
and without a country the text ends in `LIMIT $paramNum OFFSET $(paramNum+1)`
with the arguments `limit` and `first` behind those of the filters.  With a
country the condition `country = $paramNum` is written and the country
appended, but `paramNum` stays: the text goes on with
`LIMIT $paramNum OFFSET $(paramNum+1)` while the arguments are those of the
filters followed by country, `limit` and `first`.  So the placeholder of
`LIMIT` is the one of the country, the placeholder of `OFFSET` is bound to
`limit`, and `first` is an argument that no placeholder names.  For the
request with only the country `USA`, page size 8 and offset 0 the text ends
in `WHERE country = $1LIMIT $1 OFFSET $2` with the three arguments `USA`, 8
and 0. -/
theorem find_actor_country_placeholder :
    (∀ (name birthDate : String) (films career : List String) (b : Builder),
      crew.FindActorFilters name birthDate films career = some b →
        b.params.length + 1 = b.paramNum) ∧
    (∀ (name birthDate : String) (films career : List String) (first limit : Nat) (b : Builder),
      crew.FindActorFilters name birthDate films career = some b →
        crew.FindActorQuery name birthDate films career "" first limit
          = some (b.s ++ ("LIMIT $" ++ strconv.Itoa b.paramNum ++ " OFFSET $"
              ++ strconv.Itoa (b.paramNum + 1)),
            b.params ++ [.uint64 limit, .uint64 first])) ∧
    (∀ (name birthDate : String) (films career : List String) (country : String)
        (first limit : Nat) (b : Builder),
      crew.FindActorFilters name birthDate films career = some b → country ≠ "" →
        crew.FindActorQuery name birthDate films career country first limit
          = some (b.s ++ (if b.hasWhere then "AND " else "WHERE ")
              ++ ("country = $" ++ strconv.Itoa b.paramNum)
              ++ ("LIMIT $" ++ strconv.Itoa b.paramNum ++ " OFFSET $"
                ++ strconv.Itoa (b.paramNum + 1)),
            b.params ++ [.text country, .uint64 limit, .uint64 first])) ∧
    crew.FindActorQuery "" "" [""] [""] "USA" 0 8
      = some ("SELECT DISTINCT crew.id, crew.name, crew.photo FROM crew "
          ++ "JOIN person_in_film ON crew.id = person_in_film.id_person "
          ++ "JOIN film ON person_in_film.id_film = film.id "
          ++ "JOIN profession ON person_in_film.id_profession = profession.id "
          ++ "WHERE country = $1LIMIT $1 OFFSET $2",
        [.text "USA", .uint64 8, .uint64 0]) := by
  refine ⟨crew.FindActorFilters_paramNum, ?_, ?_, ?_⟩
  · intro name birthDate films career first limit b h
    simp [crew.FindActorQuery, h]
  · intro name birthDate films career country first limit b h hc
    simp only [crew.FindActorQuery, h]
    cases hw : b.hasWhere <;> simp [hc, hw]
  · simp [crew.FindActorQuery, crew.FindActorFilters, crew.selectActors, strconv.Itoa_1,
      strconv.Itoa_2]

/-- C28, what the code does. `FindFilm` evaluates `actors[0]` and `FindActor`
evaluates `films[0]` and `career[0]` without a test of the length: for every
other argument, an empty (or nil) actors slice stops `FindFilm` and an empty
films or career slice stops `FindActor` with the index-out-of-range panic
before the query is sent; the genres of `FindFilm`, tested with
`len(genres) > 0`, may be empty. -/
theorem search_builders_index_empty :
    (∀ (title dateFrom dateTo : String) (ratingFrom ratingTo : Float32) (mpaa : String)
        (genres : List Nat) (first limit : Nat),
      film.FindFilmQuery title dateFrom dateTo ratingFrom ratingTo mpaa genres [] first limit
        = none) ∧
    (∀ (name birthDate : String) (career : List String) (country : String) (first limit : Nat),
      crew.FindActorQuery name birthDate [] career country first limit = none) ∧
    (∀ (name birthDate : String) (films : List String) (country : String) (first limit : Nat),
      crew.FindActorQuery name birthDate films [] country first limit = none) ∧
    (film.FindFilmQuery "t" "" "" ⟨0⟩ ⟨10⟩ "" [] [""] 0 8).isSome = true ∧
    film.FindFilmQuery "t" "" "" ⟨0⟩ ⟨10⟩ "" [] [] 0 8 = none ∧
    crew.FindActorQuery "n1" "" [] [] "" 0 8 = none := by
  refine ⟨fun _ _ _ _ _ _ _ _ _ => rfl, fun _ _ _ _ _ _ => rfl, ?_, by decide, rfl, rfl⟩
  intro name birthDate films country first limit
  cases films <;> rfl

/-! ### The calendar -/

theorem comments.decorate_range (names paths : List String) (cs0 : List CommentItem)
    (hn : names.length = cs0.length) (hp : paths.length = cs0.length) (k : Nat)
    (hk : k ≤ cs0.length) :
    ∃ cs, (List.range k).foldlM (comments.decorateStep names paths) cs0 = some cs
      ∧ cs.length = cs0.length
      ∧ ∀ i, cs[i]? = if i < k then (cs0[i]?).bind (fun c => comments.decorated names paths c i)
          else cs0[i]? := by
  induction k with
  | zero => exact ⟨cs0, by simp, rfl, by simp⟩
  | succ k ih =>
    obtain ⟨cs, h1, h2, h3⟩ := ih (by omega)
    have hk1 : k < cs0.length := by omega
    obtain ⟨c, hc⟩ : ∃ c, cs0[k]? = some c := ⟨cs0[k], by simp [hk1]⟩
    obtain ⟨name, hname⟩ : ∃ x, names[k]? = some x := ⟨names[k], by simp [hn, hk1]⟩
    obtain ⟨path, hpath⟩ : ∃ x, paths[k]? = some x := ⟨paths[k], by simp [hp, hk1]⟩
    have hck : cs[k]? = some c := by rw [h3 k]; simp [hc]
    refine ⟨cs.set k { c with Username := name, Photo := path }, ?_, by simp [h2], ?_⟩
    · rw [List.range_succ, List.foldlM_append, h1]
      simp [comments.decorateStep, hck, hname, hpath]
    · intro i
      rw [List.getElem?_set]
      by_cases hik : k = i
      · subst hik
        simp [h2, hk1, hc, comments.decorated, hname, hpath]
      · rw [if_neg hik, h3 i]
        by_cases h4 : i < k
        · simp [h4, Nat.lt_succ_of_lt h4]
        · have : ¬ i < k + 1 := by omega
          simp [h4, this]

/-- C26, the claim as worded fails. The ids of the request are the user ids
converted with `int32`: for a comment of the user `2 ^ 31` the use case asks
the authorization service for the id `-2147483648`, which is not the user id
of the comment. -/
theorem comment_ids_counterexample :
    comments.Core.GetFilmComments bigIdComments 1 0 10
        = some (([⟨2147483648, "ann", 1, 8, "good", "a.png"⟩], none),
            [.GetIdsAndPaths ⟨[-2147483648]⟩])
      ∧ (-2147483648 : Int) ≠ ((2147483648 : Nat) : Int) := by
  constructor
  · rfl
  · decide

/-- C26, amended. For a page of comments `cs` from the repository, the use case
sends one request, whose ids are the user ids of the comments in order, each
converted with `int32` (the user id itself when it is below `2 ^ 31`); for an
answer whose names and paths both have the length of `cs` it returns as many
comments in the same order, the one at the index `i` being the comment of the
repository with `Username = Names[i]` and `Photo = Paths[i]` and every other
field unchanged. -/
theorem comment_decoration (core : comments.Core) (filmId first limit : Nat)
    (cs : List CommentItem) (resp : NamesAndPathsResponse)
    (hrepo : core.comments.GetFilmComments filmId first limit = (cs, none))
    (hclient : core.client.GetIdsAndPaths ⟨cs.map (fun c => int32 c.IdUser)⟩ = .ok resp)
    (hn : resp.Names.length = cs.length) (hp : resp.Paths.length = cs.length) :
    ∃ out, core.GetFilmComments filmId first limit
        = some ((out, none), [.GetIdsAndPaths ⟨cs.map (fun c => int32 c.IdUser)⟩])
      ∧ out.length = cs.length
      ∧ (∀ i, out[i]? = cs[i]?.bind (fun c => comments.decorated resp.Names resp.Paths c i))
      ∧ (∀ c ∈ cs, c.IdUser < 2 ^ 31 → int32 c.IdUser = (c.IdUser : Int)) := by
  obtain ⟨out, h1, h2, h3⟩ :=
    comments.decorate_range resp.Names resp.Paths cs hn hp cs.length (Nat.le_refl _)
  refine ⟨out, ?_, h2, ?_, ?_⟩
  · simp only [comments.Core.GetFilmComments, hrepo, hclient, hn, h1]
  · intro i
    rw [h3 i]
    by_cases hi : i < cs.length
    · simp [hi]
    · have : cs[i]? = none := List.getElem?_eq_none (by omega)
      simp [hi, this]
  · intro c _ hc
    have h32 : c.IdUser % 2 ^ 32 = c.IdUser := Nat.mod_eq_of_lt (by omega)
    unfold int32
    rw [h32, if_pos hc]

/-- C26, amended, at a page of two comments. -/
theorem comment_decoration_witness :
    ∃ out, comments.Core.GetFilmComments twoComments 1 0 10
        = some ((out, none), [.GetIdsAndPaths ⟨[7, 9]⟩])
      ∧ out.length = 2
      ∧ out[0]? = some ⟨7, "ann", 1, 8, "good", "a.png"⟩
      ∧ out[1]? = some ⟨9, "bob", 1, 3, "dull", "b.png"⟩ := by
  obtain ⟨out, h1, h2, h3, _⟩ := comment_decoration twoComments 1 0 10
    [⟨7, "", 1, 8, "good", ""⟩, ⟨9, "", 1, 3, "dull", ""⟩] ⟨["ann", "bob"], ["a.png", "b.png"]⟩
    rfl rfl rfl rfl
  exact ⟨out, h1, h2, by rw [h3 0]; rfl, by rw [h3 1]; rfl⟩

/-! ### The page of a film -/

/-- C29, what the code does. A films core whose store of recently viewed films
has lost its connection answers `AddNearFilm` with `(false, nil)`.  For an
authenticated `GET` of a film that exists the handler `Film` sends the status
200 and then ends in a run-time panic exactly when `AddNearFilm` answers
`(false, nil)`: it evaluates `err.Error()` on the nil `err`.  The answers
`(true, nil)` and `(false, err)` let it return.  So the request of the user 1
for the film 5 on a core with the lost connection ends in the panic. -/
theorem near_film_nil_error :
    (∀ (c : films.Core) (active : NearFilm), c.nearFilms.Connection = false →
      (c.AddNearFilm active).1 = (false, none)) ∧
    (∀ (core : films.ICore) (r : GetRequest) (filmId userId : Nat),
      r.Method = "GET" → strconv.ParseUint (r.query "film_id") = some filmId →
      (core.GetFilmInfo filmId).2 = none → r.userId = some userId →
        (films.API.Film core r).Status = 200 ∧
        (films.API.Film core r).calls = [.GetFilmInfo filmId, .AddNearFilm ⟨filmId, userId⟩] ∧
        ((films.API.Film core r).panicked = true
          ↔ core.AddNearFilm ⟨filmId, userId⟩ = (false, none))) ∧
    (films.API.Film softFailFilms viewer).Status = 200 ∧
    (films.API.Film softFailFilms viewer).calls = [.GetFilmInfo 5, .AddNearFilm ⟨5, 1⟩] ∧
    (films.API.Film softFailFilms viewer).panicked = true := by
  refine ⟨?_, ?_, by decide, by decide, by decide⟩
  · intro c active hc
    simp [films.Core.AddNearFilm, FilmRedisRepo.AddNearFilm, hc]
  · intro core r filmId userId hm hf hg hu
    simp only [films.API.Film, hm, hf, hg, hu]
    cases h2 : (core.AddNearFilm ⟨filmId, userId⟩).2 with
    | some err =>
      refine ⟨by simp, by simp, ?_⟩
      constructor
      · intro h
        simp at h
      · intro h
        rw [h] at h2
        simp at h2
    | none =>
      cases h1 : (core.AddNearFilm ⟨filmId, userId⟩).1 with
      | true =>
        refine ⟨by simp, by simp, ?_⟩
        constructor
        · intro h
          simp at h
        · intro h
          rw [h] at h1
          simp at h1
      | false =>
        refine ⟨by simp, by simp, ?_⟩
        constructor
        · intro _
          exact Prod.ext h1 h2
        · intro _
          simp

/-! ### Pagination -/

theorem strconv.parseLoop_lt (cs : List Char) (n m : Nat) (hn : n < 2 ^ 64)
    (h : strconv.parseLoop cs n = some m) : m < 2 ^ 64 := by
  induction cs generalizing n with
  | nil =>
    simp only [strconv.parseLoop, Option.some.injEq] at h
    omega
  | cons c cs ih =>
    simp only [strconv.parseLoop] at h
    split_ifs at h
    exact ih _ (Nat.mod_lt _ (by norm_num)) h

theorem strconv.ParseUint_lt (s : String) (m : Nat) (h : strconv.ParseUint s = some m) :
    m < 2 ^ 64 := by
  unfold strconv.ParseUint at h
  split_ifs at h
  exact strconv.parseLoop_lt _ 0 m (by norm_num) h

theorem mod_sub_one_mul (M page ps : Nat) (hM : 1 ≤ M) :
    (((page + M - 1) * ps % M : Nat) : Int) = ((page : Int) - 1) * (ps : Int) % (M : Int) := by
  have h1 : 1 ≤ page + M := by omega
  rw [Int.natCast_mod, Nat.cast_mul, Nat.cast_sub h1, Nat.cast_add]
  have h2 : ((page : Int) + (M : Int) - ((1 : Nat) : Int)) * (ps : Int)
      = ((page : Int) - 1) * (ps : Int) + (M : Int) * (ps : Int) := by
    push_cast
    ring
  rw [h2, Int.add_mul_emod_self_left]

theorem toNat_emod_of_lt (M n : Nat) (h : n < M) : ((n : Int) % (M : Int)).toNat = n := by
  rw [Int.emod_eq_of_lt (Int.natCast_nonneg _) (by exact_mod_cast h)]
  exact Int.toNat_natCast _

theorem neg_emod_toNat (M s : Nat) (h0 : 0 < s) (hs : s < M) :
    ((((0 : Nat) : Int) - 1) * (s : Int) % (M : Int)).toNat = M - s := by
  have h1 : (((0 : Nat) : Int) - 1) * (s : Int) = ((M - s : Nat) : Int) + (M : Int) * (-1) := by
    push_cast [Nat.cast_sub (Nat.le_of_lt hs)]
    ring
  rw [h1, Int.add_mul_emod_self_left]
  exact toNat_emod_of_lt M (M - s) (by omega)

theorem pageOffset_eq (page pageSize : Nat) :
    uint64.mul (uint64.sub page 1) pageSize = pageOffset page pageSize := by
  have h := mod_sub_one_mul (2 ^ 64) page pageSize (by norm_num)
  have h1 : (1 : Nat) % 2 ^ 64 = 1 := by norm_num
  unfold uint64.mul uint64.sub pageOffset
  rw [h1, Nat.mod_mul_mod]
  have h2 : (((2 ^ 64 : Nat) : Int)) = (2 ^ 64 : Int) := by norm_cast
  rw [h2] at h
  rw [← h]
  exact (Int.toNat_natCast _).symm

theorem pageOffset_of_pos (page pageSize : Nat) (hp : 1 ≤ page)
    (h : (page - 1) * pageSize < 2 ^ 64) : pageOffset page pageSize = (page - 1) * pageSize := by
  have h1 : ((page : Int) - 1) * (pageSize : Int) = (((page - 1) * pageSize : Nat) : Int) := by
    push_cast [Nat.cast_sub hp]
    ring
  have h2 : (((2 ^ 64 : Nat) : Int)) = (2 ^ 64 : Int) := by norm_cast
  unfold pageOffset
  rw [h1, ← h2]
  exact toNat_emod_of_lt _ _ h

theorem pageOffset_zero (s : Nat) (h0 : 0 < s) (hs : s < 2 ^ 64) :
    pageOffset 0 s = 2 ^ 64 - s := by
  have h := neg_emod_toNat (2 ^ 64) s h0 hs
  have h2 : (((2 ^ 64 : Nat) : Int)) = (2 ^ 64 : Int) := by norm_cast
  rw [h2] at h
  exact h

theorem getD_eq_match (o : Option Nat) (d : Nat) :
    (match o with
      | some x => x
      | none => d) = o.getD d := by
  cases o <;> rfl

theorem paging_limit_lt (r : GetRequest) (key : String) (d : Nat) (hd : d < 2 ^ 64) :
    (paging r key d).2 < 2 ^ 64 := by
  unfold paging
  cases h : strconv.ParseUint (r.query key) with
  | none => simpa using hd
  | some m => simpa using strconv.ParseUint_lt _ m h

/-- C30. In the five list handlers the offset handed to the use case is
`(page - 1) * pageSize` modulo `2 ^ 64` and the limit is `pageSize`, the page
being the parameter `page` or 1 and the page size the parameter `page_size`
(`Films`) or `per_page` (the others), or else 8 (`Films`, `FavoriteFilms`,
`FavoriteActors`) or 10 (`Comment`, `GetUsers`).  Hence a request without
these parameters has the offset 0, a page from 1 on has the offset
`(page - 1) * pageSize` when that is below `2 ^ 64`, and the page 0 with a
page size `s > 0` has the offset `2 ^ 64 - s`. -/
theorem pagination_offset :
    (∀ (core : films.ICore) (r : GetRequest), r.Method = "GET" →
      (films.API.Films core r).calls
        = [.GetFilmsAndGenreTitle ((strconv.ParseUint (r.query "collection_id")).getD 0)
            (paging r "page_size" 8).1 (paging r "page_size" 8).2]) ∧
    (∀ (core : films.ICore) (r : GetRequest) (userId : Nat),
      r.Method = "GET" → r.userId = some userId →
        (films.API.FavoriteFilms core r).calls
          = [.FavoriteFilms userId (paging r "per_page" 8).1 (paging r "per_page" 8).2]) ∧
    (∀ (core : films.ICore) (r : GetRequest) (userId : Nat),
      r.Method = "GET" → r.userId = some userId →
        (films.API.FavoriteActors core r).calls
          = [.FavoriteActors userId (paging r "per_page" 8).1 (paging r "per_page" 8).2]) ∧
    (∀ (core : comments.ICore) (r : GetRequest) (filmId : Nat),
      r.Method = "GET" → strconv.ParseUint (r.query "film_id") = some filmId →
        (comments.API.Comment core r).calls
          = [.GetFilmComments filmId (paging r "per_page" 10).1 (paging r "per_page" 10).2]) ∧
    (∀ (core : authorization.ICore) (r : GetRequest), r.Method = "GET" →
      (authorization.API.GetUsers core r).calls
        = [.FindUsers (r.query "login") (r.query "role") (paging r "per_page" 10).1
            (paging r "per_page" 10).2]) ∧
    (∀ (r : GetRequest) (key : String) (d : Nat),
      strconv.ParseUint (r.query "page") = none → strconv.ParseUint (r.query key) = none →
        paging r key d = (0, d)) ∧
    (∀ (r : GetRequest) (key : String) (d page : Nat),
      strconv.ParseUint (r.query "page") = some page → 1 ≤ page →
      (page - 1) * (paging r key d).2 < 2 ^ 64 →
        (paging r key d).1 = (page - 1) * (paging r key d).2) ∧
    (∀ (r : GetRequest) (key : String) (d : Nat),
      strconv.ParseUint (r.query "page") = some 0 → d < 2 ^ 64 → 0 < (paging r key d).2 →
        (paging r key d).1 = 2 ^ 64 - (paging r key d).2) := by
  refine ⟨?_, ?_, ?_, ?_, ?_, ?_, ?_, ?_⟩
  · intro core r hm
    simp only [films.API.Films, hm, paging, getD_eq_match, ne_eq,
      not_true_eq_false, if_false]
    split_ifs <;> simp [pageOffset_eq]
  · intro core r userId hm hu
    simp only [films.API.FavoriteFilms, hm, hu, paging, getD_eq_match, ne_eq,
      not_true_eq_false, if_false]
    split_ifs <;> simp [pageOffset_eq]
  · intro core r userId hm hu
    simp only [films.API.FavoriteActors, hm, hu, paging, getD_eq_match, ne_eq,
      not_true_eq_false, if_false]
    split_ifs <;> simp [pageOffset_eq]
  · intro core r filmId hm hf
    simp only [comments.API.Comment, hm, hf, paging, getD_eq_match, ne_eq,
      not_true_eq_false, if_false]
    split_ifs <;> simp [pageOffset_eq]
  · intro core r hm
    simp only [authorization.API.GetUsers, hm, paging, getD_eq_match, ne_eq,
      not_true_eq_false, if_false]
    split <;> (try split_ifs) <;> simp [pageOffset_eq]
  · intro r key d h1 h2
    simp [paging, h1, h2, pageOffset]
  · intro r key d page h1 hp h
    simp only [paging, h1, Option.getD_some] at h ⊢
    exact pageOffset_of_pos _ _ hp h
  · intro r key d h1 hd h0
    have hlt := paging_limit_lt r key d hd
    simp only [paging, h1, Option.getD_some] at h0 hlt ⊢
    exact pageOffset_zero _ h0 hlt

/-- C30 at the page 3 with 5 items per page: the offset is 10 and the limit 5. -/
theorem pagination_offset_witness :
    (films.API.Films softFailFilms thirdPage).calls = [.GetFilmsAndGenreTitle 0 10 5] ∧
    (comments.API.Comment noComments thirdPage).calls = [.GetFilmComments 5 10 5] ∧
    (authorization.API.GetUsers openCore thirdPage).calls = [.FindUsers "" "" 10 5] := by
  have h := pagination_offset
  refine ⟨(h.1 softFailFilms thirdPage rfl).trans ?_,
    (h.2.2.2.1 noComments thirdPage 5 rfl (by decide)).trans ?_,
    (h.2.2.2.2.1 openCore thirdPage rfl).trans ?_⟩
  all_goals decide

end Vkladyshi
